import Mathlib

/-!
# Feature derivation of `src/duk_features.h`

The header is a preprocessor program: it reads the macros predefined by the
compiler, by the system headers and by the embedding application, and it
defines or undefines `DUK_USE_xxx` macros; an `#error` directive aborts it.

The embedding below follows the header section by section.

* `Env` is the set of compiler and system-header macros the header tests
  (the platform facts).  A macro that carries a number is an `Option Int`
  (`none` when it is not defined), a macro only tested with `defined(..)`
  is a `Bool`.
* `Table` is the set of `DUK_xxx` macros the header defines, undefines or
  reads back: `t f = true` means that `f` is defined.  `define` and `undef`
  are the two preprocessor directives.  The table the header starts from is
  the one given by the embedding application (for the custom profile every
  `DUK_USE_xxx` macro comes from there).
* every section of the header is one function on tables; a section which
  contains an `#error` returns `Except DukError Table`, and the first
  `#error` reached ends the derivation.
* the internal `DUK_F_xxx` macros and `DUK_RDTSC_AVAILABLE` are functions of
  `Env`: the header states that they are not to be used outside of it, so
  they are undefined when it starts.
* macros which carry a C expression and not a flag (`DUK_MEMCPY`,
  `DUK_DOUBLE_INFINITY`, `DUK_FP_NAN`, the typedefs, ...) are not part of
  the table; `DUK_OPT_TRACEBACK_DEPTH` is followed as a flag only.
-/

namespace DukFeatures

/-! ## Data model -/

/-- Macros of the flag table. -/
inductive DukFlag
  /- feature selection defines for the system headers, lines 117-121 -/
  | _POSIX_C_SOURCE
  | _GNU_SOURCE
  | _XOPEN_SOURCE
  /- IEEE double memory layout, lines 137-259 -/
  | DUK_USE_DOUBLE_LE
  | DUK_USE_DOUBLE_ME
  | DUK_USE_DOUBLE_BE
  /- lines 207-216 and 265-271 -/
  | DUK_USE_UNALIGNED_ACCESSES_POSSIBLE
  | DUK_USE_PACKED_TVAL_POSSIBLE
  /- double constants and math functions, lines 285-372 -/
  | DUK_USE_COMPUTED_INFINITY
  | DUK_USE_COMPUTED_NAN
  | DUK_USE_REPL_FPCLASSIFY
  | DUK_USE_REPL_SIGNBIT
  | DUK_USE_REPL_ISFINITE
  | DUK_USE_REPL_ISNAN
  | DUK_USE_MATH_FMIN
  | DUK_USE_MATH_FMAX
  | DUK_USE_MATH_ROUND
  /- profile flags, lines 450-485 -/
  | DUK_USE_SELF_TEST_TVAL
  | DUK_USE_PACKED_TVAL
  | DUK_USE_FULL_TVAL
  | DUK_USE_REFERENCE_COUNTING
  | DUK_USE_DOUBLE_LINKED_HEAP
  | DUK_USE_MARK_AND_SWEEP
  | DUK_USE_AUGMENT_ERRORS
  | DUK_USE_TRACEBACKS
  | DUK_USE_GC_TORTURE
  | DUK_USE_DEBUG
  | DUK_USE_DDEBUG
  | DUK_USE_DDDEBUG
  | DUK_USE_DPRINT_RDTSC
  | DUK_USE_VERBOSE_ERRORS
  | DUK_USE_ASSERTIONS
  | DUK_USE_VARIADIC_MACROS
  | DUK_USE_PROVIDE_DEFAULT_ALLOC_FUNCTIONS
  | DUK_USE_EXPLICIT_NULL_INIT
  | DUK_USE_REGEXP_SUPPORT
  | DUK_USE_STRICT_UTF8_SOURCE
  | DUK_USE_OCTAL_SUPPORT
  | DUK_USE_SOURCE_NONBMP
  | DUK_USE_DPRINT_COLORS
  | DUK_USE_BROWSER_LIKE
  | DUK_USE_SECTION_B
  | DUK_USE_HASHBYTES_UNALIGNED_U32_ACCESS
  | DUK_USE_HOBJECT_UNALIGNED_LAYOUT
  /- lines 558-593 -/
  | DUK_OPT_TRACEBACK_DEPTH
  | DUK_USE_STRUCT_HACK
  | DUK_USE_GCC_PRAGMAS
  /- Date provider, lines 613-657 -/
  | DUK_USE_DATE_NOW_GETTIMEOFDAY
  | DUK_USE_DATE_NOW_TIME
  | DUK_USE_DATE_TZO_GMTIME
  | DUK_USE_DATE_PRS_STRPTIME
  | DUK_USE_DATE_FMT_STRFTIME
  /- macros only the embedding application defines -/
  | DUK_OPT_DPRINT_RDTSC
  | DUK_DEBUG
  | DUK_DDEBUG
deriving DecidableEq, Repr, Fintype

/-- The flag table: `t f = true` when the macro `f` is defined. -/
abbrev Table := DukFlag → Bool

/-- Directive `#define f`. -/
def define (f : DukFlag) (t : Table) : Table :=
  fun g => if g = f then true else t g

/-- Directive `#undef f`. -/
def undef (f : DukFlag) (t : Table) : Table :=
  fun g => if g = f then false else t g

/-- The table in which no macro is defined. -/
def emptyTable : Table := fun _ => false

/-- The `#error` directives of the header, in the order of the file. -/
inductive DukError
  /-- Line 181. -/
  | INT_MAX_too_small
  /-- Line 184. -/
  | INT_MAX_not_defined
  /-- Line 242. -/
  | little_endian_unknown_double_word_order
  /-- Line 250. -/
  | big_endian_unknown_double_word_order
  /-- Line 253. -/
  | cannot_determine_byte_order
  /-- Line 258. -/
  | cannot_determine_double_variant
  /-- Line 554. -/
  | unknown_DUK_PROFILE
  /-- Line 615. -/
  | WIN64_not_supported
  /-- Line 618. -/
  | WIN32_not_supported
  /-- Line 656. -/
  | platform_not_supported
  /-- Line 668. -/
  | expected_XOPEN_SOURCE
  /-- Line 695. -/
  | obsolete_DUK_DDEBUG
  /-- Line 699. -/
  | DDEBUG_without_DEBUG
  /-- Line 703. -/
  | DDDEBUG_without_DEBUG
  /-- Line 707. -/
  | DDDEBUG_without_DDEBUG
  /-- Line 711. -/
  | REFERENCE_COUNTING_without_DOUBLE_LINKED_HEAP
  /-- Line 715. -/
  | GC_TORTURE_without_MARK_AND_SWEEP
deriving DecidableEq, Repr

/-- Compiler and system-header macros tested by the header.  For the macros
of the system headers (`INT_MAX`, `UINT_MAX`, `__BYTE_ORDER`, `FP_NAN`, ...)
this is what is visible after the `#include` lines, which is where the header
tests them. -/
structure Env where
  __STDC_VERSION__ : Option Int := none
  __GNUC__ : Option Int := none
  __GNUC_MINOR__ : Option Int := none
  __i386__ : Bool := false
  __x86_64__ : Bool := false
  __FreeBSD__ : Bool := false
  __NetBSD__ : Bool := false
  __OpenBSD : Bool := false
  __bsdi__ : Bool := false
  __DragonFly__ : Bool := false
  __TOS__ : Bool := false
  __VBCC__ : Bool := false
  __linux : Bool := false
  __APPLE__ : Bool := false
  INT_MAX : Option Int := none
  __arm__ : Bool := false
  __thumb__ : Bool := false
  _ARM : Bool := false
  _M_ARM : Bool := false
  __BYTE_ORDER : Option Int := none
  __LITTLE_ENDIAN : Option Int := none
  __BIG_ENDIAN : Option Int := none
  __FLOAT_WORD_ORDER : Option Int := none
  __LITTLE_ENDIAN__ : Bool := false
  __BIG_ENDIAN__ : Bool := false
  __WORDSIZE : Option Int := none
  UINT_MAX : Option Int := none
  INFINITY : Bool := false
  NAN : Bool := false
  FP_NAN : Bool := false
  FP_INFINITE : Bool := false
  FP_ZERO : Bool := false
  FP_SUBNORMAL : Bool := false
  FP_NORMAL : Bool := false
  __UCLIBC__ : Bool := false
  _WIN64 : Bool := false
  _WIN32 : Bool := false
  WIN32 : Bool := false
  __unix : Bool := false
  __posix : Bool := false
deriving Repr

/-- Operator `defined(X)` for a macro which carries a number. -/
def defined (m : Option Int) : Bool := m.isSome

/-- Value of an identifier in an `#if` expression: an identifier which is
not a macro evaluates to 0. -/
def value (m : Option Int) : Int := m.getD 0

/-! ## Compiler features and intermediate platform detection (lines 44-105) -/

/-- Lines 48-52. -/
def DUK_F_C99 (e : Env) : Bool :=
  defined e.__STDC_VERSION__ && decide (value e.__STDC_VERSION__ ≥ 199901)

/-- Lines 63-80. -/
def DUK_RDTSC_AVAILABLE (e : Env) : Bool :=
  if defined e.__GNUC__ && e.__i386__ then true
  else if defined e.__GNUC__ && e.__x86_64__ then true
  else false

/-- Lines 88-91. -/
def DUK_F_BSD (e : Env) : Bool :=
  e.__FreeBSD__ || e.__NetBSD__ || e.__OpenBSD || e.__bsdi__ || e.__DragonFly__

/-- Lines 96-98. -/
def DUK_F_TOS (e : Env) : Bool := e.__TOS__

/-- Lines 103-105. -/
def DUK_F_AMIGAOS (e : Env) : Bool := e.__VBCC__

/-! ## Platform detection (lines 107-150) -/

/-- Lines 117-121. -/
def featureSelection (e : Env) (t : Table) : Table :=
  if e.__linux then
    t |> define ._POSIX_C_SOURCE
      |> define ._GNU_SOURCE
      |> define ._XOPEN_SOURCE
  else t

/-- Lines 123-150, the macro `DUK_F_STD_BYTEORDER_DETECT`: standard byte
order detection is requested on Apple, on BSD and on "Linux and hopefully
others", not on Atari ST and AmigaOS. -/
def DUK_F_STD_BYTEORDER_DETECT (e : Env) : Bool :=
  if e.__APPLE__ then true
  else if DUK_F_BSD e then true
  else if DUK_F_TOS e then false
  else if DUK_F_AMIGAOS e then false
  else true

/-- Lines 123-150, the flag table: Atari ST and AmigaOS give the double
layout explicitly. -/
def platformDetection (e : Env) (t : Table) : Table :=
  if e.__APPLE__ then t
  else if DUK_F_BSD e then t
  else if DUK_F_TOS e then define .DUK_USE_DOUBLE_BE t
  else if DUK_F_AMIGAOS e then define .DUK_USE_DOUBLE_BE t
  else t

/-! ## Sanity check of types (lines 179-185) -/

/-- Lines 179-185. -/
def intMaxCheck (e : Env) (t : Table) : Except DukError Table :=
  if defined e.INT_MAX then
    if value e.INT_MAX < 2147483647 then .error .INT_MAX_too_small
    else .ok t
  else .error .INT_MAX_not_defined

/-! ## Unaligned accesses (lines 207-216) -/

/-- Lines 212-216. -/
def unalignedAccessDetection (e : Env) (t : Table) : Table :=
  if e.__arm__ || e.__thumb__ || e._ARM || e._M_ARM then
    undef .DUK_USE_UNALIGNED_ACCESSES_POSSIBLE t
  else
    define .DUK_USE_UNALIGNED_ACCESSES_POSSIBLE t

/-! ## Byte order and double memory layout (lines 218-259) -/

/-- Lines 233-234, the test "byte order is little endian". -/
def byteOrderLittle (e : Env) : Bool :=
  (defined e.__BYTE_ORDER && defined e.__LITTLE_ENDIAN &&
    (value e.__BYTE_ORDER == value e.__LITTLE_ENDIAN)) ||
  e.__LITTLE_ENDIAN__

/-- Lines 244-245, the test "byte order is big endian". -/
def byteOrderBig (e : Env) : Bool :=
  (defined e.__BYTE_ORDER && defined e.__BIG_ENDIAN &&
    (value e.__BYTE_ORDER == value e.__BIG_ENDIAN)) ||
  e.__BIG_ENDIAN__

/-- Line 235, first operand: the float word order is little endian. -/
def floatWordOrderLittle (e : Env) : Bool :=
  defined e.__FLOAT_WORD_ORDER && defined e.__LITTLE_ENDIAN &&
    (value e.__FLOAT_WORD_ORDER == value e.__LITTLE_ENDIAN)

/-- Lines 238 and 246, first operand: the float word order is big endian. -/
def floatWordOrderBig (e : Env) : Bool :=
  defined e.__FLOAT_WORD_ORDER && defined e.__BIG_ENDIAN &&
    (value e.__FLOAT_WORD_ORDER == value e.__BIG_ENDIAN)

/-- Lines 236 and 247, second operand: GCC on an architecture other than ARM. -/
def gccNotArm (e : Env) : Bool := defined e.__GNUC__ && !e.__arm__

/-- Line 239, second operand: GCC on ARM. -/
def gccArm (e : Env) : Bool := defined e.__GNUC__ && e.__arm__

/-- Lines 232-254: the body of the standard byte order detection. -/
def stdByteOrderDetect (e : Env) (t : Table) : Except DukError Table :=
  if byteOrderLittle e then
    if floatWordOrderLittle e || gccNotArm e then
      .ok (define .DUK_USE_DOUBLE_LE t)
    else if floatWordOrderBig e || gccArm e then
      .ok (define .DUK_USE_DOUBLE_ME t)
    else
      .error .little_endian_unknown_double_word_order
  else if byteOrderBig e then
    if floatWordOrderBig e || gccNotArm e then
      .ok (define .DUK_USE_DOUBLE_BE t)
    else
      .error .big_endian_unknown_double_word_order
  else
    .error .cannot_determine_byte_order

/-- Lines 231-255. -/
def byteOrderDetection (e : Env) (t : Table) : Except DukError Table :=
  if DUK_F_STD_BYTEORDER_DETECT e then stdByteOrderDetect e t else .ok t

/-- Lines 257-259. -/
def doubleLayoutCheck (t : Table) : Except DukError Table :=
  if !t .DUK_USE_DOUBLE_LE && !t .DUK_USE_DOUBLE_ME && !t .DUK_USE_DOUBLE_BE then
    .error .cannot_determine_double_variant
  else .ok t

/-- Lines 231-259: byte order and double memory layout detection. -/
def doubleLayoutDetection (e : Env) (t : Table) : Except DukError Table :=
  byteOrderDetection e t >>= doubleLayoutCheck

/-- The three values of a byte order fact. -/
inductive ByteOrder
  | Little
  | Big
  | Unknown
deriving DecidableEq, Repr

/-- The byte order fact as the ladder of lines 233-254 classifies it: the
little endian test is made first, the big endian test only when it fails. -/
def detectByteOrder (e : Env) : ByteOrder :=
  if byteOrderLittle e then .Little
  else if byteOrderBig e then .Big
  else .Unknown

/-- The float word order fact read from `__FLOAT_WORD_ORDER`, the tests in
the order of lines 235 and 238. -/
def detectFloatWordOrder (e : Env) : ByteOrder :=
  if floatWordOrderLittle e then .Little
  else if floatWordOrderBig e then .Big
  else .Unknown

/-! ## Packed duk_tval (lines 261-271) -/

/-- Lines 266-271. -/
def packedTvalDetection (e : Env) (t : Table) : Table :=
  if (defined e.__WORDSIZE && (value e.__WORDSIZE == 32)) &&
     (defined e.UINT_MAX && (value e.UINT_MAX == 4294967295)) then
    define .DUK_USE_PACKED_TVAL_POSSIBLE t
  else
    undef .DUK_USE_PACKED_TVAL_POSSIBLE t

/-! ## Double constants and math functions (lines 273-372) -/

/-- Lines 286-287: GCC older than 4.6. -/
def gccOlderThan46 (e : Env) : Bool :=
  defined e.__GNUC__ && defined e.__GNUC_MINOR__ &&
    (((value e.__GNUC__ == 4) && decide (value e.__GNUC_MINOR__ < 6)) ||
      decide (value e.__GNUC__ < 4))

/-- Lines 285-302, the flag `DUK_USE_COMPUTED_INFINITY`. -/
def infinityDetection (e : Env) (t : Table) : Table :=
  let t := undef .DUK_USE_COMPUTED_INFINITY t
  if gccOlderThan46 e then t
  else if e.INFINITY then t
  else if !e.__VBCC__ then t
  else define .DUK_USE_COMPUTED_INFINITY t

/-- Lines 304-319, the flag `DUK_USE_COMPUTED_NAN`. -/
def nanDetection (e : Env) (t : Table) : Table :=
  let t := undef .DUK_USE_COMPUTED_NAN t
  if e.NAN then t
  else if !e.__VBCC__ then t
  else define .DUK_USE_COMPUTED_NAN t

/-- Lines 325-355. -/
def fpclassifyDetection (e : Env) (t : Table) : Table :=
  let t := t |> undef .DUK_USE_REPL_FPCLASSIFY
             |> undef .DUK_USE_REPL_SIGNBIT
             |> undef .DUK_USE_REPL_ISFINITE
             |> undef .DUK_USE_REPL_ISNAN
  if !(e.FP_NAN && e.FP_INFINITE && e.FP_ZERO && e.FP_SUBNORMAL && e.FP_NORMAL) ||
     (DUK_F_AMIGAOS e && e.__VBCC__) then
    t |> define .DUK_USE_REPL_FPCLASSIFY
      |> define .DUK_USE_REPL_SIGNBIT
      |> define .DUK_USE_REPL_ISFINITE
      |> define .DUK_USE_REPL_ISNAN
  else t

/-- Lines 362-372. -/
def mathFunctionDetection (e : Env) (t : Table) : Table :=
  if DUK_F_C99 e && !e.__UCLIBC__ && !(DUK_F_AMIGAOS e && e.__VBCC__) then
    t |> define .DUK_USE_MATH_FMIN
      |> define .DUK_USE_MATH_FMAX
      |> define .DUK_USE_MATH_ROUND
  else
    t |> undef .DUK_USE_MATH_FMIN
      |> undef .DUK_USE_MATH_FMAX
      |> undef .DUK_USE_MATH_ROUND

/-- Lines 273-372 in the order of the file. -/
def mathDetection (e : Env) (t : Table) : Table :=
  t |> infinityDetection e
    |> nanDetection e
    |> fpclassifyDetection e
    |> mathFunctionDetection e

/-! ## Profile processing (lines 423-555) -/

/-- Lines 440-446: the value of `DUK_PROFILE` after the default is applied;
the argument is the selector given by the caller, if any. -/
def defaultProfile (DUK_PROFILE : Option Int) (t : Table) : Int :=
  match DUK_PROFILE with
  | some p => p
  | none => if t .DUK_USE_PACKED_TVAL_POSSIBLE then 100 else 400

/-- Lines 450-476: the settings of the FULL profile. -/
def fullProfileSettings (t : Table) : Table :=
  t |> define .DUK_USE_SELF_TEST_TVAL
    |> define .DUK_USE_PACKED_TVAL
    |> undef .DUK_USE_FULL_TVAL
    |> define .DUK_USE_REFERENCE_COUNTING
    |> define .DUK_USE_DOUBLE_LINKED_HEAP
    |> define .DUK_USE_MARK_AND_SWEEP
    |> define .DUK_USE_AUGMENT_ERRORS
    |> define .DUK_USE_TRACEBACKS
    |> undef .DUK_USE_GC_TORTURE
    |> undef .DUK_USE_DEBUG
    |> undef .DUK_USE_DDEBUG
    |> undef .DUK_USE_DDDEBUG
    |> undef .DUK_USE_DPRINT_RDTSC
    |> define .DUK_USE_VERBOSE_ERRORS
    |> undef .DUK_USE_ASSERTIONS
    |> undef .DUK_USE_VARIADIC_MACROS
    |> define .DUK_USE_PROVIDE_DEFAULT_ALLOC_FUNCTIONS
    |> undef .DUK_USE_EXPLICIT_NULL_INIT
    |> define .DUK_USE_REGEXP_SUPPORT
    |> define .DUK_USE_STRICT_UTF8_SOURCE
    |> define .DUK_USE_OCTAL_SUPPORT
    |> define .DUK_USE_SOURCE_NONBMP
    |> define .DUK_USE_DPRINT_COLORS
    |> define .DUK_USE_BROWSER_LIKE
    |> define .DUK_USE_SECTION_B

/-- Lines 478-485. -/
def unalignedAccessSettings (t : Table) : Table :=
  if t .DUK_USE_UNALIGNED_ACCESSES_POSSIBLE then
    t |> define .DUK_USE_HASHBYTES_UNALIGNED_U32_ACCESS
      |> define .DUK_USE_HOBJECT_UNALIGNED_LAYOUT
  else
    t |> undef .DUK_USE_HASHBYTES_UNALIGNED_U32_ACCESS
      |> undef .DUK_USE_HOBJECT_UNALIGNED_LAYOUT

/-- Lines 487-555: the profile specific modifications. -/
def profileModifications (p : Int) (t : Table) : Except DukError Table :=
  if p == 100 then
    /- FULL -/
    .ok t
  else if p == 101 then
    /- FULL_DEBUG -/
    .ok (t |> define .DUK_USE_DEBUG
           |> undef .DUK_USE_DDEBUG
           |> undef .DUK_USE_DDDEBUG
           |> define .DUK_USE_ASSERTIONS)
  else if p == 200 then
    /- MINIMAL -/
    .ok (t |> undef .DUK_USE_VERBOSE_ERRORS)
  else if p == 201 then
    /- MINIMAL_DEBUG -/
    .ok (t |> define .DUK_USE_DEBUG
           |> undef .DUK_USE_DDEBUG
           |> undef .DUK_USE_DDDEBUG
           |> define .DUK_USE_ASSERTIONS)
  else if p == 300 then
    /- TINY -/
    .ok (t |> undef .DUK_USE_SELF_TEST_TVAL
           |> undef .DUK_USE_REFERENCE_COUNTING
           |> undef .DUK_USE_DOUBLE_LINKED_HEAP
           |> define .DUK_USE_MARK_AND_SWEEP
           |> undef .DUK_USE_AUGMENT_ERRORS
           |> undef .DUK_USE_TRACEBACKS
           |> undef .DUK_USE_VERBOSE_ERRORS)
  else if p == 301 then
    /- TINY_DEBUG -/
    .ok (t |> undef .DUK_USE_SELF_TEST_TVAL
           |> undef .DUK_USE_REFERENCE_COUNTING
           |> undef .DUK_USE_DOUBLE_LINKED_HEAP
           |> define .DUK_USE_MARK_AND_SWEEP
           |> undef .DUK_USE_AUGMENT_ERRORS
           |> undef .DUK_USE_TRACEBACKS
           |> define .DUK_USE_DEBUG
           |> undef .DUK_USE_DDEBUG
           |> undef .DUK_USE_DDDEBUG
           |> define .DUK_USE_ASSERTIONS
           |> undef .DUK_USE_VERBOSE_ERRORS)
  else if p == 400 then
    .ok (t |> undef .DUK_USE_PACKED_TVAL
           |> undef .DUK_USE_FULL_TVAL
           |> define .DUK_USE_EXPLICIT_NULL_INIT)
  else if p == 401 then
    .ok (t |> undef .DUK_USE_PACKED_TVAL
           |> undef .DUK_USE_FULL_TVAL
           |> undef .DUK_USE_GC_TORTURE
           |> define .DUK_USE_DEBUG
           |> undef .DUK_USE_DDEBUG
           |> undef .DUK_USE_DDDEBUG
           |> define .DUK_USE_ASSERTIONS
           |> define .DUK_USE_EXPLICIT_NULL_INIT)
  else if p == 500 then
    .ok (t |> undef .DUK_USE_PACKED_TVAL
           |> undef .DUK_USE_FULL_TVAL
           |> define .DUK_USE_GC_TORTURE)
  else if p == 501 then
    .ok (t |> undef .DUK_USE_PACKED_TVAL
           |> undef .DUK_USE_FULL_TVAL
           |> define .DUK_USE_GC_TORTURE
           |> define .DUK_USE_DEBUG
           |> undef .DUK_USE_DDEBUG
           |> undef .DUK_USE_DDDEBUG
           |> undef .DUK_USE_ASSERTIONS)
  else
    .error .unknown_DUK_PROFILE

/-- Lines 450-555: profile processing for a selector `p > 0`, the FULL
settings first and the modifications of the profile on top. -/
def profileProcessing (p : Int) (t : Table) : Except DukError Table :=
  profileModifications p (unalignedAccessSettings (fullProfileSettings t))

/-- Lines 557-560. -/
def tracebackDepth (t : Table) : Table :=
  if t .DUK_USE_TRACEBACKS && !t .DUK_OPT_TRACEBACK_DEPTH then
    define .DUK_OPT_TRACEBACK_DEPTH t
  else t

/-! ## Dynamically detected features (lines 562-593) -/

/-- Lines 566-570. -/
def rdtscRefinement (e : Env) (t : Table) : Table :=
  if DUK_RDTSC_AVAILABLE e && t .DUK_OPT_DPRINT_RDTSC then
    define .DUK_USE_DPRINT_RDTSC t
  else
    undef .DUK_USE_DPRINT_RDTSC t

/-- Lines 572-576. -/
def variadicMacrosRefinement (e : Env) (t : Table) : Table :=
  if DUK_F_C99 e then define .DUK_USE_VARIADIC_MACROS t
  else undef .DUK_USE_VARIADIC_MACROS t

/-- Lines 578-583. -/
def structHackRefinement (e : Env) (t : Table) : Table :=
  if DUK_F_C99 e then undef .DUK_USE_STRUCT_HACK t
  else define .DUK_USE_STRUCT_HACK t

/-- Lines 585-593. -/
def gccPragmasRefinement (e : Env) (t : Table) : Table :=
  if defined e.__GNUC__ && defined e.__GNUC_MINOR__ &&
     (value e.__GNUC__ == 4) && decide (value e.__GNUC_MINOR__ ≥ 6) then
    define .DUK_USE_GCC_PRAGMAS t
  else
    undef .DUK_USE_GCC_PRAGMAS t

/-- Lines 562-593 in the order of the file. -/
def dynamicFeatures (e : Env) (t : Table) : Table :=
  t |> rdtscRefinement e
    |> variadicMacrosRefinement e
    |> structHackRefinement e
    |> gccPragmasRefinement e

/-! ## Date provider (lines 595-671) -/

/-- The four defines shared by the Apple, Linux, Unix and POSIX branches. -/
def posixDateProvider (t : Table) : Table :=
  t |> define .DUK_USE_DATE_NOW_GETTIMEOFDAY
    |> define .DUK_USE_DATE_TZO_GMTIME
    |> define .DUK_USE_DATE_PRS_STRPTIME
    |> define .DUK_USE_DATE_FMT_STRFTIME

/-- The three defines shared by the Atari ST and AmigaOS branches. -/
def ansiDateProvider (t : Table) : Table :=
  t |> define .DUK_USE_DATE_NOW_TIME
    |> define .DUK_USE_DATE_TZO_GMTIME
    |> define .DUK_USE_DATE_FMT_STRFTIME

/-- Lines 613-657. -/
def dateProviderSelection (e : Env) (t : Table) : Except DukError Table :=
  if e._WIN64 then .error .WIN64_not_supported
  else if e._WIN32 || e.WIN32 then .error .WIN32_not_supported
  else if e.__APPLE__ then .ok (posixDateProvider t)
  else if e.__linux then .ok (posixDateProvider t)
  else if e.__unix then .ok (posixDateProvider t)
  else if e.__posix then .ok (posixDateProvider t)
  else if DUK_F_TOS e then .ok (ansiDateProvider t)
  else if DUK_F_AMIGAOS e then .ok (ansiDateProvider t)
  else .error .platform_not_supported

/-- Lines 663-671. -/
def dateHeaderCheck (e : Env) (t : Table) : Except DukError Table :=
  if t .DUK_USE_DATE_TZO_GMTIME || t .DUK_USE_DATE_PRS_STRPTIME ||
     t .DUK_USE_DATE_FMT_STRFTIME then
    if e.__linux && !t ._XOPEN_SOURCE then .error .expected_XOPEN_SOURCE
    else .ok t
  else .ok t

/-- Lines 448-680: everything under `#if (DUK_PROFILE > 0)`; the `#else`
branch is empty, every `DUK_USE_xxx` is then the one given manually. -/
def profileSection (p : Int) (e : Env) (t : Table) : Except DukError Table :=
  if p > 0 then do
    let t ← profileProcessing p t
    let t := tracebackDepth t
    let t := dynamicFeatures e t
    let t ← dateProviderSelection e t
    dateHeaderCheck e t
  else .ok t

/-! ## Sanity checks on defines (lines 690-716) -/

/-- Lines 694-716. -/
def sanityChecks (t : Table) : Except DukError Table :=
  if t .DUK_DDEBUG && !t .DUK_DEBUG then .error .obsolete_DUK_DDEBUG
  else if t .DUK_USE_DDEBUG && !t .DUK_USE_DEBUG then .error .DDEBUG_without_DEBUG
  else if t .DUK_USE_DDDEBUG && !t .DUK_USE_DEBUG then .error .DDDEBUG_without_DEBUG
  else if t .DUK_USE_DDDEBUG && !t .DUK_USE_DDEBUG then .error .DDDEBUG_without_DDEBUG
  else if t .DUK_USE_REFERENCE_COUNTING && !t .DUK_USE_DOUBLE_LINKED_HEAP then
    .error .REFERENCE_COUNTING_without_DOUBLE_LINKED_HEAP
  else if t .DUK_USE_GC_TORTURE && !t .DUK_USE_MARK_AND_SWEEP then
    .error .GC_TORTURE_without_MARK_AND_SWEEP
  else .ok t

/-! ## The header -/

/-- Lines 44-372: everything before profile processing. -/
def platformStage (e : Env) (t : Table) : Except DukError Table := do
  let t := featureSelection e t
  let t := platformDetection e t
  let t ← intMaxCheck e t
  let t := unalignedAccessDetection e t
  let t ← doubleLayoutDetection e t
  let t := packedTvalDetection e t
  pure (mathDetection e t)

/-- The whole header: `DUK_PROFILE` is the selector given by the caller
(`none` when the macro is not defined), `e` the platform facts and `t` the
`DUK_xxx` macros given by the caller.  The result is the resolved
configuration or the first `#error` reached. -/
def duk_features (DUK_PROFILE : Option Int) (e : Env) (t : Table) :
    Except DukError Table := do
  let t ← platformStage e t
  let t ← profileSection (defaultProfile DUK_PROFILE t) e t
  sanityChecks t

/-! ## Vocabulary of the statements -/

/-- The ten selectors of the comment of lines 426-437, `0` (custom) apart. -/
def catalog : List Int := [100, 101, 200, 201, 300, 301, 400, 401, 500, 501]

/-- Value of the flag `f` in the outcome `r` of a derivation: `none` when
the derivation ended on an `#error`, so that no configuration exists. -/
def flagOf (r : Except DukError Table) (f : DukFlag) : Option Bool :=
  match r with
  | .ok t => some (t f)
  | .error _ => none

/-- The `#error` reached by a derivation, if any. -/
def errorOf (r : Except DukError Table) : Option DukError :=
  match r with
  | .ok _ => none
  | .error err => some err

/-- The test of lines 266-267 as a proposition on the platform facts. -/
def packedTvalPossible (e : Env) : Bool :=
  (defined e.__WORDSIZE && (value e.__WORDSIZE == 32)) &&
  (defined e.UINT_MAX && (value e.UINT_MAX == 4294967295))

/-- The platform passes the check of lines 179-185. -/
def intMaxAccepted (e : Env) : Bool :=
  defined e.INT_MAX && !decide (value e.INT_MAX < 2147483647)

/-- The platform passes lines 231-259: either the double layout is given
explicitly (Atari ST, AmigaOS) or the standard detection classifies the byte
order and finds a double word order for it. -/
def doubleLayoutDetermined (e : Env) : Bool :=
  if DUK_F_STD_BYTEORDER_DETECT e then
    match detectByteOrder e with
    | .Little => floatWordOrderLittle e || gccNotArm e || floatWordOrderBig e || gccArm e
    | .Big => floatWordOrderBig e || gccNotArm e
    | .Unknown => false
  else true

/-- The platform has a Date provider, lines 613-657. -/
def dateProviderAvailable (e : Env) : Bool :=
  !e._WIN64 && !(e._WIN32 || e.WIN32) &&
  (e.__APPLE__ || e.__linux || e.__unix || e.__posix || DUK_F_TOS e || DUK_F_AMIGAOS e)

/-- Valid platform facts: the platform passes every platform check of the
header (`INT_MAX`, double layout, Date provider). -/
def validPlatformFacts (e : Env) : Bool :=
  intMaxAccepted e && doubleLayoutDetermined e && dateProviderAvailable e

/-- The caller does not give the obsolete `DUK_DDEBUG` without `DUK_DEBUG`
(line 694). -/
def noObsoleteDebugDefine (t : Table) : Bool :=
  !(t .DUK_DDEBUG && !t .DUK_DEBUG)

/-- The `#error` directives of lines 179-259. -/
def platformErrors : List DukError :=
  [.INT_MAX_too_small, .INT_MAX_not_defined, .little_endian_unknown_double_word_order,
   .big_endian_unknown_double_word_order, .cannot_determine_byte_order,
   .cannot_determine_double_variant]

/-- The `#error` directives of lines 448-680. -/
def profileSectionErrors : List DukError :=
  [.unknown_DUK_PROFILE, .WIN64_not_supported, .WIN32_not_supported,
   .platform_not_supported, .expected_XOPEN_SOURCE]

/-- The `#error` directives of the five dependency rules, lines 698-716. -/
def dependencyErrors : List DukError :=
  [.DDEBUG_without_DEBUG, .DDDEBUG_without_DEBUG, .DDDEBUG_without_DDEBUG,
   .REFERENCE_COUNTING_without_DOUBLE_LINKED_HEAP, .GC_TORTURE_without_MARK_AND_SWEEP]

/-- The macros which lines 44-372 define or undefine. -/
def platformStageWrites : List DukFlag :=
  [._POSIX_C_SOURCE, ._GNU_SOURCE, ._XOPEN_SOURCE,
   .DUK_USE_DOUBLE_LE, .DUK_USE_DOUBLE_ME, .DUK_USE_DOUBLE_BE,
   .DUK_USE_UNALIGNED_ACCESSES_POSSIBLE, .DUK_USE_PACKED_TVAL_POSSIBLE,
   .DUK_USE_COMPUTED_INFINITY, .DUK_USE_COMPUTED_NAN,
   .DUK_USE_REPL_FPCLASSIFY, .DUK_USE_REPL_SIGNBIT, .DUK_USE_REPL_ISFINITE,
   .DUK_USE_REPL_ISNAN, .DUK_USE_MATH_FMIN, .DUK_USE_MATH_FMAX, .DUK_USE_MATH_ROUND]

/-- The macros which profile processing, lines 450-555, defines or
undefines. -/
def profileWrites : List DukFlag :=
  [.DUK_USE_SELF_TEST_TVAL, .DUK_USE_PACKED_TVAL, .DUK_USE_FULL_TVAL,
   .DUK_USE_REFERENCE_COUNTING, .DUK_USE_DOUBLE_LINKED_HEAP, .DUK_USE_MARK_AND_SWEEP,
   .DUK_USE_AUGMENT_ERRORS, .DUK_USE_TRACEBACKS, .DUK_USE_GC_TORTURE,
   .DUK_USE_DEBUG, .DUK_USE_DDEBUG, .DUK_USE_DDDEBUG, .DUK_USE_DPRINT_RDTSC,
   .DUK_USE_VERBOSE_ERRORS, .DUK_USE_ASSERTIONS, .DUK_USE_VARIADIC_MACROS,
   .DUK_USE_PROVIDE_DEFAULT_ALLOC_FUNCTIONS, .DUK_USE_EXPLICIT_NULL_INIT,
   .DUK_USE_REGEXP_SUPPORT, .DUK_USE_STRICT_UTF8_SOURCE, .DUK_USE_OCTAL_SUPPORT,
   .DUK_USE_SOURCE_NONBMP, .DUK_USE_DPRINT_COLORS, .DUK_USE_BROWSER_LIKE,
   .DUK_USE_SECTION_B,
   .DUK_USE_HASHBYTES_UNALIGNED_U32_ACCESS, .DUK_USE_HOBJECT_UNALIGNED_LAYOUT]

/-- The macros which lines 557-671 define or undefine: the traceback depth,
the four dynamically detected features and the Date provider. -/
def postProfileWrites : List DukFlag :=
  [.DUK_OPT_TRACEBACK_DEPTH,
   .DUK_USE_DPRINT_RDTSC, .DUK_USE_VARIADIC_MACROS, .DUK_USE_STRUCT_HACK,
   .DUK_USE_GCC_PRAGMAS,
   .DUK_USE_DATE_NOW_GETTIMEOFDAY, .DUK_USE_DATE_NOW_TIME, .DUK_USE_DATE_TZO_GMTIME,
   .DUK_USE_DATE_PRS_STRPTIME, .DUK_USE_DATE_FMT_STRFTIME]

/-- The macros which the dynamically detected features, lines 562-593,
define or undefine. -/
def dynamicFlags : List DukFlag :=
  [.DUK_USE_DPRINT_RDTSC, .DUK_USE_VARIADIC_MACROS, .DUK_USE_STRUCT_HACK,
   .DUK_USE_GCC_PRAGMAS]

/-- The four refinements of lines 562-593, by name. -/
inductive Refinement
  /-- Lines 566-570. -/
  | rdtsc
  /-- Lines 572-576. -/
  | variadicMacros
  /-- Lines 578-583. -/
  | structHack
  /-- Lines 585-593. -/
  | gccPragmas
deriving DecidableEq, Repr

/-- The refinement of the given name. -/
def applyRefinement (e : Env) (t : Table) (r : Refinement) : Table :=
  match r with
  | .rdtsc => rdtscRefinement e t
  | .variadicMacros => variadicMacrosRefinement e t
  | .structHack => structHackRefinement e t
  | .gccPragmas => gccPragmasRefinement e t

/-- The refinements of a list applied one after the other, the head of the
list first. -/
def applyRefinements (e : Env) (l : List Refinement) (t : Table) : Table :=
  l.foldl (applyRefinement e) t

/-- The test of line 589: GCC with major version 4 and minor version 6 or
above. -/
def gccPragmasWindow (e : Env) : Bool :=
  defined e.__GNUC__ && defined e.__GNUC_MINOR__ &&
    (value e.__GNUC__ == 4) && decide (value e.__GNUC_MINOR__ ≥ 6)

/-- The test of lines 329-331: one of the five classification constants of
`<math.h>` is not defined, or the platform is AmigaOS with VBCC. -/
def fpclassifyReplacementNeeded (e : Env) : Bool :=
  !(e.FP_NAN && e.FP_INFINITE && e.FP_ZERO && e.FP_SUBNORMAL && e.FP_NORMAL) ||
  (DUK_F_AMIGAOS e && e.__VBCC__)

/-- The four replacement flags of lines 325-335. -/
def replFlags : List DukFlag :=
  [.DUK_USE_REPL_FPCLASSIFY, .DUK_USE_REPL_SIGNBIT, .DUK_USE_REPL_ISFINITE,
   .DUK_USE_REPL_ISNAN]

/-- The test of line 212: the architecture is in the ARM family. -/
def armFamily (e : Env) : Bool :=
  e.__arm__ || e.__thumb__ || e._ARM || e._M_ARM

/-- The selectors with the `_DEBUG` suffix in the comment of lines 426-437. -/
def debugSelectors : List Int := [101, 201, 301, 401, 501]

/-- The selectors without the `_DEBUG` suffix. -/
def baseSelectors : List Int := [100, 200, 300, 400, 500]

/-! ## Platforms used as concrete inputs -/

/-- Linux, GCC 4.6 in C99 mode on i386: 32-bit words, little endian. -/
def linux_gcc_i386 : Env :=
  { __STDC_VERSION__ := some 199901, __GNUC__ := some 4, __GNUC_MINOR__ := some 6,
    __i386__ := true, __linux := true, __unix := true,
    INT_MAX := some 2147483647, UINT_MAX := some 4294967295, __WORDSIZE := some 32,
    __BYTE_ORDER := some 1234, __LITTLE_ENDIAN := some 1234, __BIG_ENDIAN := some 4321,
    __FLOAT_WORD_ORDER := some 1234,
    INFINITY := true, NAN := true, FP_NAN := true, FP_INFINITE := true,
    FP_ZERO := true, FP_SUBNORMAL := true, FP_NORMAL := true }

/-- Linux, GCC 4.6 in C99 mode on x86-64: 64-bit words, little endian. -/
def linux_gcc_x86_64 : Env :=
  { linux_gcc_i386 with __i386__ := false, __x86_64__ := true, __WORDSIZE := some 64 }

/-- Linux, GCC on a 32-bit big endian PowerPC. -/
def linux_gcc_powerpc : Env :=
  { linux_gcc_i386 with __i386__ := false, __BYTE_ORDER := some 4321,
                        __FLOAT_WORD_ORDER := some 4321 }

/-- Linux, GCC on a little endian ARM with the FPA double format: the two
words of a double are stored in big endian order. -/
def linux_gcc_arm_fpa : Env :=
  { linux_gcc_i386 with __i386__ := false, __arm__ := true,
                        __FLOAT_WORD_ORDER := some 4321 }

/-- GCC on a little endian architecture other than ARM whose headers report
a big endian float word order. -/
def gcc_little_endian_float_big : Env :=
  { linux_gcc_i386 with __FLOAT_WORD_ORDER := some 4321 }

/-- Linux with a compiler other than GCC, big endian byte order and little
endian float word order. -/
def cc_big_endian_float_little : Env :=
  { linux_gcc_i386 with __GNUC__ := none, __GNUC_MINOR__ := none, __i386__ := false,
                        __BYTE_ORDER := some 4321, __FLOAT_WORD_ORDER := some 1234 }

/-- GCC on a big endian architecture other than ARM whose headers report a
little endian float word order. -/
def gcc_big_endian_float_little : Env :=
  { linux_gcc_powerpc with __FLOAT_WORD_ORDER := some 1234 }

/-- A 32-bit little endian Windows build with GCC. -/
def win32_gcc_i386 : Env :=
  { linux_gcc_i386 with __linux := false, __unix := false, _WIN32 := true }

/-- Linux with GCC on i386 and system headers which give no `__BYTE_ORDER`. -/
def linux_gcc_no_byte_order : Env :=
  { linux_gcc_i386 with __BYTE_ORDER := none }

/-- AmigaOS on M68k with VBCC in C99 mode: the header gives the double layout
itself and makes no standard byte order detection. -/
def amigaos_vbcc : Env :=
  { __STDC_VERSION__ := some 199901, __VBCC__ := true,
    INT_MAX := some 2147483647, UINT_MAX := some 4294967295 }

/-- Linux with GCC 4.6 on i386 in C89 mode: `__STDC_VERSION__` is not
defined. -/
def linux_gcc_i386_c89 : Env :=
  { linux_gcc_i386 with __STDC_VERSION__ := none }

/-- Linux with GCC 5.1 on i386. -/
def linux_gcc5_i386 : Env :=
  { linux_gcc_i386 with __GNUC__ := some 5, __GNUC_MINOR__ := some 1 }

/-- Linux with GCC 4.5 on i386. -/
def linux_gcc45_i386 : Env :=
  { linux_gcc_i386 with __GNUC_MINOR__ := some 5 }

/-- Linux with GCC on i386 and a `<math.h>` which does not define
`FP_SUBNORMAL`, nor `INFINITY` and `NAN`, with uclibc. -/
def linux_gcc_i386_uclibc : Env :=
  { linux_gcc_i386 with FP_SUBNORMAL := false, INFINITY := false, NAN := false,
                        __UCLIBC__ := true }

/-- Linux with GCC in Thumb mode on a little endian ARM. -/
def linux_gcc_thumb : Env :=
  { linux_gcc_i386 with __i386__ := false, __arm__ := true, __thumb__ := true }

/-- Linux with a compiler other than GCC on i386. -/
def linux_cc_i386 : Env :=
  { linux_gcc_i386 with __GNUC__ := none, __GNUC_MINOR__ := none }

/-! ## Basic facts on tables and outcomes -/

@[simp] theorem define_apply (f g : DukFlag) (t : Table) :
    define f t g = if g = f then true else t g := rfl

@[simp] theorem undef_apply (f g : DukFlag) (t : Table) :
    undef f t g = if g = f then false else t g := rfl

@[simp] theorem flagOf_ok (t : Table) (f : DukFlag) :
    flagOf (.ok t) f = some (t f) := rfl

@[simp] theorem flagOf_error (err : DukError) (f : DukFlag) :
    flagOf (.error err) f = none := rfl

@[simp] theorem errorOf_ok (t : Table) : errorOf (.ok t) = none := rfl

@[simp] theorem errorOf_error (err : DukError) : errorOf (.error err) = some err := rfl

@[simp] theorem bind_ok_eq (t : Table) (k : Table → Except DukError Table) :
    ((Except.ok t : Except DukError Table) >>= k) = k t := rfl

@[simp] theorem bind_error_eq (err : DukError) (k : Table → Except DukError Table) :
    ((Except.error err : Except DukError Table) >>= k) = .error err := rfl

/-! ## Packed duk_tval -/

theorem packedTvalDetection_flag (e : Env) (t : Table) :
    packedTvalDetection e t .DUK_USE_PACKED_TVAL_POSSIBLE = packedTvalPossible e := by
  unfold packedTvalDetection packedTvalPossible
  split <;> simp_all

theorem packedTvalPossible_iff (e : Env) :
    packedTvalPossible e = true ↔
      e.__WORDSIZE = some 32 ∧ e.UINT_MAX = some 4294967295 := by
  unfold packedTvalPossible defined value
  cases hw : e.__WORDSIZE <;> cases hu : e.UINT_MAX <;> simp

/-- C5: after lines 266-271 the macro `DUK_USE_PACKED_TVAL_POSSIBLE` is
defined if and only if `__WORDSIZE` is defined and equal to 32 and `UINT_MAX`
is defined and equal to 4294967295; it is defined for a 32-bit word size with
a 32-bit unsigned range, and undefined for a word size of 64 and for an
undefined word size, whatever the caller had defined before. -/
theorem packed_tval_possible_iff_word32_uint32 (e : Env) (t : Table) :
    (packedTvalDetection e t .DUK_USE_PACKED_TVAL_POSSIBLE = true ↔
      e.__WORDSIZE = some 32 ∧ e.UINT_MAX = some 4294967295) ∧
    packedTvalDetection { e with __WORDSIZE := some 32, UINT_MAX := some 4294967295 } t
      .DUK_USE_PACKED_TVAL_POSSIBLE = true ∧
    packedTvalDetection { e with __WORDSIZE := some 64 } t
      .DUK_USE_PACKED_TVAL_POSSIBLE = false ∧
    packedTvalDetection { e with __WORDSIZE := none } t
      .DUK_USE_PACKED_TVAL_POSSIBLE = false := by
  refine ⟨?_, ?_, ?_, ?_⟩
  · rw [packedTvalDetection_flag, packedTvalPossible_iff]
  · rw [packedTvalDetection_flag, packedTvalPossible_iff]; exact ⟨rfl, rfl⟩
  · rw [packedTvalDetection_flag]; simp [packedTvalPossible, defined, value]
  · rw [packedTvalDetection_flag]; simp [packedTvalPossible, defined, value]

/-! ## Sanity checks on defines -/

theorem sanityChecks_ok_iff (t : Table) :
    sanityChecks t = .ok t ↔
      (t .DUK_DDEBUG && !t .DUK_DEBUG) = false ∧
      (t .DUK_USE_DDEBUG && !t .DUK_USE_DEBUG) = false ∧
      (t .DUK_USE_DDDEBUG && !t .DUK_USE_DEBUG) = false ∧
      (t .DUK_USE_DDDEBUG && !t .DUK_USE_DDEBUG) = false ∧
      (t .DUK_USE_REFERENCE_COUNTING && !t .DUK_USE_DOUBLE_LINKED_HEAP) = false ∧
      (t .DUK_USE_GC_TORTURE && !t .DUK_USE_MARK_AND_SWEEP) = false := by
  unfold sanityChecks
  repeat' split
  all_goals simp_all

theorem sanityChecks_ok_or_error (t : Table) :
    sanityChecks t = .ok t ∨ ∃ err, sanityChecks t = .error err := by
  unfold sanityChecks
  repeat' split
  all_goals simp

theorem sanityChecks_error_iff (t : Table) :
    (∃ err, sanityChecks t = .error err) ↔
      (t .DUK_USE_REFERENCE_COUNTING = true ∧ t .DUK_USE_DOUBLE_LINKED_HEAP = false) ∨
      (t .DUK_USE_GC_TORTURE = true ∧ t .DUK_USE_MARK_AND_SWEEP = false) ∨
      (t .DUK_USE_DDEBUG = true ∧ t .DUK_USE_DEBUG = false) ∨
      (t .DUK_USE_DDDEBUG = true ∧
        (t .DUK_USE_DEBUG = false ∨ t .DUK_USE_DDEBUG = false)) ∨
      (t .DUK_DDEBUG = true ∧ t .DUK_DEBUG = false) := by
  have hiff : (¬ ∃ err, sanityChecks t = .error err) ↔ sanityChecks t = .ok t := by
    constructor
    · intro h
      rcases sanityChecks_ok_or_error t with h1 | h1
      · exact h1
      · exact absurd h1 h
    · intro h ⟨err, herr⟩
      rw [h] at herr
      cases herr
  rw [← not_iff_not, hiff, sanityChecks_ok_iff]
  generalize t .DUK_USE_REFERENCE_COUNTING = a1
  generalize t .DUK_USE_DOUBLE_LINKED_HEAP = a2
  generalize t .DUK_USE_GC_TORTURE = a3
  generalize t .DUK_USE_MARK_AND_SWEEP = a4
  generalize t .DUK_USE_DDEBUG = a5
  generalize t .DUK_USE_DEBUG = a6
  generalize t .DUK_USE_DDDEBUG = a7
  generalize t .DUK_DDEBUG = a8
  generalize t .DUK_DEBUG = a9
  cases a1 <;> cases a2 <;> cases a3 <;> cases a4 <;> cases a5 <;> cases a6 <;>
    cases a7 <;> cases a8 <;> cases a9 <;> decide

theorem sanityChecks_ok_iff_rules (t : Table) :
    sanityChecks t = .ok t ↔
      (t .DUK_USE_DDEBUG = true → t .DUK_USE_DEBUG = true) ∧
      (t .DUK_USE_DDDEBUG = true →
        t .DUK_USE_DDEBUG = true ∧ t .DUK_USE_DEBUG = true) ∧
      (t .DUK_USE_REFERENCE_COUNTING = true → t .DUK_USE_DOUBLE_LINKED_HEAP = true) ∧
      (t .DUK_USE_GC_TORTURE = true → t .DUK_USE_MARK_AND_SWEEP = true) ∧
      (t .DUK_DDEBUG = true → t .DUK_DEBUG = true) := by
  rw [sanityChecks_ok_iff]
  generalize t .DUK_USE_REFERENCE_COUNTING = a1
  generalize t .DUK_USE_DOUBLE_LINKED_HEAP = a2
  generalize t .DUK_USE_GC_TORTURE = a3
  generalize t .DUK_USE_MARK_AND_SWEEP = a4
  generalize t .DUK_USE_DDEBUG = a5
  generalize t .DUK_USE_DEBUG = a6
  generalize t .DUK_USE_DDDEBUG = a7
  generalize t .DUK_DDEBUG = a8
  generalize t .DUK_DEBUG = a9
  cases a1 <;> cases a2 <;> cases a3 <;> cases a4 <;> cases a5 <;> cases a6 <;>
    cases a7 <;> cases a8 <;> cases a9 <;> decide

/-! ## Byte order and double memory layout -/

theorem detectByteOrder_little (e : Env) :
    detectByteOrder e = .Little ↔ byteOrderLittle e = true := by
  unfold detectByteOrder
  split
  · simp_all
  · split <;> simp_all

theorem detectByteOrder_big (e : Env) :
    detectByteOrder e = .Big ↔ byteOrderLittle e = false ∧ byteOrderBig e = true := by
  unfold detectByteOrder
  split
  · simp_all
  · split <;> simp_all

theorem detectFloatWordOrder_little (e : Env) :
    detectFloatWordOrder e = .Little ↔ floatWordOrderLittle e = true := by
  unfold detectFloatWordOrder
  split
  · simp_all
  · split <;> simp_all

theorem detectFloatWordOrder_big (e : Env) :
    detectFloatWordOrder e = .Big ↔
      floatWordOrderLittle e = false ∧ floatWordOrderBig e = true := by
  unfold detectFloatWordOrder
  split
  · simp_all
  · split <;> simp_all

theorem doubleLayoutCheck_define_LE (t : Table) :
    doubleLayoutCheck (define .DUK_USE_DOUBLE_LE t) = .ok (define .DUK_USE_DOUBLE_LE t) := by
  simp [doubleLayoutCheck]

theorem doubleLayoutCheck_define_ME (t : Table) :
    doubleLayoutCheck (define .DUK_USE_DOUBLE_ME t) = .ok (define .DUK_USE_DOUBLE_ME t) := by
  simp [doubleLayoutCheck]

theorem doubleLayoutCheck_define_BE (t : Table) :
    doubleLayoutCheck (define .DUK_USE_DOUBLE_BE t) = .ok (define .DUK_USE_DOUBLE_BE t) := by
  simp [doubleLayoutCheck]

/-- C8: under standard byte order detection, a little endian byte order with
a little endian float word order makes lines 231-259 execute
`#define DUK_USE_DOUBLE_LE` and nothing else, and a big endian byte order with
a big endian float word order makes them execute `#define DUK_USE_DOUBLE_BE`
and nothing else: no `#error` is reached, and the two other layout macros are
left as the caller gave them, so undefined when the caller gave none. -/
theorem matching_orders_select_LE_and_BE (e : Env) (t : Table)
    (hstd : DUK_F_STD_BYTEORDER_DETECT e = true) :
    (detectByteOrder e = .Little → detectFloatWordOrder e = .Little →
      doubleLayoutDetection e t = .ok (define .DUK_USE_DOUBLE_LE t) ∧
      flagOf (doubleLayoutDetection e t) .DUK_USE_DOUBLE_LE = some true ∧
      flagOf (doubleLayoutDetection e t) .DUK_USE_DOUBLE_ME = some (t .DUK_USE_DOUBLE_ME) ∧
      flagOf (doubleLayoutDetection e t) .DUK_USE_DOUBLE_BE = some (t .DUK_USE_DOUBLE_BE)) ∧
    (detectByteOrder e = .Big → detectFloatWordOrder e = .Big →
      doubleLayoutDetection e t = .ok (define .DUK_USE_DOUBLE_BE t) ∧
      flagOf (doubleLayoutDetection e t) .DUK_USE_DOUBLE_BE = some true ∧
      flagOf (doubleLayoutDetection e t) .DUK_USE_DOUBLE_LE = some (t .DUK_USE_DOUBLE_LE) ∧
      flagOf (doubleLayoutDetection e t) .DUK_USE_DOUBLE_ME = some (t .DUK_USE_DOUBLE_ME)) := by
  constructor
  · intro hbo hfo
    rw [detectByteOrder_little] at hbo
    rw [detectFloatWordOrder_little] at hfo
    have h : doubleLayoutDetection e t = .ok (define .DUK_USE_DOUBLE_LE t) := by
      simp [doubleLayoutDetection, byteOrderDetection, stdByteOrderDetect, hstd, hbo, hfo,
        doubleLayoutCheck_define_LE]
    rw [h]
    simp
  · intro hbo hfo
    rw [detectByteOrder_big] at hbo
    rw [detectFloatWordOrder_big] at hfo
    have h : doubleLayoutDetection e t = .ok (define .DUK_USE_DOUBLE_BE t) := by
      simp [doubleLayoutDetection, byteOrderDetection, stdByteOrderDetect, hstd, hbo.1, hbo.2,
        hfo.2, doubleLayoutCheck_define_BE]
    rw [h]
    simp

/-- Witness of C8 on Linux with GCC on i386 (both orders little) and on
PowerPC (both orders big), the caller having defined no layout macro. -/
theorem matching_orders_select_LE_and_BE_witness :
    DUK_F_STD_BYTEORDER_DETECT linux_gcc_i386 = true ∧
    detectByteOrder linux_gcc_i386 = .Little ∧
    detectFloatWordOrder linux_gcc_i386 = .Little ∧
    flagOf (doubleLayoutDetection linux_gcc_i386 emptyTable) .DUK_USE_DOUBLE_LE = some true ∧
    flagOf (doubleLayoutDetection linux_gcc_i386 emptyTable) .DUK_USE_DOUBLE_ME = some false ∧
    flagOf (doubleLayoutDetection linux_gcc_i386 emptyTable) .DUK_USE_DOUBLE_BE = some false ∧
    DUK_F_STD_BYTEORDER_DETECT linux_gcc_powerpc = true ∧
    detectByteOrder linux_gcc_powerpc = .Big ∧
    detectFloatWordOrder linux_gcc_powerpc = .Big ∧
    flagOf (doubleLayoutDetection linux_gcc_powerpc emptyTable) .DUK_USE_DOUBLE_BE = some true ∧
    flagOf (doubleLayoutDetection linux_gcc_powerpc emptyTable) .DUK_USE_DOUBLE_LE = some false ∧
    flagOf (doubleLayoutDetection linux_gcc_powerpc emptyTable) .DUK_USE_DOUBLE_ME = some false :=
  have hl := (matching_orders_select_LE_and_BE linux_gcc_i386 emptyTable (by decide)).1
    (by decide) (by decide)
  have hb := (matching_orders_select_LE_and_BE linux_gcc_powerpc emptyTable (by decide)).2
    (by decide) (by decide)
  ⟨by decide, by decide, by decide, hl.2.1, hl.2.2.1, hl.2.2.2,
   by decide, by decide, by decide, hb.2.1, hb.2.2.1, hb.2.2.2⟩

/-- Counterexample to C9: with GCC on an architecture other than ARM, a
little endian byte order and a big endian float word order, standard
detection defines `DUK_USE_DOUBLE_LE` and not `DUK_USE_DOUBLE_ME`. -/
theorem little_float_big_selects_LE_with_gcc :
    DUK_F_STD_BYTEORDER_DETECT gcc_little_endian_float_big = true ∧
    detectByteOrder gcc_little_endian_float_big = .Little ∧
    detectFloatWordOrder gcc_little_endian_float_big = .Big ∧
    flagOf (doubleLayoutDetection gcc_little_endian_float_big emptyTable)
      .DUK_USE_DOUBLE_ME = some false ∧
    flagOf (doubleLayoutDetection gcc_little_endian_float_big emptyTable)
      .DUK_USE_DOUBLE_LE = some true := by
  decide

/-- C9 (amended): under standard byte order detection with a little endian
byte order and a big endian float word order, lines 231-259 execute
`#define DUK_USE_DOUBLE_ME` and nothing else when the compiler is not GCC
targeting an architecture other than ARM (so `DUK_USE_DOUBLE_LE` is left as
the caller gave it); with GCC on an architecture other than ARM they execute
`#define DUK_USE_DOUBLE_LE` and nothing else. -/
theorem little_float_big_selects_ME_unless_gcc_not_arm (e : Env) (t : Table)
    (hstd : DUK_F_STD_BYTEORDER_DETECT e = true)
    (hbo : detectByteOrder e = .Little) (hfo : detectFloatWordOrder e = .Big) :
    (gccNotArm e = false →
      doubleLayoutDetection e t = .ok (define .DUK_USE_DOUBLE_ME t) ∧
      flagOf (doubleLayoutDetection e t) .DUK_USE_DOUBLE_ME = some true ∧
      flagOf (doubleLayoutDetection e t) .DUK_USE_DOUBLE_LE = some (t .DUK_USE_DOUBLE_LE)) ∧
    (gccNotArm e = true →
      doubleLayoutDetection e t = .ok (define .DUK_USE_DOUBLE_LE t) ∧
      flagOf (doubleLayoutDetection e t) .DUK_USE_DOUBLE_LE = some true ∧
      flagOf (doubleLayoutDetection e t) .DUK_USE_DOUBLE_ME = some (t .DUK_USE_DOUBLE_ME)) := by
  rw [detectByteOrder_little] at hbo
  rw [detectFloatWordOrder_big] at hfo
  constructor
  · intro hg
    have h : doubleLayoutDetection e t = .ok (define .DUK_USE_DOUBLE_ME t) := by
      simp [doubleLayoutDetection, byteOrderDetection, stdByteOrderDetect, hstd, hbo, hfo.1,
        hfo.2, hg, doubleLayoutCheck_define_ME]
    rw [h]
    simp
  · intro hg
    have h : doubleLayoutDetection e t = .ok (define .DUK_USE_DOUBLE_LE t) := by
      simp [doubleLayoutDetection, byteOrderDetection, stdByteOrderDetect, hstd, hbo, hg,
        doubleLayoutCheck_define_LE]
    rw [h]
    simp

/-- Witness of the amended C9 on a little endian ARM with the FPA double
format, compiled with GCC. -/
theorem little_float_big_selects_ME_unless_gcc_not_arm_witness :
    DUK_F_STD_BYTEORDER_DETECT linux_gcc_arm_fpa = true ∧
    detectByteOrder linux_gcc_arm_fpa = .Little ∧
    detectFloatWordOrder linux_gcc_arm_fpa = .Big ∧
    gccNotArm linux_gcc_arm_fpa = false ∧
    flagOf (doubleLayoutDetection linux_gcc_arm_fpa emptyTable) .DUK_USE_DOUBLE_ME = some true ∧
    flagOf (doubleLayoutDetection linux_gcc_arm_fpa emptyTable) .DUK_USE_DOUBLE_LE =
      some false :=
  have h := (little_float_big_selects_ME_unless_gcc_not_arm linux_gcc_arm_fpa emptyTable
    (by decide) (by decide) (by decide)).1 (by decide)
  ⟨by decide, by decide, by decide, by decide, h.2.1, h.2.2⟩

/-- Counterexample to C10: with a big endian byte order and a little endian
float word order, standard detection stops on the `#error` of line 250 when
the compiler is not GCC, and defines `DUK_USE_DOUBLE_BE`, not
`DUK_USE_DOUBLE_ME`, with GCC on an architecture other than ARM. -/
theorem big_float_little_never_selects_ME :
    DUK_F_STD_BYTEORDER_DETECT cc_big_endian_float_little = true ∧
    detectByteOrder cc_big_endian_float_little = .Big ∧
    detectFloatWordOrder cc_big_endian_float_little = .Little ∧
    doubleLayoutDetection cc_big_endian_float_little emptyTable =
      .error .big_endian_unknown_double_word_order ∧
    DUK_F_STD_BYTEORDER_DETECT gcc_big_endian_float_little = true ∧
    detectByteOrder gcc_big_endian_float_little = .Big ∧
    detectFloatWordOrder gcc_big_endian_float_little = .Little ∧
    flagOf (doubleLayoutDetection gcc_big_endian_float_little emptyTable)
      .DUK_USE_DOUBLE_ME = some false ∧
    flagOf (doubleLayoutDetection gcc_big_endian_float_little emptyTable)
      .DUK_USE_DOUBLE_BE = some true := by
  refine ⟨by decide, by decide, by decide, ?_, by decide, by decide, by decide,
    by decide, by decide⟩
  rfl

/-! ## The platform stage (lines 44-372) -/

theorem featureSelection_frame (e : Env) (t : Table) (f : DukFlag)
    (hf : f ∉ [DukFlag._POSIX_C_SOURCE, DukFlag._GNU_SOURCE, DukFlag._XOPEN_SOURCE]) :
    featureSelection e t f = t f := by
  simp at hf
  unfold featureSelection
  split <;> simp [hf]

theorem platformDetection_frame (e : Env) (t : Table) (f : DukFlag)
    (hf : f ≠ DukFlag.DUK_USE_DOUBLE_BE) : platformDetection e t f = t f := by
  unfold platformDetection
  repeat' split
  all_goals simp [hf]

theorem unalignedAccessDetection_frame (e : Env) (t : Table) (f : DukFlag)
    (hf : f ≠ DukFlag.DUK_USE_UNALIGNED_ACCESSES_POSSIBLE) :
    unalignedAccessDetection e t f = t f := by
  unfold unalignedAccessDetection
  split <;> simp [hf]

theorem packedTvalDetection_frame (e : Env) (t : Table) (f : DukFlag)
    (hf : f ≠ DukFlag.DUK_USE_PACKED_TVAL_POSSIBLE) : packedTvalDetection e t f = t f := by
  unfold packedTvalDetection
  split <;> simp [hf]

theorem mathDetection_frame (e : Env) (t : Table) (f : DukFlag)
    (hf : f ∉ [DukFlag.DUK_USE_COMPUTED_INFINITY, DukFlag.DUK_USE_COMPUTED_NAN,
      DukFlag.DUK_USE_REPL_FPCLASSIFY, DukFlag.DUK_USE_REPL_SIGNBIT,
      DukFlag.DUK_USE_REPL_ISFINITE, DukFlag.DUK_USE_REPL_ISNAN,
      DukFlag.DUK_USE_MATH_FMIN, DukFlag.DUK_USE_MATH_FMAX, DukFlag.DUK_USE_MATH_ROUND]) :
    mathDetection e t f = t f := by
  simp at hf
  unfold mathDetection mathFunctionDetection fpclassifyDetection nanDetection
    infinityDetection
  repeat' split
  all_goals simp [hf]

theorem intMaxCheck_ok (e : Env) (t t1 : Table) (h : intMaxCheck e t = .ok t1) :
    t1 = t ∧ intMaxAccepted e = true := by
  unfold intMaxCheck at h
  unfold intMaxAccepted
  split at h
  · split at h
    · cases h
    · injection h with h
      simp_all
  · cases h

theorem intMaxCheck_of_accepted (e : Env) (t : Table) (h : intMaxAccepted e = true) :
    intMaxCheck e t = .ok t := by
  unfold intMaxAccepted at h
  unfold intMaxCheck
  simp at h
  simp [h.1, h.2]

theorem stdByteOrderDetect_ok (e : Env) (t t1 : Table)
    (h : stdByteOrderDetect e t = .ok t1) :
    t1 = define .DUK_USE_DOUBLE_LE t ∨ t1 = define .DUK_USE_DOUBLE_ME t ∨
      t1 = define .DUK_USE_DOUBLE_BE t := by
  unfold stdByteOrderDetect at h
  repeat' split at h
  all_goals first
    | (injection h with h; subst h; simp)
    | cases h

theorem doubleLayoutCheck_ok (t t1 : Table) (h : doubleLayoutCheck t = .ok t1) :
    t1 = t ∧
    (t .DUK_USE_DOUBLE_LE = true ∨ t .DUK_USE_DOUBLE_ME = true ∨
      t .DUK_USE_DOUBLE_BE = true) := by
  unfold doubleLayoutCheck at h
  split at h
  · cases h
  · injection h with h
    refine ⟨h.symm, ?_⟩
    cases h1 : t .DUK_USE_DOUBLE_LE <;> cases h2 : t .DUK_USE_DOUBLE_ME <;>
      cases h3 : t .DUK_USE_DOUBLE_BE <;> simp_all

theorem doubleLayoutDetection_frame (e : Env) (t t1 : Table) (f : DukFlag)
    (h : doubleLayoutDetection e t = .ok t1)
    (hf : f ∉ [DukFlag.DUK_USE_DOUBLE_LE, DukFlag.DUK_USE_DOUBLE_ME,
      DukFlag.DUK_USE_DOUBLE_BE]) :
    t1 f = t f := by
  simp at hf
  unfold doubleLayoutDetection byteOrderDetection at h
  split at h
  · cases hs : stdByteOrderDetect e t with
    | error err => rw [hs] at h; cases h
    | ok t2 =>
      rw [hs] at h
      have h2 := (doubleLayoutCheck_ok t2 t1 h).1
      rcases stdByteOrderDetect_ok e t t2 hs with h3 | h3 | h3 <;>
        simp [h2, h3, hf]
  · have h2 := (doubleLayoutCheck_ok t t1 h).1
    rw [h2]

theorem doubleLayoutDetection_of_determined (e : Env) (t : Table)
    (hl : doubleLayoutDetermined e = true)
    (hbe : DUK_F_STD_BYTEORDER_DETECT e = false → t .DUK_USE_DOUBLE_BE = true) :
    ∃ t1, doubleLayoutDetection e t = .ok t1 := by
  unfold doubleLayoutDetermined detectByteOrder at hl
  unfold doubleLayoutDetection byteOrderDetection stdByteOrderDetect
  cases hstd : DUK_F_STD_BYTEORDER_DETECT e
  · simp [doubleLayoutCheck, hbe hstd]
  · simp only [hstd, if_true] at hl ⊢
    cases h1 : byteOrderLittle e
    · cases h2 : byteOrderBig e
      · simp [h1, h2] at hl
      · simp [h1, h2] at hl
        have h3 : (floatWordOrderBig e || gccNotArm e) = true := by simpa using hl
        simp [h3, doubleLayoutCheck_define_BE]
    · simp [h1] at hl
      cases h3 : (floatWordOrderLittle e || gccNotArm e)
      · have h4 : (floatWordOrderBig e || gccArm e) = true := by
          simp at h3
          simp [h3.1, h3.2] at hl
          simpa using hl
        simp [h4, doubleLayoutCheck_define_ME]
      · simp [doubleLayoutCheck_define_LE]

theorem platformDetection_BE (e : Env) (t : Table)
    (h : DUK_F_STD_BYTEORDER_DETECT e = false) :
    platformDetection e t .DUK_USE_DOUBLE_BE = true := by
  unfold DUK_F_STD_BYTEORDER_DETECT at h
  unfold platformDetection
  repeat' split at h
  all_goals simp_all

theorem platformStage_ok (e : Env) (t t1 : Table) (h : platformStage e t = .ok t1) :
    ∃ t2, intMaxAccepted e = true ∧
      doubleLayoutDetection e
        (unalignedAccessDetection e (platformDetection e (featureSelection e t))) = .ok t2 ∧
      t1 = mathDetection e (packedTvalDetection e t2) := by
  unfold platformStage at h
  cases h1 : intMaxCheck e (platformDetection e (featureSelection e t)) with
  | error err => simp [h1, bind, Except.bind] at h
  | ok ta =>
    obtain ⟨hta, hacc⟩ := intMaxCheck_ok _ _ _ h1
    subst hta
    cases h2 : doubleLayoutDetection e
        (unalignedAccessDetection e (platformDetection e (featureSelection e t))) with
    | error err => simp [h1, h2, bind, Except.bind] at h
    | ok tb =>
      simp [h1, h2, bind, Except.bind, pure, Except.pure] at h
      exact ⟨tb, hacc, rfl, h.symm⟩

theorem platformStage_of_valid (e : Env) (t : Table)
    (hi : intMaxAccepted e = true) (hl : doubleLayoutDetermined e = true) :
    ∃ t1, platformStage e t = .ok t1 := by
  obtain ⟨t2, h2⟩ := doubleLayoutDetection_of_determined e
    (unalignedAccessDetection e (platformDetection e (featureSelection e t))) hl
    (fun hstd => by
      rw [unalignedAccessDetection_frame e _ _ (by simp)]
      exact platformDetection_BE e _ hstd)
  refine ⟨mathDetection e (packedTvalDetection e t2), ?_⟩
  unfold platformStage
  simp [intMaxCheck_of_accepted e _ hi, h2, bind, Except.bind, pure, Except.pure]

theorem platformStage_frame (e : Env) (t t1 : Table) (f : DukFlag)
    (h : platformStage e t = .ok t1) (hf : f ∉ platformStageWrites) : t1 f = t f := by
  obtain ⟨t2, _, h2, h3⟩ := platformStage_ok e t t1 h
  simp [platformStageWrites] at hf
  rw [h3, mathDetection_frame e _ f (by simp [hf]),
    packedTvalDetection_frame e _ f (by simp [hf]),
    doubleLayoutDetection_frame e _ t2 f h2 (by simp [hf]),
    unalignedAccessDetection_frame e _ f (by simp [hf]),
    platformDetection_frame e _ f (by simp [hf]),
    featureSelection_frame e _ f (by simp [hf])]

theorem platformStage_packed (e : Env) (t t1 : Table) (h : platformStage e t = .ok t1) :
    t1 .DUK_USE_PACKED_TVAL_POSSIBLE = packedTvalPossible e := by
  obtain ⟨t2, _, _, h3⟩ := platformStage_ok e t t1 h
  rw [h3, mathDetection_frame e _ _ (by simp), packedTvalDetection_flag]

theorem platformStage_xopen (e : Env) (t t1 : Table) (h : platformStage e t = .ok t1)
    (hl : e.__linux = true) : t1 ._XOPEN_SOURCE = true := by
  obtain ⟨t2, _, h2, h3⟩ := platformStage_ok e t t1 h
  rw [h3, mathDetection_frame e _ _ (by simp), packedTvalDetection_frame e _ _ (by simp),
    doubleLayoutDetection_frame e _ t2 _ h2 (by simp),
    unalignedAccessDetection_frame e _ _ (by simp),
    platformDetection_frame e _ _ (by simp)]
  simp [featureSelection, hl]

/-! ## Profile processing and the stages after it (lines 423-680) -/

theorem unalignedAccessSettings_apply (t : Table) (f : DukFlag) :
    unalignedAccessSettings t f =
      if f = .DUK_USE_HASHBYTES_UNALIGNED_U32_ACCESS ∨ f = .DUK_USE_HOBJECT_UNALIGNED_LAYOUT
      then t .DUK_USE_UNALIGNED_ACCESSES_POSSIBLE else t f := by
  unfold unalignedAccessSettings
  split <;> rename_i h <;> by_cases h1 : f = .DUK_USE_HASHBYTES_UNALIGNED_U32_ACCESS <;>
    by_cases h2 : f = .DUK_USE_HOBJECT_UNALIGNED_LAYOUT <;> simp_all

theorem profileModifications_catalog (p : Int) (t : Table) :
    (∃ T, profileModifications p t = .ok T) ↔ p ∈ catalog := by
  unfold profileModifications catalog
  repeat' split
  all_goals simp_all

theorem profileProcessing_catalog (p : Int) (t : Table) :
    (∃ T, profileProcessing p t = .ok T) ↔ p ∈ catalog :=
  profileModifications_catalog p _

theorem profileProcessing_unknown (p : Int) (t : Table) (hp : p ∉ catalog) :
    profileProcessing p t = .error .unknown_DUK_PROFILE := by
  unfold profileProcessing profileModifications
  simp [catalog] at hp
  simp [hp]

theorem profileProcessing_frame (p : Int) (t T : Table) (f : DukFlag)
    (h : profileProcessing p t = .ok T) (hf : f ∉ profileWrites) : T f = t f := by
  simp [profileWrites] at hf
  unfold profileProcessing profileModifications at h
  repeat' split at h
  all_goals first
    | (injection h with h; subst h
       simp [unalignedAccessSettings_apply, fullProfileSettings, hf])
    | cases h

theorem tracebackDepth_frame (t : Table) (f : DukFlag)
    (hf : f ≠ DukFlag.DUK_OPT_TRACEBACK_DEPTH) : tracebackDepth t f = t f := by
  unfold tracebackDepth
  split <;> simp [hf]

theorem dynamicFeatures_frame (e : Env) (t : Table) (f : DukFlag)
    (hf : f ∉ [DukFlag.DUK_USE_DPRINT_RDTSC, DukFlag.DUK_USE_VARIADIC_MACROS,
      DukFlag.DUK_USE_STRUCT_HACK, DukFlag.DUK_USE_GCC_PRAGMAS]) :
    dynamicFeatures e t f = t f := by
  simp at hf
  unfold dynamicFeatures gccPragmasRefinement structHackRefinement variadicMacrosRefinement
    rdtscRefinement
  repeat' split
  all_goals simp [hf]

theorem posixDateProvider_frame (t : Table) (f : DukFlag)
    (hf : f ∉ [DukFlag.DUK_USE_DATE_NOW_GETTIMEOFDAY, DukFlag.DUK_USE_DATE_TZO_GMTIME,
      DukFlag.DUK_USE_DATE_PRS_STRPTIME, DukFlag.DUK_USE_DATE_FMT_STRFTIME]) :
    posixDateProvider t f = t f := by
  simp at hf
  simp [posixDateProvider, hf]

theorem ansiDateProvider_frame (t : Table) (f : DukFlag)
    (hf : f ∉ [DukFlag.DUK_USE_DATE_NOW_TIME, DukFlag.DUK_USE_DATE_TZO_GMTIME,
      DukFlag.DUK_USE_DATE_FMT_STRFTIME]) :
    ansiDateProvider t f = t f := by
  simp at hf
  simp [ansiDateProvider, hf]

theorem dateProviderSelection_ok (e : Env) (t t1 : Table)
    (h : dateProviderSelection e t = .ok t1) :
    dateProviderAvailable e = true ∧ (t1 = posixDateProvider t ∨ t1 = ansiDateProvider t) := by
  unfold dateProviderSelection at h
  unfold dateProviderAvailable
  repeat' split at h
  all_goals first
    | (injection h with h; subst h; simp_all)
    | cases h

theorem dateProviderSelection_of_available (e : Env) (t : Table)
    (h : dateProviderAvailable e = true) :
    dateProviderSelection e t = .ok (posixDateProvider t) ∨
      dateProviderSelection e t = .ok (ansiDateProvider t) := by
  unfold dateProviderAvailable at h
  unfold dateProviderSelection
  repeat' split
  all_goals simp_all

theorem dateHeaderCheck_ok (e : Env) (t t1 : Table) (h : dateHeaderCheck e t = .ok t1) :
    t1 = t := by
  unfold dateHeaderCheck at h
  repeat' split at h
  all_goals first
    | (injection h with h; exact h.symm)
    | cases h

theorem dateHeaderCheck_of_xopen (e : Env) (t : Table)
    (h : e.__linux = true → t ._XOPEN_SOURCE = true) : dateHeaderCheck e t = .ok t := by
  unfold dateHeaderCheck
  cases hl : e.__linux
  · simp
  · simp [h hl]

theorem postProfile_frame (e : Env) (T t2 : Table) (f : DukFlag)
    (h : t2 = posixDateProvider (dynamicFeatures e (tracebackDepth T)) ∨
      t2 = ansiDateProvider (dynamicFeatures e (tracebackDepth T)))
    (hf : f ∉ postProfileWrites) : t2 f = T f := by
  simp [postProfileWrites] at hf
  rcases h with h | h
  · rw [h, posixDateProvider_frame _ _ (by simp [hf]),
      dynamicFeatures_frame _ _ _ (by simp [hf]), tracebackDepth_frame _ _ (by simp [hf])]
  · rw [h, ansiDateProvider_frame _ _ (by simp [hf]),
      dynamicFeatures_frame _ _ _ (by simp [hf]), tracebackDepth_frame _ _ (by simp [hf])]

theorem profileSection_custom (p : Int) (e : Env) (t : Table) (hp : ¬ p > 0) :
    profileSection p e t = .ok t := by
  simp [profileSection, hp]

theorem profileSection_ok (p : Int) (e : Env) (t t2 : Table) (hp : p > 0)
    (h : profileSection p e t = .ok t2) :
    ∃ T, profileProcessing p t = .ok T ∧ dateProviderAvailable e = true ∧
      (t2 = posixDateProvider (dynamicFeatures e (tracebackDepth T)) ∨
        t2 = ansiDateProvider (dynamicFeatures e (tracebackDepth T))) := by
  unfold profileSection at h
  simp only [hp, if_true] at h
  cases h1 : profileProcessing p t with
  | error err => simp [h1, bind, Except.bind] at h
  | ok T =>
    cases h2 : dateProviderSelection e (dynamicFeatures e (tracebackDepth T)) with
    | error err => simp [h1, h2, bind, Except.bind] at h
    | ok t3 =>
      simp [h1, h2, bind, Except.bind] at h
      have h3 := dateHeaderCheck_ok e t3 t2 h
      obtain ⟨ha, hb⟩ := dateProviderSelection_ok e _ t3 h2
      exact ⟨T, rfl, ha, by rw [h3]; exact hb⟩

theorem profileSection_of_valid (p : Int) (e : Env) (t : Table) (hp : p ∈ catalog)
    (hd : dateProviderAvailable e = true)
    (hx : e.__linux = true → t ._XOPEN_SOURCE = true) :
    ∃ t2, profileSection p e t = .ok t2 := by
  obtain ⟨T, hT⟩ := (profileProcessing_catalog p t).2 hp
  have hpos : p > 0 := by
    simp [catalog] at hp
    omega
  have hx2 : ∀ t3, (t3 = posixDateProvider (dynamicFeatures e (tracebackDepth T)) ∨
      t3 = ansiDateProvider (dynamicFeatures e (tracebackDepth T))) →
      dateHeaderCheck e t3 = .ok t3 := by
    intro t3 h3
    apply dateHeaderCheck_of_xopen
    intro hl
    rw [postProfile_frame e T t3 _ h3 (by simp [postProfileWrites]),
      profileProcessing_frame p t T _ hT (by simp [profileWrites])]
    exact hx hl
  unfold profileSection
  simp only [hpos, if_true]
  rcases dateProviderSelection_of_available e (dynamicFeatures e (tracebackDepth T)) hd
    with h2 | h2
  · exact ⟨posixDateProvider (dynamicFeatures e (tracebackDepth T)),
      by simp [hT, h2, bind, Except.bind, hx2 _ (Or.inl rfl)]⟩
  · exact ⟨ansiDateProvider (dynamicFeatures e (tracebackDepth T)),
      by simp [hT, h2, bind, Except.bind, hx2 _ (Or.inr rfl)]⟩

theorem intMaxCheck_error (e : Env) (t : Table) (err : DukError)
    (h : intMaxCheck e t = .error err) : err ∈ platformErrors := by
  unfold intMaxCheck at h
  repeat' split at h
  all_goals first
    | (injection h with h; subst h; simp [platformErrors])
    | cases h

theorem stdByteOrderDetect_error (e : Env) (t : Table) (err : DukError)
    (h : stdByteOrderDetect e t = .error err) : err ∈ platformErrors := by
  unfold stdByteOrderDetect at h
  repeat' split at h
  all_goals first
    | (injection h with h; subst h; simp [platformErrors])
    | cases h

theorem doubleLayoutCheck_error (t : Table) (err : DukError)
    (h : doubleLayoutCheck t = .error err) : err ∈ platformErrors := by
  unfold doubleLayoutCheck at h
  split at h
  · injection h with h
    subst h
    simp [platformErrors]
  · cases h

theorem doubleLayoutDetection_error (e : Env) (t : Table) (err : DukError)
    (h : doubleLayoutDetection e t = .error err) : err ∈ platformErrors := by
  unfold doubleLayoutDetection at h
  cases h1 : byteOrderDetection e t with
  | error err1 =>
    rw [h1] at h
    injection h with h
    subst h
    unfold byteOrderDetection at h1
    split at h1
    · exact stdByteOrderDetect_error e t _ h1
    · cases h1
  | ok t1 =>
    rw [h1] at h
    exact doubleLayoutCheck_error t1 err h

theorem platformStage_error (e : Env) (t : Table) (err : DukError)
    (h : platformStage e t = .error err) : err ∈ platformErrors := by
  unfold platformStage at h
  cases h1 : intMaxCheck e (platformDetection e (featureSelection e t)) with
  | error err1 =>
    simp [h1, bind, Except.bind] at h
    subst h
    exact intMaxCheck_error e _ _ h1
  | ok ta =>
    cases h2 : doubleLayoutDetection e (unalignedAccessDetection e ta) with
    | ok tb => simp [h1, h2, bind, Except.bind, pure, Except.pure] at h
    | error err2 =>
      simp [h1, h2, bind, Except.bind] at h
      subst h
      exact doubleLayoutDetection_error e _ _ h2

theorem profileProcessing_error (p : Int) (t : Table) (err : DukError)
    (h : profileProcessing p t = .error err) : err = .unknown_DUK_PROFILE := by
  by_cases hp : p ∈ catalog
  · obtain ⟨T, hT⟩ := (profileProcessing_catalog p t).2 hp
    rw [hT] at h
    cases h
  · rw [profileProcessing_unknown p t hp] at h
    injection h with h
    exact h.symm

theorem dateProviderSelection_error (e : Env) (t : Table) (err : DukError)
    (h : dateProviderSelection e t = .error err) : err ∈ profileSectionErrors := by
  unfold dateProviderSelection at h
  repeat' split at h
  all_goals first
    | (injection h with h; subst h; simp [profileSectionErrors])
    | simp at h

theorem dateHeaderCheck_error (e : Env) (t : Table) (err : DukError)
    (h : dateHeaderCheck e t = .error err) : err ∈ profileSectionErrors := by
  unfold dateHeaderCheck at h
  repeat' split at h
  all_goals first
    | (injection h with h; subst h; simp [profileSectionErrors])
    | simp at h

theorem profileSection_error (p : Int) (e : Env) (t : Table) (err : DukError)
    (h : profileSection p e t = .error err) : err ∈ profileSectionErrors := by
  unfold profileSection at h
  split at h
  · cases h1 : profileProcessing p t with
    | error err1 =>
      simp [h1, bind, Except.bind] at h
      subst h
      rw [profileProcessing_error p t _ h1]
      simp [profileSectionErrors]
    | ok T =>
      cases h2 : dateProviderSelection e (dynamicFeatures e (tracebackDepth T)) with
      | error err2 =>
        simp [h1, h2, bind, Except.bind] at h
        subst h
        exact dateProviderSelection_error e _ _ h2
      | ok t3 =>
        simp [h1, h2, bind, Except.bind] at h
        exact dateHeaderCheck_error e t3 err h
  · simp at h

theorem sanityChecks_ok (t t1 : Table) (h : sanityChecks t = .ok t1) : t1 = t := by
  unfold sanityChecks at h
  repeat' split at h
  all_goals first
    | (injection h with h; exact h.symm)
    | cases h

theorem sanityChecks_of_rules (t : Table)
    (h1 : t .DUK_USE_DDEBUG = false) (h2 : t .DUK_USE_DDDEBUG = false)
    (h3 : t .DUK_USE_REFERENCE_COUNTING = true → t .DUK_USE_DOUBLE_LINKED_HEAP = true)
    (h4 : t .DUK_USE_MARK_AND_SWEEP = true) :
    sanityChecks t = (if t .DUK_DDEBUG && !t .DUK_DEBUG then .error .obsolete_DUK_DDEBUG
      else .ok t) := by
  unfold sanityChecks
  cases h5 : t .DUK_USE_REFERENCE_COUNTING
  · simp [h1, h2, h4]
  · simp [h1, h2, h3 h5, h4]

/-! ## The header as a whole -/

theorem duk_features_ok (sel : Option Int) (e : Env) (t cfg : Table)
    (h : duk_features sel e t = .ok cfg) :
    ∃ t1, platformStage e t = .ok t1 ∧
      profileSection (defaultProfile sel t1) e t1 = .ok cfg ∧
      sanityChecks cfg = .ok cfg := by
  unfold duk_features at h
  cases h1 : platformStage e t with
  | error err => simp [h1, bind, Except.bind] at h
  | ok t1 =>
    cases h2 : profileSection (defaultProfile sel t1) e t1 with
    | error err => simp [h1, h2, bind, Except.bind] at h
    | ok t2 =>
      simp [h1, h2, bind, Except.bind] at h
      have h3 := sanityChecks_ok t2 cfg h
      subst h3
      exact ⟨t1, rfl, h2, h⟩

theorem duk_features_of_stages (sel : Option Int) (e : Env) (t t1 t2 : Table)
    (h1 : platformStage e t = .ok t1)
    (h2 : profileSection (defaultProfile sel t1) e t1 = .ok t2) :
    duk_features sel e t = sanityChecks t2 := by
  unfold duk_features
  simp [h1, h2, bind, Except.bind]

theorem duk_features_error (sel : Option Int) (e : Env) (t : Table) (err : DukError)
    (h : duk_features sel e t = .error err) :
    err ∈ platformErrors ∨ err ∈ profileSectionErrors ∨
      ∃ t1 t2, platformStage e t = .ok t1 ∧
        profileSection (defaultProfile sel t1) e t1 = .ok t2 ∧
        sanityChecks t2 = .error err := by
  cases h1 : platformStage e t with
  | error err1 =>
    have : duk_features sel e t = .error err1 := by
      unfold duk_features
      simp [h1, bind, Except.bind]
    rw [this] at h
    injection h with h
    subst h
    exact Or.inl (platformStage_error e t _ h1)
  | ok t1 =>
    cases h2 : profileSection (defaultProfile sel t1) e t1 with
    | error err2 =>
      have : duk_features sel e t = .error err2 := by
        unfold duk_features
        simp [h1, h2, bind, Except.bind]
      rw [this] at h
      injection h with h
      subst h
      exact Or.inr (Or.inl (profileSection_error _ e t1 _ h2))
    | ok t2 =>
      rw [duk_features_of_stages sel e t t1 t2 h1 h2] at h
      exact Or.inr (Or.inr ⟨t1, t2, rfl, h2, h⟩)

theorem profileProcessing_rules (p : Int) (t T : Table)
    (h : profileProcessing p t = .ok T) :
    T .DUK_USE_DDEBUG = false ∧ T .DUK_USE_DDDEBUG = false ∧
    (T .DUK_USE_REFERENCE_COUNTING = true → T .DUK_USE_DOUBLE_LINKED_HEAP = true) ∧
    T .DUK_USE_MARK_AND_SWEEP = true := by
  unfold profileProcessing profileModifications at h
  repeat' split at h
  all_goals first
    | (injection h with h; subst h
       simp [unalignedAccessSettings_apply, fullProfileSettings])
    | cases h

theorem profileSection_rules (p : Int) (e : Env) (t t2 : Table) (hp : p > 0)
    (h : profileSection p e t = .ok t2) :
    t2 .DUK_USE_DDEBUG = false ∧ t2 .DUK_USE_DDDEBUG = false ∧
    (t2 .DUK_USE_REFERENCE_COUNTING = true → t2 .DUK_USE_DOUBLE_LINKED_HEAP = true) ∧
    t2 .DUK_USE_MARK_AND_SWEEP = true := by
  obtain ⟨T, hT, _, hshape⟩ := profileSection_ok p e t t2 hp h
  have hr := profileProcessing_rules p t T hT
  rw [postProfile_frame e T t2 _ hshape (by simp [postProfileWrites]),
    postProfile_frame e T t2 _ hshape (by simp [postProfileWrites]),
    postProfile_frame e T t2 _ hshape (by simp [postProfileWrites]),
    postProfile_frame e T t2 _ hshape (by simp [postProfileWrites]),
    postProfile_frame e T t2 _ hshape (by simp [postProfileWrites])]
  exact hr

theorem catalog_pos (p : Int) (hp : p ∈ catalog) : p > 0 := by
  simp [catalog] at hp
  omega

theorem defaultProfile_none_catalog (t : Table) : defaultProfile none t ∈ catalog := by
  show (if t .DUK_USE_PACKED_TVAL_POSSIBLE then (100 : Int) else 400) ∈ catalog
  split <;> simp [catalog]

/-- Outcome of the whole header on valid platform facts with a selector of
the catalog: the only `#error` left is the one of the obsolete `DUK_DDEBUG`;
otherwise a configuration is resolved, and every flag which the stages after
profile processing do not write has in it the value profile processing gave. -/
theorem duk_features_of_valid (sel : Option Int) (e : Env) (t : Table)
    (hv : validPlatformFacts e = true) (hp : ∀ t1, defaultProfile sel t1 ∈ catalog) :
    ∃ cfg t1 T,
      duk_features sel e t =
        (if t .DUK_DDEBUG && !t .DUK_DEBUG then .error .obsolete_DUK_DDEBUG else .ok cfg) ∧
      platformStage e t = .ok t1 ∧
      profileProcessing (defaultProfile sel t1) t1 = .ok T ∧
      ∀ f, f ∉ postProfileWrites → cfg f = T f := by
  simp only [validPlatformFacts, Bool.and_eq_true] at hv
  obtain ⟨⟨hi, hl⟩, hd⟩ := hv
  obtain ⟨t1, h1⟩ := platformStage_of_valid e t hi hl
  obtain ⟨t2, h2⟩ := profileSection_of_valid (defaultProfile sel t1) e t1 (hp t1) hd
    (platformStage_xopen e t t1 h1)
  have hpos := catalog_pos _ (hp t1)
  obtain ⟨T, hT, _, hshape⟩ := profileSection_ok _ e t1 t2 hpos h2
  have hr := profileSection_rules _ e t1 t2 hpos h2
  have hs := sanityChecks_of_rules t2 hr.1 hr.2.1 hr.2.2.1 hr.2.2.2
  have hdd : t2 .DUK_DDEBUG = t .DUK_DDEBUG := by
    rw [postProfile_frame e T t2 _ hshape (by simp [postProfileWrites]),
      profileProcessing_frame _ t1 T _ hT (by simp [profileWrites]),
      platformStage_frame e t t1 _ h1 (by simp [platformStageWrites])]
  have hd2 : t2 .DUK_DEBUG = t .DUK_DEBUG := by
    rw [postProfile_frame e T t2 _ hshape (by simp [postProfileWrites]),
      profileProcessing_frame _ t1 T _ hT (by simp [profileWrites]),
      platformStage_frame e t t1 _ h1 (by simp [platformStageWrites])]
  rw [hdd, hd2] at hs
  refine ⟨t2, t1, T, ?_, h1, hT, fun f hf => postProfile_frame e T t2 f hshape hf⟩
  rw [duk_features_of_stages sel e t t1 t2 h1 h2, hs]

/-- Shape of a resolved configuration for a selector above 0: it comes from
profile processing on the table of the platform stage. -/
theorem duk_features_profile (sel : Option Int) (e : Env) (t cfg : Table)
    (h : duk_features sel e t = .ok cfg) (hp : ∀ t1, defaultProfile sel t1 > 0) :
    ∃ t1 T, platformStage e t = .ok t1 ∧
      profileProcessing (defaultProfile sel t1) t1 = .ok T ∧
      ∀ f, f ∉ postProfileWrites → cfg f = T f := by
  obtain ⟨t1, h1, h2, _⟩ := duk_features_ok sel e t cfg h
  obtain ⟨T, hT, _, hshape⟩ := profileSection_ok _ e t1 cfg (hp t1) h2
  exact ⟨t1, T, h1, hT, fun f hf => postProfile_frame e T cfg f hshape hf⟩

theorem flagOf_of_valid (sel : Option Int) (e : Env) (t : Table) (f : DukFlag) (b : Bool)
    (hv : validPlatformFacts e = true) (ho : noObsoleteDebugDefine t = true)
    (hp : ∀ t1, defaultProfile sel t1 ∈ catalog)
    (h : ∀ cfg, duk_features sel e t = .ok cfg → cfg f = b) :
    flagOf (duk_features sel e t) f = some b := by
  obtain ⟨cfg, t1, T, h1, _, _, _⟩ := duk_features_of_valid sel e t hv hp
  have ho2 : (t .DUK_DDEBUG && !t .DUK_DEBUG) = false := by
    unfold noObsoleteDebugDefine at ho
    cases h5 : t .DUK_DDEBUG <;> cases h6 : t .DUK_DEBUG <;> simp_all
  rw [ho2] at h1
  simp only [Bool.false_eq_true, if_false] at h1
  rw [h1]
  simp [h cfg h1]

theorem profileProcessing_packed (p : Int) (t T : Table)
    (h : profileProcessing p t = .ok T) :
    T .DUK_USE_PACKED_TVAL = decide (p ∈ [100, 101, 200, 201, 300, 301]) := by
  unfold profileProcessing profileModifications at h
  repeat' split at h
  all_goals first
    | (injection h with h; subst h
       simp_all [unalignedAccessSettings_apply, fullProfileSettings])
    | simp at h

theorem profileProcessing_100_flags (t T : Table) (h : profileProcessing 100 t = .ok T) :
    T .DUK_USE_PACKED_TVAL = true ∧ T .DUK_USE_REFERENCE_COUNTING = true ∧
    T .DUK_USE_MARK_AND_SWEEP = true ∧ T .DUK_USE_DEBUG = false := by
  simp [profileProcessing, profileModifications] at h
  subst h
  simp [unalignedAccessSettings_apply, fullProfileSettings]

theorem profileProcessing_301_flags (t T : Table) (h : profileProcessing 301 t = .ok T) :
    T .DUK_USE_REFERENCE_COUNTING = false ∧ T .DUK_USE_MARK_AND_SWEEP = true ∧
    T .DUK_USE_DEBUG = true ∧ T .DUK_USE_ASSERTIONS = true ∧
    T .DUK_USE_VERBOSE_ERRORS = false := by
  simp [profileProcessing, profileModifications] at h
  subst h
  simp [unalignedAccessSettings_apply, fullProfileSettings]

/-! ## Claims on the profiles -/

/-- C1: for each of the ten selectors of the catalog, profile processing
(lines 448-555) defines a flag table, whatever the platform facts and the
table it starts from, and that table violates none of the five dependency
rules: DDEBUG requires DEBUG, DDDEBUG requires DEBUG, DDDEBUG requires
DDEBUG, REFERENCE_COUNTING requires DOUBLE_LINKED_HEAP, GC_TORTURE requires
MARK_AND_SWEEP.  The rules still hold on the table that reaches the sanity
checks of lines 694-716, so that the header never ends on one of the five
`#error` directives of these rules. -/
theorem catalog_profiles_pass_dependency_rules (p : Int) (hp : p ∈ catalog)
    (e : Env) (t : Table) :
    (∃ T, profileProcessing p t = .ok T ∧
      (T .DUK_USE_DDEBUG = true → T .DUK_USE_DEBUG = true) ∧
      (T .DUK_USE_DDDEBUG = true → T .DUK_USE_DEBUG = true) ∧
      (T .DUK_USE_DDDEBUG = true → T .DUK_USE_DDEBUG = true) ∧
      (T .DUK_USE_REFERENCE_COUNTING = true → T .DUK_USE_DOUBLE_LINKED_HEAP = true) ∧
      (T .DUK_USE_GC_TORTURE = true → T .DUK_USE_MARK_AND_SWEEP = true)) ∧
    (∀ t2, profileSection p e t = .ok t2 →
      (t2 .DUK_USE_DDEBUG = true → t2 .DUK_USE_DEBUG = true) ∧
      (t2 .DUK_USE_DDDEBUG = true → t2 .DUK_USE_DEBUG = true) ∧
      (t2 .DUK_USE_DDDEBUG = true → t2 .DUK_USE_DDEBUG = true) ∧
      (t2 .DUK_USE_REFERENCE_COUNTING = true → t2 .DUK_USE_DOUBLE_LINKED_HEAP = true) ∧
      (t2 .DUK_USE_GC_TORTURE = true → t2 .DUK_USE_MARK_AND_SWEEP = true) ∧
      (sanityChecks t2 = .ok t2 ∨ sanityChecks t2 = .error .obsolete_DUK_DDEBUG)) ∧
    (∀ err, duk_features (some p) e t = .error err → err ∉ dependencyErrors) := by
  have hpos := catalog_pos p hp
  refine ⟨?_, ?_, ?_⟩
  · obtain ⟨T, hT⟩ := (profileProcessing_catalog p t).2 hp
    obtain ⟨h1, h2, h3, h4⟩ := profileProcessing_rules p t T hT
    exact ⟨T, hT, by simp [h1], by simp [h2], by simp [h2], h3, fun _ => h4⟩
  · intro t2 ht2
    obtain ⟨h1, h2, h3, h4⟩ := profileSection_rules p e t t2 hpos ht2
    refine ⟨by simp [h1], by simp [h2], by simp [h2], h3, fun _ => h4, ?_⟩
    rw [sanityChecks_of_rules t2 h1 h2 h3 h4]
    split
    · exact Or.inr rfl
    · exact Or.inl rfl
  · intro err herr
    rcases duk_features_error (some p) e t err herr with h | h | ⟨t1, t2, _, h2, h3⟩
    · simp [platformErrors] at h
      rcases h with h | h | h | h | h | h <;> subst h <;> simp [dependencyErrors]
    · simp [profileSectionErrors] at h
      rcases h with h | h | h | h | h <;> subst h <;> simp [dependencyErrors]
    · have hp2 : defaultProfile (some p) t1 = p := rfl
      rw [hp2] at h2
      obtain ⟨h4, h5, h6, h7⟩ := profileSection_rules p e t1 t2 hpos h2
      rw [sanityChecks_of_rules t2 h4 h5 h6 h7] at h3
      split at h3
      · injection h3 with h3
        subst h3
        simp [dependencyErrors]
      · simp at h3

/-- Witness of C1 for the selector FULL on Linux with GCC on i386. -/
theorem catalog_profiles_pass_dependency_rules_witness :
    (100 : Int) ∈ catalog ∧
    ∀ err, duk_features (some 100) linux_gcc_i386 emptyTable = .error err →
      err ∉ dependencyErrors :=
  ⟨by decide,
   (catalog_profiles_pass_dependency_rules 100 (by decide) linux_gcc_i386 emptyTable).2.2⟩

/-- C2: the sanity checks of lines 694-716 end on an `#error` if and only if
a dependency rule is violated in the flag table: reference counting without
the doubly-linked heap, GC torture without mark-and-sweep, `DUK_USE_DDEBUG`
without `DUK_USE_DEBUG`, `DUK_USE_DDDEBUG` without `DUK_USE_DEBUG` or without
`DUK_USE_DDEBUG`, or the obsolete `DUK_DDEBUG` without `DUK_DEBUG`; otherwise
they return the table unchanged, and a table which passes and has a debug
level on has the level below it and the base debug flag on.  With the custom
profile (`DUK_PROFILE` not above 0) the table which reaches the checks has
these flags as the caller gave them, so that the header, once past the
platform stage, ends on an `#error` exactly when the table of the caller
violates a rule. -/
theorem sanity_checks_fail_iff_rule_violated (t : Table) :
    ((∃ err, sanityChecks t = .error err) ↔
      (t .DUK_USE_REFERENCE_COUNTING = true ∧ t .DUK_USE_DOUBLE_LINKED_HEAP = false) ∨
      (t .DUK_USE_GC_TORTURE = true ∧ t .DUK_USE_MARK_AND_SWEEP = false) ∨
      (t .DUK_USE_DDEBUG = true ∧ t .DUK_USE_DEBUG = false) ∨
      (t .DUK_USE_DDDEBUG = true ∧
        (t .DUK_USE_DEBUG = false ∨ t .DUK_USE_DDEBUG = false)) ∨
      (t .DUK_DDEBUG = true ∧ t .DUK_DEBUG = false)) ∧
    ((¬ ∃ err, sanityChecks t = .error err) ↔ sanityChecks t = .ok t) ∧
    (sanityChecks t = .ok t ↔
      (t .DUK_USE_DDEBUG = true → t .DUK_USE_DEBUG = true) ∧
      (t .DUK_USE_DDDEBUG = true →
        t .DUK_USE_DDEBUG = true ∧ t .DUK_USE_DEBUG = true) ∧
      (t .DUK_USE_REFERENCE_COUNTING = true → t .DUK_USE_DOUBLE_LINKED_HEAP = true) ∧
      (t .DUK_USE_GC_TORTURE = true → t .DUK_USE_MARK_AND_SWEEP = true) ∧
      (t .DUK_DDEBUG = true → t .DUK_DEBUG = true)) ∧
    (∀ (e : Env) (p : Int) (t1 : Table), p ≤ 0 → platformStage e t = .ok t1 →
      ((∃ err, duk_features (some p) e t = .error err) ↔
        (t .DUK_USE_REFERENCE_COUNTING = true ∧ t .DUK_USE_DOUBLE_LINKED_HEAP = false) ∨
        (t .DUK_USE_GC_TORTURE = true ∧ t .DUK_USE_MARK_AND_SWEEP = false) ∨
        (t .DUK_USE_DDEBUG = true ∧ t .DUK_USE_DEBUG = false) ∨
        (t .DUK_USE_DDDEBUG = true ∧
          (t .DUK_USE_DEBUG = false ∨ t .DUK_USE_DDEBUG = false)) ∨
        (t .DUK_DDEBUG = true ∧ t .DUK_DEBUG = false))) := by
  have hiff : (¬ ∃ err, sanityChecks t = .error err) ↔ sanityChecks t = .ok t := by
    constructor
    · intro h
      rcases sanityChecks_ok_or_error t with h1 | h1
      · exact h1
      · exact absurd h1 h
    · intro h ⟨err, herr⟩
      rw [h] at herr
      cases herr
  refine ⟨sanityChecks_error_iff t, hiff, sanityChecks_ok_iff_rules t, ?_⟩
  intro e p t1 hp h1
  have hsec : profileSection (defaultProfile (some p) t1) e t1 = .ok t1 :=
    profileSection_custom p e t1 (by omega)
  rw [duk_features_of_stages (some p) e t t1 t1 h1 hsec, sanityChecks_error_iff t1,
    platformStage_frame e t t1 _ h1 (by simp [platformStageWrites]),
    platformStage_frame e t t1 _ h1 (by simp [platformStageWrites]),
    platformStage_frame e t t1 _ h1 (by simp [platformStageWrites]),
    platformStage_frame e t t1 _ h1 (by simp [platformStageWrites]),
    platformStage_frame e t t1 _ h1 (by simp [platformStageWrites]),
    platformStage_frame e t t1 _ h1 (by simp [platformStageWrites]),
    platformStage_frame e t t1 _ h1 (by simp [platformStageWrites]),
    platformStage_frame e t t1 _ h1 (by simp [platformStageWrites]),
    platformStage_frame e t t1 _ h1 (by simp [platformStageWrites])]

/-- Witness of C2: a table with reference counting and without the
doubly-linked heap is rejected, the empty table is accepted. -/
theorem sanity_checks_fail_iff_rule_violated_witness :
    (∃ err, sanityChecks (define .DUK_USE_REFERENCE_COUNTING emptyTable) = .error err) ∧
    sanityChecks emptyTable = .ok emptyTable ∧
    (∃ err, duk_features (some 0) linux_gcc_i386
      (define .DUK_USE_REFERENCE_COUNTING emptyTable) = .error err) :=
  ⟨(sanity_checks_fail_iff_rule_violated
      (define .DUK_USE_REFERENCE_COUNTING emptyTable)).1.2 (Or.inl ⟨by decide, by decide⟩),
   (sanity_checks_fail_iff_rule_violated emptyTable).2.2.1.2
     ⟨by decide, by decide, by decide, by decide, by decide⟩,
   ((sanity_checks_fail_iff_rule_violated
      (define .DUK_USE_REFERENCE_COUNTING emptyTable)).2.2.2 linux_gcc_i386 0 _ (by decide)
      (platformStage_of_valid linux_gcc_i386 _ (by decide) (by decide)).choose_spec).2
     (Or.inl ⟨by decide, by decide⟩)⟩

/-- Counterexample to C3: on a 32-bit little endian Windows build the facts
of Scenario A hold for the selector FULL, and the header ends on the `#error`
of line 618, so that no configuration is resolved.  The same facts on Linux
end on the `#error` of line 184 when `INT_MAX` is not defined, and on the one
of line 695 when the caller gives the obsolete `DUK_DDEBUG`. -/
theorem scenario_A_halts_on_win32 :
    win32_gcc_i386.__WORDSIZE = some 32 ∧
    detectByteOrder win32_gcc_i386 = .Little ∧
    detectFloatWordOrder win32_gcc_i386 = .Little ∧
    errorOf (duk_features (some 100) win32_gcc_i386 emptyTable) =
      some .WIN32_not_supported ∧
    flagOf (duk_features (some 100) win32_gcc_i386 emptyTable) .DUK_USE_PACKED_TVAL = none ∧
    errorOf (duk_features (some 100) { linux_gcc_i386 with INT_MAX := none } emptyTable) =
      some .INT_MAX_not_defined ∧
    errorOf (duk_features (some 100) linux_gcc_i386 (define .DUK_DDEBUG emptyTable)) =
      some .obsolete_DUK_DDEBUG := by
  decide

theorem doubleLayoutDetermined_of_little (e : Env)
    (hbo : detectByteOrder e = .Little) (hfo : detectFloatWordOrder e = .Little) :
    doubleLayoutDetermined e = true := by
  rw [detectFloatWordOrder_little] at hfo
  unfold doubleLayoutDetermined
  split
  · rw [hbo]
    simp [hfo]
  · rfl

/-- C3 (amended): Scenario A on a platform which passes the other checks of
the header.  With the selector FULL, a word size of 32, a little endian byte
order and a little endian float word order, `INT_MAX` defined and at least
2147483647, a Date provider for the platform (not Windows, and one of Apple,
Linux, Unix, POSIX, Atari ST, AmigaOS) and no obsolete `DUK_DDEBUG` without
`DUK_DEBUG`, the header resolves a configuration which has the packed
representation on, reference counting on, mark-and-sweep on and debug off. -/
theorem scenario_A_on_supported_platform (e : Env) (t : Table)
    (_hw : e.__WORDSIZE = some 32)
    (hbo : detectByteOrder e = .Little) (hfo : detectFloatWordOrder e = .Little)
    (hi : intMaxAccepted e = true) (hd : dateProviderAvailable e = true)
    (ho : noObsoleteDebugDefine t = true) :
    (∃ cfg, duk_features (some 100) e t = .ok cfg) ∧
    flagOf (duk_features (some 100) e t) .DUK_USE_PACKED_TVAL = some true ∧
    flagOf (duk_features (some 100) e t) .DUK_USE_REFERENCE_COUNTING = some true ∧
    flagOf (duk_features (some 100) e t) .DUK_USE_MARK_AND_SWEEP = some true ∧
    flagOf (duk_features (some 100) e t) .DUK_USE_DEBUG = some false := by
  have hv : validPlatformFacts e = true := by
    simp [validPlatformFacts, hi, hd, doubleLayoutDetermined_of_little e hbo hfo]
  have hp : ∀ t1, defaultProfile (some 100) t1 ∈ catalog := fun _ => by
    simp [defaultProfile, catalog]
  have hflags : ∀ cfg, duk_features (some 100) e t = .ok cfg →
      cfg .DUK_USE_PACKED_TVAL = true ∧ cfg .DUK_USE_REFERENCE_COUNTING = true ∧
      cfg .DUK_USE_MARK_AND_SWEEP = true ∧ cfg .DUK_USE_DEBUG = false := by
    intro cfg hcfg
    obtain ⟨t1, T, _, hT, hfr⟩ := duk_features_profile (some 100) e t cfg hcfg
      (fun t1 => catalog_pos _ (hp t1))
    have hT2 : profileProcessing 100 t1 = .ok T := hT
    obtain ⟨h1, h2, h3, h4⟩ := profileProcessing_100_flags t1 T hT2
    rw [hfr _ (by simp [postProfileWrites]), hfr _ (by simp [postProfileWrites]),
      hfr _ (by simp [postProfileWrites]), hfr _ (by simp [postProfileWrites])]
    exact ⟨h1, h2, h3, h4⟩
  refine ⟨?_, flagOf_of_valid _ e t _ _ hv ho hp (fun cfg h => (hflags cfg h).1),
    flagOf_of_valid _ e t _ _ hv ho hp (fun cfg h => (hflags cfg h).2.1),
    flagOf_of_valid _ e t _ _ hv ho hp (fun cfg h => (hflags cfg h).2.2.1),
    flagOf_of_valid _ e t _ _ hv ho hp (fun cfg h => (hflags cfg h).2.2.2)⟩
  have h := flagOf_of_valid _ e t .DUK_USE_PACKED_TVAL true hv ho hp
    (fun cfg h => (hflags cfg h).1)
  cases hr : duk_features (some 100) e t with
  | error err => rw [hr] at h; simp at h
  | ok cfg => exact ⟨cfg, rfl⟩

/-- Witness of the amended C3 on Linux with GCC on i386. -/
theorem scenario_A_on_supported_platform_witness :
    linux_gcc_i386.__WORDSIZE = some 32 ∧
    detectByteOrder linux_gcc_i386 = .Little ∧
    detectFloatWordOrder linux_gcc_i386 = .Little ∧
    intMaxAccepted linux_gcc_i386 = true ∧
    dateProviderAvailable linux_gcc_i386 = true ∧
    noObsoleteDebugDefine emptyTable = true ∧
    flagOf (duk_features (some 100) linux_gcc_i386 emptyTable) .DUK_USE_PACKED_TVAL =
      some true ∧
    flagOf (duk_features (some 100) linux_gcc_i386 emptyTable) .DUK_USE_REFERENCE_COUNTING =
      some true ∧
    flagOf (duk_features (some 100) linux_gcc_i386 emptyTable) .DUK_USE_MARK_AND_SWEEP =
      some true ∧
    flagOf (duk_features (some 100) linux_gcc_i386 emptyTable) .DUK_USE_DEBUG = some false :=
  ⟨by decide, by decide, by decide, by decide, by decide, by decide,
   (scenario_A_on_supported_platform linux_gcc_i386 emptyTable (by decide) (by decide)
     (by decide) (by decide) (by decide) (by decide)).2⟩

/-- C4: Scenario B.  With the selector TINY_DEBUG and valid platform facts,
every resolved configuration has reference counting off, mark-and-sweep on,
debug on, assertions on and verbose errors off; a configuration is resolved
unless the caller gave the obsolete `DUK_DDEBUG` without `DUK_DEBUG`, which
ends the header on the `#error` of line 695. -/
theorem scenario_B_tiny_debug (e : Env) (t : Table) (hv : validPlatformFacts e = true) :
    (∀ cfg, duk_features (some 301) e t = .ok cfg →
      cfg .DUK_USE_REFERENCE_COUNTING = false ∧ cfg .DUK_USE_MARK_AND_SWEEP = true ∧
      cfg .DUK_USE_DEBUG = true ∧ cfg .DUK_USE_ASSERTIONS = true ∧
      cfg .DUK_USE_VERBOSE_ERRORS = false) ∧
    (noObsoleteDebugDefine t = true →
      flagOf (duk_features (some 301) e t) .DUK_USE_REFERENCE_COUNTING = some false ∧
      flagOf (duk_features (some 301) e t) .DUK_USE_MARK_AND_SWEEP = some true ∧
      flagOf (duk_features (some 301) e t) .DUK_USE_DEBUG = some true ∧
      flagOf (duk_features (some 301) e t) .DUK_USE_ASSERTIONS = some true ∧
      flagOf (duk_features (some 301) e t) .DUK_USE_VERBOSE_ERRORS = some false) ∧
    (noObsoleteDebugDefine t = false →
      duk_features (some 301) e t = .error .obsolete_DUK_DDEBUG) := by
  have hp : ∀ t1, defaultProfile (some 301) t1 ∈ catalog := fun _ => by
    simp [defaultProfile, catalog]
  have hflags : ∀ cfg, duk_features (some 301) e t = .ok cfg →
      cfg .DUK_USE_REFERENCE_COUNTING = false ∧ cfg .DUK_USE_MARK_AND_SWEEP = true ∧
      cfg .DUK_USE_DEBUG = true ∧ cfg .DUK_USE_ASSERTIONS = true ∧
      cfg .DUK_USE_VERBOSE_ERRORS = false := by
    intro cfg hcfg
    obtain ⟨t1, T, _, hT, hfr⟩ := duk_features_profile (some 301) e t cfg hcfg
      (fun t1 => catalog_pos _ (hp t1))
    have hT2 : profileProcessing 301 t1 = .ok T := hT
    obtain ⟨h1, h2, h3, h4, h5⟩ := profileProcessing_301_flags t1 T hT2
    rw [hfr _ (by simp [postProfileWrites]), hfr _ (by simp [postProfileWrites]),
      hfr _ (by simp [postProfileWrites]), hfr _ (by simp [postProfileWrites]),
      hfr _ (by simp [postProfileWrites])]
    exact ⟨h1, h2, h3, h4, h5⟩
  refine ⟨hflags, fun ho => ⟨
    flagOf_of_valid _ e t _ _ hv ho hp (fun cfg h => (hflags cfg h).1),
    flagOf_of_valid _ e t _ _ hv ho hp (fun cfg h => (hflags cfg h).2.1),
    flagOf_of_valid _ e t _ _ hv ho hp (fun cfg h => (hflags cfg h).2.2.1),
    flagOf_of_valid _ e t _ _ hv ho hp (fun cfg h => (hflags cfg h).2.2.2.1),
    flagOf_of_valid _ e t _ _ hv ho hp (fun cfg h => (hflags cfg h).2.2.2.2)⟩, ?_⟩
  intro ho
  obtain ⟨cfg, t1, T, h1, _, _, _⟩ := duk_features_of_valid (some 301) e t hv hp
  have ho2 : (t .DUK_DDEBUG && !t .DUK_DEBUG) = true := by
    unfold noObsoleteDebugDefine at ho
    cases h5 : t .DUK_DDEBUG <;> cases h6 : t .DUK_DEBUG <;> simp_all
  rw [ho2] at h1
  simpa using h1

/-- Witness of C4 on Linux with GCC on i386. -/
theorem scenario_B_tiny_debug_witness :
    validPlatformFacts linux_gcc_i386 = true ∧
    noObsoleteDebugDefine emptyTable = true ∧
    flagOf (duk_features (some 301) linux_gcc_i386 emptyTable) .DUK_USE_REFERENCE_COUNTING =
      some false ∧
    flagOf (duk_features (some 301) linux_gcc_i386 emptyTable) .DUK_USE_MARK_AND_SWEEP =
      some true ∧
    flagOf (duk_features (some 301) linux_gcc_i386 emptyTable) .DUK_USE_DEBUG = some true ∧
    flagOf (duk_features (some 301) linux_gcc_i386 emptyTable) .DUK_USE_ASSERTIONS =
      some true ∧
    flagOf (duk_features (some 301) linux_gcc_i386 emptyTable) .DUK_USE_VERBOSE_ERRORS =
      some false :=
  ⟨by decide, by decide,
   (scenario_B_tiny_debug linux_gcc_i386 emptyTable (by decide)).2.1 (by decide)⟩

theorem default_selector_packed_aux (e : Env) (t : Table) :
    (∀ cfg, duk_features none e t = .ok cfg →
      cfg .DUK_USE_PACKED_TVAL = packedTvalPossible e) ∧
    (∀ cfg, duk_features none e t = .ok cfg →
      cfg .DUK_USE_PACKED_TVAL_POSSIBLE = packedTvalPossible e) ∧
    (∀ t1, platformStage e t = .ok t1 →
      defaultProfile none t1 = if packedTvalPossible e then 100 else 400) := by
  have hdef : ∀ t1, platformStage e t = .ok t1 →
      defaultProfile none t1 = if packedTvalPossible e then 100 else 400 := by
    intro t1 h1
    show (if t1 .DUK_USE_PACKED_TVAL_POSSIBLE then (100 : Int) else 400) = _
    rw [platformStage_packed e t t1 h1]
  have hflags : ∀ cfg, duk_features none e t = .ok cfg →
      cfg .DUK_USE_PACKED_TVAL = packedTvalPossible e ∧
      cfg .DUK_USE_PACKED_TVAL_POSSIBLE = packedTvalPossible e := by
    intro cfg hcfg
    obtain ⟨t1, T, h1, hT, hfr⟩ := duk_features_profile none e t cfg hcfg
      (fun t1 => catalog_pos _ (defaultProfile_none_catalog t1))
    rw [hfr _ (by simp [postProfileWrites]), hfr _ (by simp [postProfileWrites]),
      profileProcessing_packed _ t1 T hT,
      profileProcessing_frame _ t1 T _ hT (by simp [profileWrites]),
      platformStage_packed e t t1 h1, hdef t1 h1]
    cases packedTvalPossible e <;> simp
  exact ⟨fun cfg h => (hflags cfg h).1, fun cfg h => (hflags cfg h).2, hdef⟩

/-- C6: when the caller gives no selector, `DUK_PROFILE` becomes 100 (FULL)
if `DUK_USE_PACKED_TVAL_POSSIBLE` is defined and 400 (PORTABLE) otherwise,
that is 100 exactly when the word size is 32 and `UINT_MAX` is 4294967295;
every configuration resolved without a selector has `DUK_USE_PACKED_TVAL`
defined exactly when the packed representation is possible, and on valid
platform facts (the caller not giving the obsolete `DUK_DDEBUG`) such a
configuration is resolved. -/
theorem default_selector_follows_packed_possibility (e : Env) (t : Table) :
    (defaultProfile none t = if t .DUK_USE_PACKED_TVAL_POSSIBLE then 100 else 400) ∧
    (∀ t1, platformStage e t = .ok t1 →
      defaultProfile none t1 = if packedTvalPossible e then 100 else 400) ∧
    (∀ cfg, duk_features none e t = .ok cfg →
      cfg .DUK_USE_PACKED_TVAL = packedTvalPossible e ∧
      cfg .DUK_USE_PACKED_TVAL_POSSIBLE = packedTvalPossible e) ∧
    (validPlatformFacts e = true → noObsoleteDebugDefine t = true →
      flagOf (duk_features none e t) .DUK_USE_PACKED_TVAL = some (packedTvalPossible e)) := by
  have haux := default_selector_packed_aux e t
  exact ⟨rfl, haux.2.2, fun cfg h => ⟨haux.1 cfg h, haux.2.1 cfg h⟩, fun hv ho =>
    flagOf_of_valid none e t _ _ hv ho defaultProfile_none_catalog haux.1⟩

/-- Witness of C6 on Linux with GCC: packed on i386, not packed on x86-64. -/
theorem default_selector_follows_packed_possibility_witness :
    validPlatformFacts linux_gcc_i386 = true ∧
    validPlatformFacts linux_gcc_x86_64 = true ∧
    noObsoleteDebugDefine emptyTable = true ∧
    packedTvalPossible linux_gcc_i386 = true ∧
    packedTvalPossible linux_gcc_x86_64 = false ∧
    flagOf (duk_features none linux_gcc_i386 emptyTable) .DUK_USE_PACKED_TVAL =
      some (packedTvalPossible linux_gcc_i386) ∧
    flagOf (duk_features none linux_gcc_x86_64 emptyTable) .DUK_USE_PACKED_TVAL =
      some (packedTvalPossible linux_gcc_x86_64) :=
  ⟨by decide, by decide, by decide, by decide, by decide,
   (default_selector_follows_packed_possibility linux_gcc_i386 emptyTable).2.2.2
     (by decide) (by decide),
   (default_selector_follows_packed_possibility linux_gcc_x86_64 emptyTable).2.2.2
     (by decide) (by decide)⟩

/-- Counterexample to C7: on Linux with GCC on x86-64 the word size is 64, so
that the packed representation is not possible, and the selector FULL given
by the caller resolves a configuration with `DUK_USE_PACKED_TVAL` defined. -/
theorem explicit_full_selects_packed_on_x86_64 :
    (100 : Int) ∈ catalog ∧
    packedTvalPossible linux_gcc_x86_64 = false ∧
    flagOf (duk_features (some 100) linux_gcc_x86_64 emptyTable)
      .DUK_USE_PACKED_TVAL_POSSIBLE = some false ∧
    flagOf (duk_features (some 100) linux_gcc_x86_64 emptyTable)
      .DUK_USE_PACKED_TVAL = some true := by
  decide

/-- C7 (amended): on a platform where the packed representation is not
possible, every configuration resolved without a selector, or with one of
the selectors PORTABLE, PORTABLE_DEBUG, TORTURE, TORTURE_DEBUG, has
`DUK_USE_PACKED_TVAL` undefined, and every configuration resolved with one of
the selectors FULL, FULL_DEBUG, MINIMAL, MINIMAL_DEBUG, TINY, TINY_DEBUG given
by the caller has `DUK_USE_PACKED_TVAL` defined; on valid platform facts (the
caller not giving the obsolete `DUK_DDEBUG`) these configurations are
resolved. -/
theorem packed_off_when_impossible_unless_selector_given (e : Env) (t : Table)
    (hnp : packedTvalPossible e = false) :
    (∀ cfg, duk_features none e t = .ok cfg → cfg .DUK_USE_PACKED_TVAL = false) ∧
    (∀ p, p ∈ [400, 401, 500, 501] → ∀ cfg, duk_features (some p) e t = .ok cfg →
      cfg .DUK_USE_PACKED_TVAL = false) ∧
    (∀ p, p ∈ [100, 101, 200, 201, 300, 301] → ∀ cfg, duk_features (some p) e t = .ok cfg →
      cfg .DUK_USE_PACKED_TVAL = true) ∧
    (validPlatformFacts e = true → noObsoleteDebugDefine t = true →
      flagOf (duk_features none e t) .DUK_USE_PACKED_TVAL = some false ∧
      (∀ p, p ∈ [400, 401, 500, 501] →
        flagOf (duk_features (some p) e t) .DUK_USE_PACKED_TVAL = some false) ∧
      (∀ p, p ∈ [100, 101, 200, 201, 300, 301] →
        flagOf (duk_features (some p) e t) .DUK_USE_PACKED_TVAL = some true)) := by
  have hnone : ∀ cfg, duk_features none e t = .ok cfg →
      cfg .DUK_USE_PACKED_TVAL = false := by
    intro cfg hcfg
    rw [((default_selector_packed_aux e t).1 cfg hcfg), hnp]
  have hsome : ∀ p, p ∈ catalog → ∀ cfg, duk_features (some p) e t = .ok cfg →
      cfg .DUK_USE_PACKED_TVAL = decide (p ∈ [100, 101, 200, 201, 300, 301]) := by
    intro p hp cfg hcfg
    obtain ⟨t1, T, _, hT, hfr⟩ := duk_features_profile (some p) e t cfg hcfg
      (fun _ => catalog_pos p hp)
    have hT2 : profileProcessing p t1 = .ok T := hT
    rw [hfr _ (by simp [postProfileWrites]), profileProcessing_packed p t1 T hT2]
  have hport : ∀ p, p ∈ [400, 401, 500, 501] → ∀ cfg, duk_features (some p) e t = .ok cfg →
      cfg .DUK_USE_PACKED_TVAL = false := by
    intro p hp cfg hcfg
    have hc : p ∈ catalog := by
      simp at hp
      rcases hp with h | h | h | h <;> subst h <;> decide
    rw [hsome p hc cfg hcfg]
    simp at hp
    rcases hp with h | h | h | h <;> subst h <;> decide
  have hfull : ∀ p, p ∈ [100, 101, 200, 201, 300, 301] →
      ∀ cfg, duk_features (some p) e t = .ok cfg → cfg .DUK_USE_PACKED_TVAL = true := by
    intro p hp cfg hcfg
    have hc : p ∈ catalog := by
      simp at hp
      rcases hp with h | h | h | h | h | h <;> subst h <;> decide
    rw [hsome p hc cfg hcfg]
    exact decide_eq_true hp
  refine ⟨hnone, hport, hfull, fun hv ho => ⟨?_, ?_, ?_⟩⟩
  · exact flagOf_of_valid none e t _ _ hv ho defaultProfile_none_catalog hnone
  · intro p hp
    have hc : p ∈ catalog := by
      simp at hp
      rcases hp with h | h | h | h <;> subst h <;> decide
    exact flagOf_of_valid (some p) e t _ _ hv ho (fun _ => hc) (hport p hp)
  · intro p hp
    have hc : p ∈ catalog := by
      simp at hp
      rcases hp with h | h | h | h | h | h <;> subst h <;> decide
    exact flagOf_of_valid (some p) e t _ _ hv ho (fun _ => hc) (hfull p hp)

/-- Witness of the amended C7 on Linux with GCC on x86-64. -/
theorem packed_off_when_impossible_unless_selector_given_witness :
    packedTvalPossible linux_gcc_x86_64 = false ∧
    validPlatformFacts linux_gcc_x86_64 = true ∧
    noObsoleteDebugDefine emptyTable = true ∧
    flagOf (duk_features none linux_gcc_x86_64 emptyTable) .DUK_USE_PACKED_TVAL =
      some false ∧
    flagOf (duk_features (some 400) linux_gcc_x86_64 emptyTable) .DUK_USE_PACKED_TVAL =
      some false ∧
    flagOf (duk_features (some 301) linux_gcc_x86_64 emptyTable) .DUK_USE_PACKED_TVAL =
      some true :=
  have h := (packed_off_when_impossible_unless_selector_given linux_gcc_x86_64 emptyTable
    (by decide)).2.2.2 (by decide) (by decide)
  ⟨by decide, by decide, by decide, h.1, h.2.1 400 (by decide), h.2.2 301 (by decide)⟩

/-- C10 (amended): under standard byte order detection with a big endian
byte order and a little endian float word order, lines 231-259 never execute
`#define DUK_USE_DOUBLE_ME`: with GCC on an architecture other than ARM they
execute `#define DUK_USE_DOUBLE_BE` and nothing else, and otherwise, the
constants `__LITTLE_ENDIAN` and `__BIG_ENDIAN` being different, they end on
the `#error` of line 250. -/
theorem big_float_little_selects_BE_or_halts (e : Env) (t : Table)
    (hstd : DUK_F_STD_BYTEORDER_DETECT e = true)
    (hbo : detectByteOrder e = .Big) (hfo : detectFloatWordOrder e = .Little) :
    (doubleLayoutDetection e t = .ok (define .DUK_USE_DOUBLE_BE t) ∨
      doubleLayoutDetection e t = .error .big_endian_unknown_double_word_order) ∧
    (gccNotArm e = true →
      doubleLayoutDetection e t = .ok (define .DUK_USE_DOUBLE_BE t) ∧
      flagOf (doubleLayoutDetection e t) .DUK_USE_DOUBLE_BE = some true ∧
      flagOf (doubleLayoutDetection e t) .DUK_USE_DOUBLE_ME = some (t .DUK_USE_DOUBLE_ME)) ∧
    (gccNotArm e = false → e.__LITTLE_ENDIAN ≠ e.__BIG_ENDIAN →
      doubleLayoutDetection e t = .error .big_endian_unknown_double_word_order) := by
  rw [detectByteOrder_big] at hbo
  rw [detectFloatWordOrder_little] at hfo
  have hnb : e.__LITTLE_ENDIAN ≠ e.__BIG_ENDIAN → floatWordOrderBig e = false := by
    intro hne
    unfold floatWordOrderLittle defined value at hfo
    unfold floatWordOrderBig defined value
    cases h1 : e.__FLOAT_WORD_ORDER <;> cases h2 : e.__LITTLE_ENDIAN <;>
      cases h3 : e.__BIG_ENDIAN <;> simp_all
  have hshape : doubleLayoutDetection e t =
      if floatWordOrderBig e || gccNotArm e then .ok (define .DUK_USE_DOUBLE_BE t)
      else .error .big_endian_unknown_double_word_order := by
    simp only [doubleLayoutDetection, byteOrderDetection, stdByteOrderDetect, hstd, hbo.1,
      hbo.2, if_true, Bool.false_eq_true, if_false]
    split
    · exact doubleLayoutCheck_define_BE t
    · rfl
  refine ⟨?_, ?_, ?_⟩
  · rw [hshape]
    split
    · exact Or.inl rfl
    · exact Or.inr rfl
  · intro hg
    have h : doubleLayoutDetection e t = .ok (define .DUK_USE_DOUBLE_BE t) := by
      rw [hshape]
      simp [hg]
    rw [h]
    simp
  · intro hg hne
    rw [hshape]
    simp [hg, hnb hne]

/-- Witness of the amended C10 with GCC on a big endian architecture other
than ARM, and with another compiler. -/
theorem big_float_little_selects_BE_or_halts_witness :
    DUK_F_STD_BYTEORDER_DETECT gcc_big_endian_float_little = true ∧
    detectByteOrder gcc_big_endian_float_little = .Big ∧
    detectFloatWordOrder gcc_big_endian_float_little = .Little ∧
    gccNotArm gcc_big_endian_float_little = true ∧
    flagOf (doubleLayoutDetection gcc_big_endian_float_little emptyTable)
      .DUK_USE_DOUBLE_BE = some true ∧
    flagOf (doubleLayoutDetection gcc_big_endian_float_little emptyTable)
      .DUK_USE_DOUBLE_ME = some false ∧
    doubleLayoutDetection cc_big_endian_float_little emptyTable =
      .error .big_endian_unknown_double_word_order :=
  have h := (big_float_little_selects_BE_or_halts gcc_big_endian_float_little emptyTable
    (by decide) (by decide) (by decide)).2.1 (by decide)
  ⟨by decide, by decide, by decide, by decide, h.2.1, h.2.2,
   (big_float_little_selects_BE_or_halts cc_big_endian_float_little emptyTable
    (by decide) (by decide) (by decide)).2.2 (by decide) (by decide)⟩

/-! ## Outcome of the header for the selectors of the catalog -/

theorem doubleLayoutDetection_determined (e : Env) (t t1 : Table)
    (h : doubleLayoutDetection e t = .ok t1) : doubleLayoutDetermined e = true := by
  unfold doubleLayoutDetermined detectByteOrder
  unfold doubleLayoutDetection byteOrderDetection stdByteOrderDetect at h
  cases hstd : DUK_F_STD_BYTEORDER_DETECT e
  · simp
  · simp only [hstd, if_true] at h ⊢
    cases h1 : byteOrderLittle e
    · cases h2 : byteOrderBig e
      · simp [h1, h2] at h
      · simp only [h1, h2, Bool.false_eq_true, if_false, if_true] at h ⊢
        cases h3 : (floatWordOrderBig e || gccNotArm e)
        · simp [h3] at h
        · rfl
    · simp only [h1, if_true] at h ⊢
      cases h3 : floatWordOrderLittle e <;> cases h4 : gccNotArm e <;>
        cases h5 : floatWordOrderBig e <;> cases h6 : gccArm e <;> simp_all

/-- For a selector of the catalog the header resolves a configuration
exactly when the platform facts are valid and the caller does not give the
obsolete `DUK_DDEBUG` without `DUK_DEBUG`. -/
theorem catalog_resolves_iff (sel : Option Int) (e : Env) (t : Table)
    (hp : ∀ t1, defaultProfile sel t1 ∈ catalog) :
    (∃ cfg, duk_features sel e t = .ok cfg) ↔
      (validPlatformFacts e && noObsoleteDebugDefine t) = true := by
  constructor
  · rintro ⟨cfg, h⟩
    obtain ⟨t1, h1, h2, h3⟩ := duk_features_ok sel e t cfg h
    obtain ⟨t2, hi, hl, _⟩ := platformStage_ok e t t1 h1
    have hpos := catalog_pos _ (hp t1)
    obtain ⟨T, hT, hd, hshape⟩ := profileSection_ok _ e t1 cfg hpos h2
    have hr := profileSection_rules _ e t1 cfg hpos h2
    rw [sanityChecks_of_rules cfg hr.1 hr.2.1 hr.2.2.1 hr.2.2.2,
      postProfile_frame e T cfg _ hshape (by simp [postProfileWrites]),
      postProfile_frame e T cfg _ hshape (by simp [postProfileWrites]),
      profileProcessing_frame _ t1 T _ hT (by simp [profileWrites]),
      profileProcessing_frame _ t1 T _ hT (by simp [profileWrites]),
      platformStage_frame e t t1 _ h1 (by simp [platformStageWrites]),
      platformStage_frame e t t1 _ h1 (by simp [platformStageWrites])] at h3
    have ho : noObsoleteDebugDefine t = true := by
      unfold noObsoleteDebugDefine
      cases hc : (t .DUK_DDEBUG && !t .DUK_DEBUG)
      · rfl
      · rw [hc] at h3
        simp at h3
    simp [validPlatformFacts, hi, hd, ho, doubleLayoutDetection_determined e _ t2 hl]
  · intro h
    simp only [Bool.and_eq_true] at h
    obtain ⟨cfg, _, _, h1, _, _, _⟩ := duk_features_of_valid sel e t h.1 hp
    have ho2 : (t .DUK_DDEBUG && !t .DUK_DEBUG) = false := by
      have ho := h.2
      unfold noObsoleteDebugDefine at ho
      cases h5 : t .DUK_DDEBUG <;> cases h6 : t .DUK_DEBUG <;> simp_all
    rw [ho2] at h1
    exact ⟨cfg, by simpa using h1⟩

/-- Value of a flag in the outcome of the header for a selector of the
catalog, from its value in every resolved configuration. -/
theorem flagOf_catalog (sel : Option Int) (e : Env) (t : Table) (f : DukFlag) (b : Bool)
    (hp : ∀ t1, defaultProfile sel t1 ∈ catalog)
    (h : ∀ cfg, duk_features sel e t = .ok cfg → cfg f = b) :
    flagOf (duk_features sel e t) f =
      if (validPlatformFacts e && noObsoleteDebugDefine t) = true then some b else none := by
  have hiff := catalog_resolves_iff sel e t hp
  cases hr : duk_features sel e t with
  | ok cfg =>
    have hacc := hiff.1 ⟨cfg, hr⟩
    simp [hacc, h cfg hr]
  | error err =>
    have hacc : ¬ (validPlatformFacts e && noObsoleteDebugDefine t) = true := by
      intro hacc
      obtain ⟨cfg, hcfg⟩ := hiff.2 hacc
      rw [hr] at hcfg
      cases hcfg
    simp [hacc]

theorem defaultProfile_some_catalog (p : Int) (hp : p ∈ catalog) :
    ∀ t1 : Table, defaultProfile (some p) t1 ∈ catalog := fun _ => hp

theorem duk_features_none (e : Env) (t : Table) :
    duk_features none e t = duk_features (some 100) e t ∨
      duk_features none e t = duk_features (some 400) e t := by
  unfold duk_features
  cases h1 : platformStage e t with
  | error err => left; rfl
  | ok t1 =>
    cases h2 : t1 .DUK_USE_PACKED_TVAL_POSSIBLE
    · right
      simp [bind, Except.bind, defaultProfile, h2]
    · left
      simp [bind, Except.bind, defaultProfile, h2]

/-! ## The table of a resolved configuration -/

theorem dateProviderSelection_shape (e : Env) (t t1 : Table)
    (h : dateProviderSelection e t = .ok t1) :
    t1 = if (e.__APPLE__ || e.__linux || e.__unix || e.__posix) = true
      then posixDateProvider t else ansiDateProvider t := by
  unfold dateProviderSelection at h
  repeat' split at h
  all_goals first
    | (injection h with h; subst h; simp_all)
    | simp at h

theorem profileSection_tail (p : Int) (e : Env) (t t2 : Table) (hp : p > 0)
    (h : profileSection p e t = .ok t2) :
    ∃ T, profileProcessing p t = .ok T ∧
      dateProviderSelection e (dynamicFeatures e (tracebackDepth T)) = .ok t2 := by
  unfold profileSection at h
  simp only [hp, if_true] at h
  cases h1 : profileProcessing p t with
  | error err => simp [h1, bind, Except.bind] at h
  | ok T =>
    cases h2 : dateProviderSelection e (dynamicFeatures e (tracebackDepth T)) with
    | error err => simp [h1, h2, bind, Except.bind] at h
    | ok t3 =>
      simp [h1, h2, bind, Except.bind] at h
      have h3 := dateHeaderCheck_ok e t3 t2 h
      exact ⟨T, rfl, by rw [h3]; exact h2⟩

/-- Shape of a configuration resolved with the selector `p` above 0: the
table `t1` of the platform stage, profile processing on it, and the stages of
lines 557-671. -/
theorem duk_features_tail (p : Int) (e : Env) (t cfg : Table) (hp : p > 0)
    (h : duk_features (some p) e t = .ok cfg) :
    ∃ t1 T, platformStage e t = .ok t1 ∧ profileProcessing p t1 = .ok T ∧
      dateProviderSelection e (dynamicFeatures e (tracebackDepth T)) = .ok cfg := by
  obtain ⟨t1, h1, h2, _⟩ := duk_features_ok (some p) e t cfg h
  have h2b : profileSection p e t1 = .ok cfg := h2
  obtain ⟨T, hT, hd⟩ := profileSection_tail p e t1 cfg hp h2b
  exact ⟨t1, T, h1, hT, hd⟩

theorem rdtscRefinement_apply (e : Env) (t : Table) (f : DukFlag) :
    rdtscRefinement e t f =
      if f = .DUK_USE_DPRINT_RDTSC then (DUK_RDTSC_AVAILABLE e && t .DUK_OPT_DPRINT_RDTSC)
      else t f := by
  unfold rdtscRefinement
  split <;> split <;> simp_all

theorem variadicMacrosRefinement_apply (e : Env) (t : Table) (f : DukFlag) :
    variadicMacrosRefinement e t f =
      if f = .DUK_USE_VARIADIC_MACROS then DUK_F_C99 e else t f := by
  unfold variadicMacrosRefinement
  split <;> split <;> simp_all

theorem structHackRefinement_apply (e : Env) (t : Table) (f : DukFlag) :
    structHackRefinement e t f =
      if f = .DUK_USE_STRUCT_HACK then !DUK_F_C99 e else t f := by
  unfold structHackRefinement
  split <;> split <;> simp_all

theorem gccPragmasRefinement_apply (e : Env) (t : Table) (f : DukFlag) :
    gccPragmasRefinement e t f =
      if f = .DUK_USE_GCC_PRAGMAS then gccPragmasWindow e else t f := by
  unfold gccPragmasRefinement gccPragmasWindow
  split <;> split <;> simp_all

theorem tracebackDepth_apply (t : Table) (f : DukFlag) :
    tracebackDepth t f =
      if f = .DUK_OPT_TRACEBACK_DEPTH then
        (t .DUK_USE_TRACEBACKS || t .DUK_OPT_TRACEBACK_DEPTH)
      else t f := by
  unfold tracebackDepth
  split <;> split <;> simp_all

/-- Value of the four dynamically detected flags in a table which leaves
lines 557-671. -/
theorem tail_dynamic_flags (e : Env) (T c : Table)
    (h : dateProviderSelection e (dynamicFeatures e (tracebackDepth T)) = .ok c) :
    c .DUK_USE_DPRINT_RDTSC = (DUK_RDTSC_AVAILABLE e && T .DUK_OPT_DPRINT_RDTSC) ∧
    c .DUK_USE_VARIADIC_MACROS = DUK_F_C99 e ∧
    c .DUK_USE_STRUCT_HACK = (!DUK_F_C99 e) ∧
    c .DUK_USE_GCC_PRAGMAS = gccPragmasWindow e := by
  have hs := dateProviderSelection_shape e _ c h
  subst hs
  split <;>
    simp [posixDateProvider, ansiDateProvider, dynamicFeatures, rdtscRefinement_apply,
      variadicMacrosRefinement_apply, structHackRefinement_apply, gccPragmasRefinement_apply,
      tracebackDepth_apply]

/-- Two tables which leave lines 557-671 on the same platform agree on a flag
when the tables which entered agree on it and on the three macros these lines
read. -/
theorem tail_congr (e : Env) (T1 T2 c1 c2 : Table) (f : DukFlag)
    (h1 : dateProviderSelection e (dynamicFeatures e (tracebackDepth T1)) = .ok c1)
    (h2 : dateProviderSelection e (dynamicFeatures e (tracebackDepth T2)) = .ok c2)
    (hf : T1 f = T2 f)
    (htb : T1 .DUK_USE_TRACEBACKS = T2 .DUK_USE_TRACEBACKS)
    (hd : T1 .DUK_OPT_TRACEBACK_DEPTH = T2 .DUK_OPT_TRACEBACK_DEPTH)
    (hr : T1 .DUK_OPT_DPRINT_RDTSC = T2 .DUK_OPT_DPRINT_RDTSC) :
    c1 f = c2 f := by
  have hs1 := dateProviderSelection_shape e _ c1 h1
  have hs2 := dateProviderSelection_shape e _ c2 h2
  subst hs1 hs2
  split <;>
    simp only [posixDateProvider, ansiDateProvider, dynamicFeatures, define_apply,
      rdtscRefinement_apply, variadicMacrosRefinement_apply, structHackRefinement_apply,
      gccPragmasRefinement_apply, tracebackDepth_apply, hf, htb, hd, hr]

/-! ## Claims on the failures of the derivation -/

theorem detectByteOrder_unknown (e : Env) :
    detectByteOrder e = .Unknown ↔ byteOrderLittle e = false ∧ byteOrderBig e = false := by
  unfold detectByteOrder
  split
  · simp_all
  · split <;> simp_all

theorem doubleLayoutDetection_unknown (e : Env) (t : Table)
    (hstd : DUK_F_STD_BYTEORDER_DETECT e = true) (hbo : detectByteOrder e = .Unknown) :
    doubleLayoutDetection e t = .error .cannot_determine_byte_order := by
  rw [detectByteOrder_unknown] at hbo
  simp [doubleLayoutDetection, byteOrderDetection, stdByteOrderDetect, hstd, hbo.1, hbo.2]

theorem duk_features_platform_error (sel : Option Int) (e : Env) (t : Table) (err : DukError)
    (h : platformStage e t = .error err) : duk_features sel e t = .error err := by
  unfold duk_features
  simp [h, bind, Except.bind]

theorem platformStage_intMax_error (e : Env) (t : Table)
    (h : intMaxAccepted e = false) :
    platformStage e t = .error .INT_MAX_too_small ∨
      platformStage e t = .error .INT_MAX_not_defined := by
  unfold platformStage intMaxCheck
  unfold intMaxAccepted at h
  cases h1 : defined e.INT_MAX
  · right
    simp [bind, Except.bind]
  · left
    simp [h1] at h
    simp [h, bind, Except.bind]

theorem platformStage_layout_error (e : Env) (t : Table) (err : DukError)
    (hi : intMaxAccepted e = true)
    (h : ∀ t1, doubleLayoutDetection e t1 = .error err) :
    platformStage e t = .error err := by
  unfold platformStage
  simp [intMaxCheck_of_accepted e _ hi, h, bind, Except.bind]

/-- C11: under standard byte order detection, when neither the little endian
nor the big endian test of lines 233-245 holds, lines 231-259 end on the
`#error` "cannot determine byte order", and the header resolves no
configuration for any selector, given or not, in the catalog or not: it ends
on that `#error`, or on the `#error` of the `INT_MAX` check of lines 179-185
when that check, earlier in the file, fails.  Likewise a table in which none
of `DUK_USE_DOUBLE_LE`, `DUK_USE_DOUBLE_ME`, `DUK_USE_DOUBLE_BE` is defined
ends lines 257-259 on the `#error` "cannot determine IEEE double byte order
variant". -/
theorem unknown_byte_order_halts (e : Env) (t : Table)
    (hstd : DUK_F_STD_BYTEORDER_DETECT e = true) (hbo : detectByteOrder e = .Unknown) :
    doubleLayoutDetection e t = .error .cannot_determine_byte_order ∧
    (∀ sel f, flagOf (duk_features sel e t) f = none) ∧
    (intMaxAccepted e = true →
      ∀ sel, duk_features sel e t = .error .cannot_determine_byte_order) ∧
    (intMaxAccepted e = false →
      ∀ sel, duk_features sel e t = .error .INT_MAX_too_small ∨
        duk_features sel e t = .error .INT_MAX_not_defined) ∧
    (∀ t1 : Table, t1 .DUK_USE_DOUBLE_LE = false → t1 .DUK_USE_DOUBLE_ME = false →
      t1 .DUK_USE_DOUBLE_BE = false →
      doubleLayoutCheck t1 = .error .cannot_determine_double_variant) ∧
    (∀ (e1 : Env) (t0 t1 : Table), byteOrderDetection e1 t0 = .ok t1 →
      t1 .DUK_USE_DOUBLE_LE = false → t1 .DUK_USE_DOUBLE_ME = false →
      t1 .DUK_USE_DOUBLE_BE = false →
      doubleLayoutDetection e1 t0 = .error .cannot_determine_double_variant) := by
  have hacc : intMaxAccepted e = true →
      ∀ sel, duk_features sel e t = .error .cannot_determine_byte_order := by
    intro hi sel
    exact duk_features_platform_error sel e t _
      (platformStage_layout_error e t _ hi
        (fun t1 => doubleLayoutDetection_unknown e t1 hstd hbo))
  have hrej : intMaxAccepted e = false →
      ∀ sel, duk_features sel e t = .error .INT_MAX_too_small ∨
        duk_features sel e t = .error .INT_MAX_not_defined := by
    intro hi sel
    rcases platformStage_intMax_error e t hi with h | h
    · exact Or.inl (duk_features_platform_error sel e t _ h)
    · exact Or.inr (duk_features_platform_error sel e t _ h)
  refine ⟨doubleLayoutDetection_unknown e t hstd hbo, ?_, hacc, hrej, ?_, ?_⟩
  · intro sel f
    cases hi : intMaxAccepted e
    · rcases hrej hi sel with h | h <;> rw [h] <;> rfl
    · rw [hacc hi sel]
      rfl
  · intro t1 h1 h2 h3
    simp [doubleLayoutCheck, h1, h2, h3]
  · intro e1 t0 t1 hb h1 h2 h3
    simp [doubleLayoutDetection, hb, doubleLayoutCheck, h1, h2, h3]

/-- Witness of C11 on Linux with system headers which give no `__BYTE_ORDER`,
for the selector FULL and for no selector, and on the empty table for the
check of lines 257-259. -/
theorem unknown_byte_order_halts_witness :
    DUK_F_STD_BYTEORDER_DETECT linux_gcc_no_byte_order = true ∧
    detectByteOrder linux_gcc_no_byte_order = .Unknown ∧
    intMaxAccepted linux_gcc_no_byte_order = true ∧
    duk_features (some 100) linux_gcc_no_byte_order emptyTable =
      .error .cannot_determine_byte_order ∧
    duk_features none linux_gcc_no_byte_order emptyTable =
      .error .cannot_determine_byte_order ∧
    flagOf (duk_features (some 100) linux_gcc_no_byte_order emptyTable)
      .DUK_USE_DOUBLE_LE = none ∧
    doubleLayoutCheck emptyTable = .error .cannot_determine_double_variant ∧
    doubleLayoutDetection amigaos_vbcc emptyTable = .error .cannot_determine_double_variant :=
  have h := unknown_byte_order_halts linux_gcc_no_byte_order emptyTable (by decide)
    (by decide)
  ⟨by decide, by decide, by decide, h.2.2.1 (by decide) (some 100), h.2.2.1 (by decide) none,
   h.2.1 (some 100) .DUK_USE_DOUBLE_LE,
   h.2.2.2.2.1 emptyTable (by decide) (by decide) (by decide),
   h.2.2.2.2.2 amigaos_vbcc emptyTable emptyTable rfl (by decide) (by decide) (by decide)⟩

/-- Counterexample to C12: the selectors 0 and -1 are not in the catalog, and
on Linux with GCC on i386 the header ends on no `#error` for them: it
resolves the configuration of the caller, here with no profile flag defined. -/
theorem custom_selector_resolves :
    (0 : Int) ∉ catalog ∧
    errorOf (duk_features (some 0) linux_gcc_i386 emptyTable) = none ∧
    flagOf (duk_features (some 0) linux_gcc_i386 emptyTable) .DUK_USE_DOUBLE_LE =
      some true ∧
    flagOf (duk_features (some 0) linux_gcc_i386 emptyTable) .DUK_USE_REFERENCE_COUNTING =
      some false ∧
    (-1 : Int) ∉ catalog ∧
    errorOf (duk_features (some (-1)) linux_gcc_i386 emptyTable) = none := by
  decide

theorem sanityChecks_not_unknown (t : Table) :
    sanityChecks t ≠ .error .unknown_DUK_PROFILE := by
  unfold sanityChecks
  repeat' split
  all_goals simp

/-- C12 (amended): a selector above 0 which is not one of the ten codes of
the catalog makes profile processing end on the `#error`
"unknown DUK_PROFILE", and the header resolves no configuration: it ends on
that `#error` when the platform stage passes (`INT_MAX` accepted, double
layout determined), and on the `#error` of the platform stage otherwise.  A
selector of 0 or below is the custom profile: the header never ends on
"unknown DUK_PROFILE" for it, and past the platform stage its outcome is the
one of the sanity checks on the table of the caller. -/
theorem unknown_positive_selector_halts (p : Int) (hp : p ∉ catalog) (e : Env) (t : Table) :
    (0 < p →
      (∀ t1, profileProcessing p t1 = .error .unknown_DUK_PROFILE) ∧
      (∀ f, flagOf (duk_features (some p) e t) f = none) ∧
      (intMaxAccepted e = true → doubleLayoutDetermined e = true →
        duk_features (some p) e t = .error .unknown_DUK_PROFILE) ∧
      (∀ err, duk_features (some p) e t = .error err →
        err = .unknown_DUK_PROFILE ∨ err ∈ platformErrors)) ∧
    (p ≤ 0 →
      duk_features (some p) e t ≠ .error .unknown_DUK_PROFILE ∧
      (∀ t1, platformStage e t = .ok t1 → duk_features (some p) e t = sanityChecks t1)) := by
  constructor
  · intro hpos
    have hshape : ∀ t1, platformStage e t = .ok t1 →
        duk_features (some p) e t = .error .unknown_DUK_PROFILE := by
      intro t1 h1
      unfold duk_features
      have hsec : profileSection (defaultProfile (some p) t1) e t1 =
          .error .unknown_DUK_PROFILE := by
        show profileSection p e t1 = _
        unfold profileSection
        simp [hpos, profileProcessing_unknown p t1 hp, bind, Except.bind]
      simp [h1, hsec, bind, Except.bind]
    refine ⟨fun t1 => profileProcessing_unknown p t1 hp, ?_, ?_, ?_⟩
    · intro f
      cases h1 : platformStage e t with
      | error err => rw [duk_features_platform_error _ e t err h1]; rfl
      | ok t1 => rw [hshape t1 h1]; rfl
    · intro hi hl
      obtain ⟨t1, h1⟩ := platformStage_of_valid e t hi hl
      exact hshape t1 h1
    · intro err herr
      cases h1 : platformStage e t with
      | error err1 =>
        rw [duk_features_platform_error _ e t err1 h1] at herr
        injection herr with herr
        subst herr
        exact Or.inr (platformStage_error e t _ h1)
      | ok t1 =>
        rw [hshape t1 h1] at herr
        injection herr with herr
        exact Or.inl herr.symm
  · intro hneg
    have hshape : ∀ t1, platformStage e t = .ok t1 →
        duk_features (some p) e t = sanityChecks t1 := by
      intro t1 h1
      exact duk_features_of_stages (some p) e t t1 t1 h1
        (profileSection_custom p e t1 (by omega))
    refine ⟨?_, hshape⟩
    cases h1 : platformStage e t with
    | error err =>
      rw [duk_features_platform_error _ e t err h1]
      have hm := platformStage_error e t _ h1
      intro hc
      injection hc with hc
      subst hc
      simp [platformErrors] at hm
    | ok t1 =>
      rw [hshape t1 h1]
      exact sanityChecks_not_unknown t1

/-- Witness of the amended C12 for the selectors 150 and 0 on Linux with GCC
on i386. -/
theorem unknown_positive_selector_halts_witness :
    (150 : Int) ∉ catalog ∧ (0 : Int) < 150 ∧
    intMaxAccepted linux_gcc_i386 = true ∧ doubleLayoutDetermined linux_gcc_i386 = true ∧
    duk_features (some 150) linux_gcc_i386 emptyTable = .error .unknown_DUK_PROFILE ∧
    flagOf (duk_features (some 150) linux_gcc_i386 emptyTable) .DUK_USE_DEBUG = none ∧
    (0 : Int) ∉ catalog ∧
    duk_features (some 0) linux_gcc_i386 emptyTable ≠ .error .unknown_DUK_PROFILE :=
  have h := (unknown_positive_selector_halts 150 (by decide) linux_gcc_i386 emptyTable).1
    (by decide)
  ⟨by decide, by decide, by decide, by decide, h.2.2.1 (by decide) (by decide),
   h.2.1 .DUK_USE_DEBUG, by decide,
   ((unknown_positive_selector_halts 0 (by decide) linux_gcc_i386 emptyTable).2
     (by decide)).1⟩

/-! ## Claims on the dynamically detected features -/

/-- Value of the four dynamically detected flags in a configuration resolved
with a selector above 0. -/
theorem resolved_dynamic_flags (p : Int) (hp : p > 0) (e : Env) (t cfg : Table)
    (h : duk_features (some p) e t = .ok cfg) :
    cfg .DUK_USE_DPRINT_RDTSC = (DUK_RDTSC_AVAILABLE e && t .DUK_OPT_DPRINT_RDTSC) ∧
    cfg .DUK_USE_VARIADIC_MACROS = DUK_F_C99 e ∧
    cfg .DUK_USE_STRUCT_HACK = (!DUK_F_C99 e) ∧
    cfg .DUK_USE_GCC_PRAGMAS = gccPragmasWindow e := by
  obtain ⟨t1, T, h1, hT, hd⟩ := duk_features_tail p e t cfg hp h
  have hdyn := tail_dynamic_flags e T cfg hd
  rw [profileProcessing_frame p t1 T _ hT (by simp [profileWrites]),
    platformStage_frame e t t1 _ h1 (by simp [platformStageWrites])] at hdyn
  exact hdyn

theorem flagOf_none_selector (e : Env) (t : Table) (f : DukFlag) (v : Option Bool)
    (h100 : flagOf (duk_features (some 100) e t) f = v)
    (h400 : flagOf (duk_features (some 400) e t) f = v) :
    flagOf (duk_features none e t) f = v := by
  rcases duk_features_none e t with h | h <;> rw [h]
  · exact h100
  · exact h400

theorem DUK_RDTSC_AVAILABLE_iff (e : Env) :
    DUK_RDTSC_AVAILABLE e = true ↔
      defined e.__GNUC__ = true ∧ (e.__i386__ = true ∨ e.__x86_64__ = true) := by
  unfold DUK_RDTSC_AVAILABLE
  cases defined e.__GNUC__ <;> cases e.__i386__ <;> cases e.__x86_64__ <;> simp

/-- C13: for every selector of the catalog, a resolved configuration has
`DUK_USE_DPRINT_RDTSC` defined if and only if `DUK_RDTSC_AVAILABLE` is
defined, that is the compiler is GCC and the architecture i386 or x86-64,
and the caller defined `DUK_OPT_DPRINT_RDTSC`; the outcome for this flag is
the same for the ten selectors, and for no selector, on the same facts. -/
theorem dprint_rdtsc_iff_probe_and_opt_in (p : Int) (hp : p ∈ catalog)
    (e : Env) (t : Table) :
    (DUK_RDTSC_AVAILABLE e = true ↔
      defined e.__GNUC__ = true ∧ (e.__i386__ = true ∨ e.__x86_64__ = true)) ∧
    (∀ cfg, duk_features (some p) e t = .ok cfg →
      (cfg .DUK_USE_DPRINT_RDTSC = true ↔
        DUK_RDTSC_AVAILABLE e = true ∧ t .DUK_OPT_DPRINT_RDTSC = true)) ∧
    flagOf (duk_features (some p) e t) .DUK_USE_DPRINT_RDTSC =
      (if (validPlatformFacts e && noObsoleteDebugDefine t) = true
       then some (DUK_RDTSC_AVAILABLE e && t .DUK_OPT_DPRINT_RDTSC) else none) ∧
    (∀ q, q ∈ catalog →
      flagOf (duk_features (some q) e t) .DUK_USE_DPRINT_RDTSC =
        flagOf (duk_features (some p) e t) .DUK_USE_DPRINT_RDTSC) ∧
    flagOf (duk_features none e t) .DUK_USE_DPRINT_RDTSC =
      flagOf (duk_features (some p) e t) .DUK_USE_DPRINT_RDTSC := by
  have hval : ∀ q, q ∈ catalog →
      flagOf (duk_features (some q) e t) .DUK_USE_DPRINT_RDTSC =
        (if (validPlatformFacts e && noObsoleteDebugDefine t) = true
         then some (DUK_RDTSC_AVAILABLE e && t .DUK_OPT_DPRINT_RDTSC) else none) :=
    fun q hq => flagOf_catalog (some q) e t _ _ (defaultProfile_some_catalog q hq)
      (fun cfg h => (resolved_dynamic_flags q (catalog_pos q hq) e t cfg h).1)
  refine ⟨DUK_RDTSC_AVAILABLE_iff e, ?_, hval p hp, fun q hq => ?_, ?_⟩
  · intro cfg h
    rw [(resolved_dynamic_flags p (catalog_pos p hp) e t cfg h).1]
    simp
  · rw [hval q hq, hval p hp]
  · rw [hval p hp]
    exact flagOf_none_selector e t _ _ (hval 100 (by decide)) (hval 400 (by decide))

/-- Witness of C13 for the selector FULL on Linux with GCC on i386, the
caller having defined `DUK_OPT_DPRINT_RDTSC`, and with another compiler. -/
theorem dprint_rdtsc_iff_probe_and_opt_in_witness :
    (100 : Int) ∈ catalog ∧
    flagOf (duk_features (some 100) linux_gcc_i386 (define .DUK_OPT_DPRINT_RDTSC emptyTable))
      .DUK_USE_DPRINT_RDTSC = some true ∧
    flagOf (duk_features (some 100) linux_cc_i386 (define .DUK_OPT_DPRINT_RDTSC emptyTable))
      .DUK_USE_DPRINT_RDTSC = some false ∧
    flagOf (duk_features (some 100) linux_gcc_i386 emptyTable)
      .DUK_USE_DPRINT_RDTSC = some false :=
  ⟨by decide,
   (dprint_rdtsc_iff_probe_and_opt_in 100 (by decide) linux_gcc_i386
     (define .DUK_OPT_DPRINT_RDTSC emptyTable)).2.2.1.trans (by decide),
   (dprint_rdtsc_iff_probe_and_opt_in 100 (by decide) linux_cc_i386
     (define .DUK_OPT_DPRINT_RDTSC emptyTable)).2.2.1.trans (by decide),
   (dprint_rdtsc_iff_probe_and_opt_in 100 (by decide) linux_gcc_i386
     emptyTable).2.2.1.trans (by decide)⟩

theorem DUK_F_C99_iff (e : Env) :
    DUK_F_C99 e = true ↔ ∃ v, e.__STDC_VERSION__ = some v ∧ 199901 ≤ v := by
  unfold DUK_F_C99 defined value
  cases h : e.__STDC_VERSION__ <;> simp

/-- C14: for every selector of the catalog, a resolved configuration has
`DUK_USE_VARIADIC_MACROS` defined exactly when `__STDC_VERSION__` is defined
and at least 199901 (`DUK_F_C99`), and `DUK_USE_STRUCT_HACK` defined exactly
when it is not, so that exactly one of the two flags is defined. -/
theorem variadic_macros_xor_struct_hack (p : Int) (hp : p ∈ catalog)
    (e : Env) (t : Table) :
    (DUK_F_C99 e = true ↔ ∃ v, e.__STDC_VERSION__ = some v ∧ 199901 ≤ v) ∧
    (∀ cfg, duk_features (some p) e t = .ok cfg →
      cfg .DUK_USE_VARIADIC_MACROS = DUK_F_C99 e ∧
      cfg .DUK_USE_STRUCT_HACK = (!DUK_F_C99 e) ∧
      ((cfg .DUK_USE_VARIADIC_MACROS = true ∧ cfg .DUK_USE_STRUCT_HACK = false) ∨
        (cfg .DUK_USE_VARIADIC_MACROS = false ∧ cfg .DUK_USE_STRUCT_HACK = true))) ∧
    flagOf (duk_features (some p) e t) .DUK_USE_VARIADIC_MACROS =
      (if (validPlatformFacts e && noObsoleteDebugDefine t) = true
       then some (DUK_F_C99 e) else none) ∧
    flagOf (duk_features (some p) e t) .DUK_USE_STRUCT_HACK =
      (if (validPlatformFacts e && noObsoleteDebugDefine t) = true
       then some (!DUK_F_C99 e) else none) := by
  have hpos := catalog_pos p hp
  refine ⟨DUK_F_C99_iff e, ?_,
    flagOf_catalog (some p) e t _ _ (defaultProfile_some_catalog p hp)
      (fun cfg h => (resolved_dynamic_flags p hpos e t cfg h).2.1),
    flagOf_catalog (some p) e t _ _ (defaultProfile_some_catalog p hp)
      (fun cfg h => (resolved_dynamic_flags p hpos e t cfg h).2.2.1)⟩
  intro cfg h
  obtain ⟨_, h2, h3, _⟩ := resolved_dynamic_flags p hpos e t cfg h
  rw [h2, h3]
  cases DUK_F_C99 e <;> simp

/-- Witness of C14 for the selector TINY on Linux with GCC on i386, in C99
mode and in C89 mode. -/
theorem variadic_macros_xor_struct_hack_witness :
    (300 : Int) ∈ catalog ∧
    flagOf (duk_features (some 300) linux_gcc_i386 emptyTable)
      .DUK_USE_VARIADIC_MACROS = some true ∧
    flagOf (duk_features (some 300) linux_gcc_i386 emptyTable)
      .DUK_USE_STRUCT_HACK = some false ∧
    flagOf (duk_features (some 300) linux_gcc_i386_c89 emptyTable)
      .DUK_USE_VARIADIC_MACROS = some false ∧
    flagOf (duk_features (some 300) linux_gcc_i386_c89 emptyTable)
      .DUK_USE_STRUCT_HACK = some true :=
  have h1 := variadic_macros_xor_struct_hack 300 (by decide) linux_gcc_i386 emptyTable
  have h2 := variadic_macros_xor_struct_hack 300 (by decide) linux_gcc_i386_c89 emptyTable
  ⟨by decide, h1.2.2.1.trans (by decide), h1.2.2.2.trans (by decide),
   h2.2.2.1.trans (by decide), h2.2.2.2.trans (by decide)⟩

theorem gccPragmasWindow_iff (e : Env) :
    gccPragmasWindow e = true ↔
      e.__GNUC__ = some 4 ∧ ∃ m, e.__GNUC_MINOR__ = some m ∧ 6 ≤ m := by
  unfold gccPragmasWindow defined value
  cases h1 : e.__GNUC__ <;> cases h2 : e.__GNUC_MINOR__ <;> simp

theorem gccPragmasWindow_not_older (e : Env) (h : gccOlderThan46 e = true) :
    gccPragmasWindow e = false := by
  unfold gccOlderThan46 defined value at h
  unfold gccPragmasWindow defined value
  cases h1 : e.__GNUC__ <;> cases h2 : e.__GNUC_MINOR__ <;> simp_all
  omega

/-- C15: lines 585-593 define `DUK_USE_GCC_PRAGMAS` if and only if
`__GNUC__` is 4 and `__GNUC_MINOR__` is at least 6, and undefine it for every
other compiler or version, a GCC major version other than 4 included,
whatever the caller had defined; it is never defined for a GCC older than
4.6, which is the one that uses `__builtin_inf()`.  A configuration resolved
with a selector above 0, or with no selector, has the flag as these lines
leave it. -/
theorem gcc_pragmas_iff_gcc_4_minor_6_or_later (e : Env) (t : Table) :
    (gccPragmasRefinement e t .DUK_USE_GCC_PRAGMAS = true ↔
      e.__GNUC__ = some 4 ∧ ∃ m, e.__GNUC_MINOR__ = some m ∧ 6 ≤ m) ∧
    (∀ M : Int, M ≠ 4 →
      gccPragmasRefinement { e with __GNUC__ := some M } t .DUK_USE_GCC_PRAGMAS = false) ∧
    gccPragmasRefinement { e with __GNUC__ := none } t .DUK_USE_GCC_PRAGMAS = false ∧
    (gccOlderThan46 e = true → gccPragmasRefinement e t .DUK_USE_GCC_PRAGMAS = false) ∧
    (∀ p cfg, 0 < p → duk_features (some p) e t = .ok cfg →
      (cfg .DUK_USE_GCC_PRAGMAS = true ↔
        e.__GNUC__ = some 4 ∧ ∃ m, e.__GNUC_MINOR__ = some m ∧ 6 ≤ m)) ∧
    (∀ p, p ∈ catalog →
      flagOf (duk_features (some p) e t) .DUK_USE_GCC_PRAGMAS =
        (if (validPlatformFacts e && noObsoleteDebugDefine t) = true
         then some (gccPragmasWindow e) else none)) ∧
    flagOf (duk_features none e t) .DUK_USE_GCC_PRAGMAS =
      (if (validPlatformFacts e && noObsoleteDebugDefine t) = true
       then some (gccPragmasWindow e) else none) := by
  have hstage : ∀ (e1 : Env), gccPragmasRefinement e1 t .DUK_USE_GCC_PRAGMAS =
      gccPragmasWindow e1 := by
    intro e1
    rw [gccPragmasRefinement_apply]
    simp
  have hval : ∀ p, p ∈ catalog →
      flagOf (duk_features (some p) e t) .DUK_USE_GCC_PRAGMAS =
        (if (validPlatformFacts e && noObsoleteDebugDefine t) = true
         then some (gccPragmasWindow e) else none) :=
    fun p hp => flagOf_catalog (some p) e t _ _ (defaultProfile_some_catalog p hp)
      (fun cfg h => (resolved_dynamic_flags p (catalog_pos p hp) e t cfg h).2.2.2)
  refine ⟨?_, ?_, ?_, ?_, ?_, hval, ?_⟩
  · rw [hstage, gccPragmasWindow_iff]
  · intro M hM
    rw [hstage]
    cases hw : gccPragmasWindow { e with __GNUC__ := some M }
    · rfl
    · rw [gccPragmasWindow_iff] at hw
      simp at hw
      exact absurd hw.1 hM
  · rw [hstage]
    simp [gccPragmasWindow, defined]
  · intro h
    rw [hstage]
    exact gccPragmasWindow_not_older e h
  · intro p cfg hp h
    rw [(resolved_dynamic_flags p hp e t cfg h).2.2.2, gccPragmasWindow_iff]
  · exact flagOf_none_selector e t _ _ (hval 100 (by decide)) (hval 400 (by decide))

/-- Witness of C15 on Linux with GCC 4.6, GCC 4.5, GCC 5.1 and another
compiler, for the selector FULL. -/
theorem gcc_pragmas_iff_gcc_4_minor_6_or_later_witness :
    flagOf (duk_features (some 100) linux_gcc_i386 emptyTable) .DUK_USE_GCC_PRAGMAS =
      some true ∧
    gccOlderThan46 linux_gcc45_i386 = true ∧
    flagOf (duk_features (some 100) linux_gcc45_i386 emptyTable) .DUK_USE_GCC_PRAGMAS =
      some false ∧
    flagOf (duk_features (some 100) linux_gcc5_i386 emptyTable) .DUK_USE_GCC_PRAGMAS =
      some false ∧
    flagOf (duk_features (some 100) linux_cc_i386 (define .DUK_USE_GCC_PRAGMAS emptyTable))
      .DUK_USE_GCC_PRAGMAS = some false :=
  ⟨((gcc_pragmas_iff_gcc_4_minor_6_or_later linux_gcc_i386 emptyTable).2.2.2.2.2.1 100
      (by decide)).trans (by decide),
   by decide,
   ((gcc_pragmas_iff_gcc_4_minor_6_or_later linux_gcc45_i386 emptyTable).2.2.2.2.2.1 100
      (by decide)).trans (by decide),
   ((gcc_pragmas_iff_gcc_4_minor_6_or_later linux_gcc5_i386 emptyTable).2.2.2.2.2.1 100
      (by decide)).trans (by decide),
   ((gcc_pragmas_iff_gcc_4_minor_6_or_later linux_cc_i386
      (define .DUK_USE_GCC_PRAGMAS emptyTable)).2.2.2.2.2.1 100
      (by decide)).trans (by decide)⟩

theorem applyRefinement_apply (e : Env) (t : Table) (r : Refinement) (f : DukFlag) :
    applyRefinement e t r f =
      match r with
      | .rdtsc =>
        if f = .DUK_USE_DPRINT_RDTSC then
          (DUK_RDTSC_AVAILABLE e && t .DUK_OPT_DPRINT_RDTSC) else t f
      | .variadicMacros => if f = .DUK_USE_VARIADIC_MACROS then DUK_F_C99 e else t f
      | .structHack => if f = .DUK_USE_STRUCT_HACK then !DUK_F_C99 e else t f
      | .gccPragmas => if f = .DUK_USE_GCC_PRAGMAS then gccPragmasWindow e else t f := by
  cases r
  · exact rdtscRefinement_apply e t f
  · exact variadicMacrosRefinement_apply e t f
  · exact structHackRefinement_apply e t f
  · exact gccPragmasRefinement_apply e t f

/-- Two refinements of lines 562-593 give the same table in either order. -/
theorem applyRefinement_comm (e : Env) (t : Table) (r s : Refinement) :
    applyRefinement e (applyRefinement e t r) s =
      applyRefinement e (applyRefinement e t s) r := by
  funext f
  cases r <;> cases s <;> simp only [applyRefinement_apply] <;>
    split_ifs <;> simp_all

theorem applyRefinements_source_order (e : Env) (t : Table) :
    applyRefinements e [.rdtsc, .variadicMacros, .structHack, .gccPragmas] t =
      dynamicFeatures e t := rfl

theorem profileWrites_not_postProfile :
    ∀ f : DukFlag, f ∈ profileWrites → f ∉ dynamicFlags → f ∉ postProfileWrites := by
  decide

/-- C16: the dynamically detected features of lines 562-593 write only
`DUK_USE_DPRINT_RDTSC`, `DUK_USE_VARIADIC_MACROS`, `DUK_USE_STRUCT_HACK` and
`DUK_USE_GCC_PRAGMAS`: every other macro has after them the value it had
before, and for every selector of the catalog every other flag set by
profile processing has, after them and in the resolved configuration, the
value profile processing gave.  The four refinements applied in any order
give the table they give in the order of the file. -/
theorem dynamic_features_frame_and_commute (e : Env) (t : Table) :
    (∀ f, f ∉ dynamicFlags → dynamicFeatures e t f = t f) ∧
    (∀ p, p ∈ catalog → ∀ T, profileProcessing p t = .ok T →
      ∀ f, f ∈ profileWrites → f ∉ dynamicFlags →
        dynamicFeatures e (tracebackDepth T) f = T f) ∧
    (∀ p, p ∈ catalog → ∀ cfg, duk_features (some p) e t = .ok cfg →
      ∃ t1 T, platformStage e t = .ok t1 ∧ profileProcessing p t1 = .ok T ∧
        ∀ f, f ∈ profileWrites → f ∉ dynamicFlags → cfg f = T f) ∧
    (∀ l : List Refinement, l.Perm [.rdtsc, .variadicMacros, .structHack, .gccPragmas] →
      applyRefinements e l t = dynamicFeatures e t) := by
  refine ⟨?_, ?_, ?_, ?_⟩
  · intro f hf
    exact dynamicFeatures_frame e t f (by simpa [dynamicFlags] using hf)
  · intro p _ T _ f hf hd
    rw [dynamicFeatures_frame e _ f (by simpa [dynamicFlags] using hd),
      tracebackDepth_frame _ f]
    intro hc
    subst hc
    simp [profileWrites] at hf
  · intro p hp cfg h
    obtain ⟨t1, T, h1, hT, hfr⟩ := duk_features_profile (some p) e t cfg h
      (fun _ => catalog_pos p hp)
    exact ⟨t1, T, h1, hT, fun f hf hd => hfr f (profileWrites_not_postProfile f hf hd)⟩
  · intro l hl
    rw [← applyRefinements_source_order]
    unfold applyRefinements
    exact hl.foldl_eq' (fun x _ y _ z => applyRefinement_comm e z x y) t

/-- Witness of C16 on Linux with GCC on i386: a flag of the FULL profile
through the refinements, and the four refinements in the reverse order. -/
theorem dynamic_features_frame_and_commute_witness :
    DukFlag.DUK_USE_VERBOSE_ERRORS ∉ dynamicFlags ∧
    dynamicFeatures linux_gcc_i386 emptyTable .DUK_USE_VERBOSE_ERRORS =
      emptyTable .DUK_USE_VERBOSE_ERRORS ∧
    applyRefinements linux_gcc_i386 [.gccPragmas, .structHack, .variadicMacros, .rdtsc]
      emptyTable = dynamicFeatures linux_gcc_i386 emptyTable :=
  have h := dynamic_features_frame_and_commute linux_gcc_i386 emptyTable
  ⟨by decide, h.1 _ (by decide),
   h.2.2.2 _ (by decide)⟩

/-! ## Claims on the relations between the profiles -/

theorem profileProcessing_explicit_init (p : Int) (t T : Table)
    (h : profileProcessing p t = .ok T) :
    T .DUK_USE_EXPLICIT_NULL_INIT = decide (p ∈ [400, 401]) := by
  unfold profileProcessing profileModifications at h
  repeat' split at h
  all_goals first
    | (injection h with h; subst h
       simp_all [unalignedAccessSettings_apply, fullProfileSettings])
    | simp at h

theorem profileProcessing_debug_flags (p : Int) (t T : Table)
    (h : profileProcessing p t = .ok T) :
    T .DUK_USE_DEBUG = decide (p ∈ debugSelectors) ∧
    T .DUK_USE_DDEBUG = false ∧ T .DUK_USE_DDDEBUG = false ∧
    T .DUK_USE_ASSERTIONS = decide (p ∈ [101, 201, 301, 401]) := by
  unfold profileProcessing profileModifications at h
  repeat' split at h
  all_goals first
    | (injection h with h; subst h
       simp_all [unalignedAccessSettings_apply, fullProfileSettings, debugSelectors])
    | simp at h

theorem profileProcessing_gc_torture (p : Int) (t T : Table)
    (h : profileProcessing p t = .ok T) :
    T .DUK_USE_GC_TORTURE = decide (p ∈ [500, 501]) := by
  unfold profileProcessing profileModifications at h
  repeat' split at h
  all_goals first
    | (injection h with h; subst h
       simp_all [unalignedAccessSettings_apply, fullProfileSettings])
    | simp at h

/-- Value, in a configuration resolved with a selector of the catalog, of a
flag which the stages after profile processing do not write. -/
theorem resolved_profile_flag (p : Int) (hp : p ∈ catalog) (e : Env) (t cfg : Table)
    (f : DukFlag) (b : Bool) (hf : f ∉ postProfileWrites)
    (hT : ∀ t1 T, profileProcessing p t1 = .ok T → T f = b)
    (h : duk_features (some p) e t = .ok cfg) : cfg f = b := by
  obtain ⟨t1, T, _, hT1, hfr⟩ := duk_features_profile (some p) e t cfg h
    (fun _ => catalog_pos p hp)
  rw [hfr f hf]
  exact hT t1 T hT1

/-- C17: for the selectors PORTABLE (400) and PORTABLE_DEBUG (401), on every
platform, a resolved configuration has `DUK_USE_PACKED_TVAL` undefined and
`DUK_USE_EXPLICIT_NULL_INIT` defined, also where the packed representation
is possible; on valid platform facts (the caller not giving the obsolete
`DUK_DDEBUG`) the configuration is resolved. -/
theorem portable_forces_unpacked_and_explicit_init (p : Int) (hp : p ∈ [400, 401])
    (e : Env) (t : Table) :
    (∀ cfg, duk_features (some p) e t = .ok cfg →
      cfg .DUK_USE_PACKED_TVAL = false ∧ cfg .DUK_USE_EXPLICIT_NULL_INIT = true) ∧
    flagOf (duk_features (some p) e t) .DUK_USE_PACKED_TVAL =
      (if (validPlatformFacts e && noObsoleteDebugDefine t) = true
       then some false else none) ∧
    flagOf (duk_features (some p) e t) .DUK_USE_EXPLICIT_NULL_INIT =
      (if (validPlatformFacts e && noObsoleteDebugDefine t) = true
       then some true else none) := by
  have hc : p ∈ catalog := by
    simp at hp
    rcases hp with h | h <;> subst h <;> decide
  have h1 : ∀ cfg, duk_features (some p) e t = .ok cfg → cfg .DUK_USE_PACKED_TVAL = false :=
    fun cfg h => resolved_profile_flag p hc e t cfg _ _ (by simp [postProfileWrites])
      (fun t1 T hT => by
        rw [profileProcessing_packed p t1 T hT]
        simp at hp
        rcases hp with h | h <;> subst h <;> decide) h
  have h2 : ∀ cfg, duk_features (some p) e t = .ok cfg →
      cfg .DUK_USE_EXPLICIT_NULL_INIT = true :=
    fun cfg h => resolved_profile_flag p hc e t cfg _ _ (by simp [postProfileWrites])
      (fun t1 T hT => by
        rw [profileProcessing_explicit_init p t1 T hT]
        exact decide_eq_true hp) h
  exact ⟨fun cfg h => ⟨h1 cfg h, h2 cfg h⟩,
    flagOf_catalog (some p) e t _ _ (defaultProfile_some_catalog p hc) h1,
    flagOf_catalog (some p) e t _ _ (defaultProfile_some_catalog p hc) h2⟩

/-- Witness of C17 for the selector PORTABLE on Linux with GCC on i386, where
the packed representation is possible. -/
theorem portable_forces_unpacked_and_explicit_init_witness :
    (400 : Int) ∈ [400, 401] ∧
    packedTvalPossible linux_gcc_i386 = true ∧
    flagOf (duk_features (some 400) linux_gcc_i386 emptyTable) .DUK_USE_PACKED_TVAL =
      some false ∧
    flagOf (duk_features (some 400) linux_gcc_i386 emptyTable) .DUK_USE_EXPLICIT_NULL_INIT =
      some true :=
  have h := portable_forces_unpacked_and_explicit_init 400 (by decide) linux_gcc_i386
    emptyTable
  ⟨by decide, by decide, h.2.1.trans (by decide), h.2.2.trans (by decide)⟩

/-- C19: the selectors 101, 201, 301, 401 and 501 resolve to
`DUK_USE_DEBUG` defined with `DUK_USE_DDEBUG` and `DUK_USE_DDDEBUG`
undefined; the selectors 100, 200, 300, 400 and 500 resolve to
`DUK_USE_DEBUG` and `DUK_USE_ASSERTIONS` undefined; the selectors 101, 201,
301 and 401 resolve to `DUK_USE_ASSERTIONS` defined. -/
theorem debug_selectors_resolve_debug_on (e : Env) (t : Table) :
    (∀ p, p ∈ debugSelectors →
      (∀ cfg, duk_features (some p) e t = .ok cfg →
        cfg .DUK_USE_DEBUG = true ∧ cfg .DUK_USE_DDEBUG = false ∧
        cfg .DUK_USE_DDDEBUG = false) ∧
      flagOf (duk_features (some p) e t) .DUK_USE_DEBUG =
        (if (validPlatformFacts e && noObsoleteDebugDefine t) = true
         then some true else none) ∧
      flagOf (duk_features (some p) e t) .DUK_USE_DDEBUG =
        (if (validPlatformFacts e && noObsoleteDebugDefine t) = true
         then some false else none) ∧
      flagOf (duk_features (some p) e t) .DUK_USE_DDDEBUG =
        (if (validPlatformFacts e && noObsoleteDebugDefine t) = true
         then some false else none)) ∧
    (∀ p, p ∈ baseSelectors →
      (∀ cfg, duk_features (some p) e t = .ok cfg →
        cfg .DUK_USE_DEBUG = false ∧ cfg .DUK_USE_ASSERTIONS = false) ∧
      flagOf (duk_features (some p) e t) .DUK_USE_DEBUG =
        (if (validPlatformFacts e && noObsoleteDebugDefine t) = true
         then some false else none) ∧
      flagOf (duk_features (some p) e t) .DUK_USE_ASSERTIONS =
        (if (validPlatformFacts e && noObsoleteDebugDefine t) = true
         then some false else none)) ∧
    (∀ p, p ∈ [101, 201, 301, 401] →
      (∀ cfg, duk_features (some p) e t = .ok cfg → cfg .DUK_USE_ASSERTIONS = true) ∧
      flagOf (duk_features (some p) e t) .DUK_USE_ASSERTIONS =
        (if (validPlatformFacts e && noObsoleteDebugDefine t) = true
         then some true else none)) := by
  have hflag : ∀ (p : Int) (f : DukFlag) (b : Bool), p ∈ catalog → f ∉ postProfileWrites →
      (∀ t1 T, profileProcessing p t1 = .ok T → T f = b) →
      (∀ cfg, duk_features (some p) e t = .ok cfg → cfg f = b) ∧
      flagOf (duk_features (some p) e t) f =
        (if (validPlatformFacts e && noObsoleteDebugDefine t) = true
         then some b else none) := by
    intro p f b hc hf hT
    have h1 : ∀ cfg, duk_features (some p) e t = .ok cfg → cfg f = b :=
      fun cfg h => resolved_profile_flag p hc e t cfg f b hf hT h
    exact ⟨h1, flagOf_catalog (some p) e t f b (defaultProfile_some_catalog p hc) h1⟩
  refine ⟨?_, ?_, ?_⟩
  · intro p hp
    have hc : p ∈ catalog := by
      simp [debugSelectors] at hp
      rcases hp with h | h | h | h | h <;> subst h <;> decide
    have h1 := hflag p .DUK_USE_DEBUG true hc (by simp [postProfileWrites])
      (fun t1 T hT => by
        rw [(profileProcessing_debug_flags p t1 T hT).1]
        exact decide_eq_true hp)
    have h2 := hflag p .DUK_USE_DDEBUG false hc (by simp [postProfileWrites])
      (fun t1 T hT => (profileProcessing_debug_flags p t1 T hT).2.1)
    have h3 := hflag p .DUK_USE_DDDEBUG false hc (by simp [postProfileWrites])
      (fun t1 T hT => (profileProcessing_debug_flags p t1 T hT).2.2.1)
    exact ⟨fun cfg h => ⟨h1.1 cfg h, h2.1 cfg h, h3.1 cfg h⟩, h1.2, h2.2, h3.2⟩
  · intro p hp
    have hc : p ∈ catalog := by
      simp [baseSelectors] at hp
      rcases hp with h | h | h | h | h <;> subst h <;> decide
    have h1 := hflag p .DUK_USE_DEBUG false hc (by simp [postProfileWrites])
      (fun t1 T hT => by
        rw [(profileProcessing_debug_flags p t1 T hT).1]
        simp [baseSelectors] at hp
        rcases hp with h | h | h | h | h <;> subst h <;> decide)
    have h2 := hflag p .DUK_USE_ASSERTIONS false hc (by simp [postProfileWrites])
      (fun t1 T hT => by
        rw [(profileProcessing_debug_flags p t1 T hT).2.2.2]
        simp [baseSelectors] at hp
        rcases hp with h | h | h | h | h <;> subst h <;> decide)
    exact ⟨fun cfg h => ⟨h1.1 cfg h, h2.1 cfg h⟩, h1.2, h2.2⟩
  · intro p hp
    have hc : p ∈ catalog := by
      simp at hp
      rcases hp with h | h | h | h <;> subst h <;> decide
    exact hflag p .DUK_USE_ASSERTIONS true hc (by simp [postProfileWrites])
      (fun t1 T hT => by
        rw [(profileProcessing_debug_flags p t1 T hT).2.2.2]
        exact decide_eq_true hp)

/-- Witness of C19 on Linux with GCC on i386 for the selectors
TORTURE_DEBUG, MINIMAL and PORTABLE_DEBUG. -/
theorem debug_selectors_resolve_debug_on_witness :
    (501 : Int) ∈ debugSelectors ∧
    flagOf (duk_features (some 501) linux_gcc_i386 emptyTable) .DUK_USE_DEBUG = some true ∧
    flagOf (duk_features (some 501) linux_gcc_i386 emptyTable) .DUK_USE_DDEBUG = some false ∧
    (200 : Int) ∈ baseSelectors ∧
    flagOf (duk_features (some 200) linux_gcc_i386 emptyTable) .DUK_USE_DEBUG = some false ∧
    flagOf (duk_features (some 200) linux_gcc_i386 emptyTable) .DUK_USE_ASSERTIONS =
      some false ∧
    flagOf (duk_features (some 401) linux_gcc_i386 emptyTable) .DUK_USE_ASSERTIONS =
      some true :=
  have h := debug_selectors_resolve_debug_on linux_gcc_i386 emptyTable
  ⟨by decide, (h.1 501 (by decide)).2.1.trans (by decide),
   (h.1 501 (by decide)).2.2.1.trans (by decide), by decide,
   (h.2.1 200 (by decide)).2.1.trans (by decide),
   (h.2.1 200 (by decide)).2.2.trans (by decide),
   (h.2.2 401 (by decide)).2.trans (by decide)⟩

/-- Two selectors of the catalog give the same outcome for a flag when
profile processing gives it the same value for both, and gives
`DUK_USE_TRACEBACKS`, which line 558 reads, the same value for both. -/
theorem catalog_selectors_agree (p q : Int) (hp : p ∈ catalog) (hq : q ∈ catalog)
    (e : Env) (t : Table) (f : DukFlag)
    (hf : ∀ t1 T1 T2, profileProcessing p t1 = .ok T1 → profileProcessing q t1 = .ok T2 →
      T1 f = T2 f)
    (htb : ∀ t1 T1 T2, profileProcessing p t1 = .ok T1 → profileProcessing q t1 = .ok T2 →
      T1 .DUK_USE_TRACEBACKS = T2 .DUK_USE_TRACEBACKS) :
    flagOf (duk_features (some p) e t) f = flagOf (duk_features (some q) e t) f := by
  have hip := catalog_resolves_iff (some p) e t (defaultProfile_some_catalog p hp)
  have hiq := catalog_resolves_iff (some q) e t (defaultProfile_some_catalog q hq)
  cases hr1 : duk_features (some p) e t with
  | error err1 =>
    cases hr2 : duk_features (some q) e t with
    | error err2 => rfl
    | ok c2 =>
      obtain ⟨c1, hc1⟩ := hip.2 (hiq.1 ⟨c2, hr2⟩)
      rw [hr1] at hc1
      cases hc1
  | ok c1 =>
    cases hr2 : duk_features (some q) e t with
    | error err2 =>
      obtain ⟨c2, hc2⟩ := hiq.2 (hip.1 ⟨c1, hr1⟩)
      rw [hr2] at hc2
      cases hc2
    | ok c2 =>
      obtain ⟨t1, T1, h1, hT1, hd1⟩ := duk_features_tail p e t c1 (catalog_pos p hp) hr1
      obtain ⟨t2, T2, h2, hT2, hd2⟩ := duk_features_tail q e t c2 (catalog_pos q hq) hr2
      rw [h1] at h2
      injection h2 with h2
      subst h2
      have hdepth : T1 .DUK_OPT_TRACEBACK_DEPTH = T2 .DUK_OPT_TRACEBACK_DEPTH := by
        rw [profileProcessing_frame p t1 T1 _ hT1 (by simp [profileWrites]),
          profileProcessing_frame q t1 T2 _ hT2 (by simp [profileWrites])]
      have hopt : T1 .DUK_OPT_DPRINT_RDTSC = T2 .DUK_OPT_DPRINT_RDTSC := by
        rw [profileProcessing_frame p t1 T1 _ hT1 (by simp [profileWrites]),
          profileProcessing_frame q t1 T2 _ hT2 (by simp [profileWrites])]
      simp only [flagOf_ok]
      rw [tail_congr e T1 T2 c1 c2 f hd1 hd2 (hf t1 T1 T2 hT1 hT2) (htb t1 T1 T2 hT1 hT2)
        hdepth hopt]

theorem profileProcessing_400_500 (t T1 T2 : Table) (f : DukFlag)
    (h1 : profileProcessing 500 t = .ok T1) (h2 : profileProcessing 400 t = .ok T2)
    (hf : f ∉ [DukFlag.DUK_USE_GC_TORTURE, DukFlag.DUK_USE_EXPLICIT_NULL_INIT]) :
    T1 f = T2 f := by
  simp [profileProcessing, profileModifications] at h1 h2
  subst h1 h2
  simp at hf
  simp [hf]

theorem profileProcessing_401_501 (t T1 T2 : Table) (f : DukFlag)
    (h1 : profileProcessing 501 t = .ok T1) (h2 : profileProcessing 401 t = .ok T2)
    (hf : f ∉ [DukFlag.DUK_USE_GC_TORTURE, DukFlag.DUK_USE_EXPLICIT_NULL_INIT,
      DukFlag.DUK_USE_ASSERTIONS]) :
    T1 f = T2 f := by
  simp [profileProcessing, profileModifications] at h1 h2
  subst h1 h2
  simp at hf
  simp [hf]

/-- Counterexample to C18: on Linux with GCC on i386 the selector PORTABLE
resolves `DUK_USE_EXPLICIT_NULL_INIT` defined and the selector TORTURE
resolves it undefined; PORTABLE_DEBUG resolves `DUK_USE_ASSERTIONS` and
`DUK_USE_EXPLICIT_NULL_INIT` defined and TORTURE_DEBUG resolves both
undefined. -/
theorem torture_differs_from_portable :
    flagOf (duk_features (some 400) linux_gcc_i386 emptyTable)
      .DUK_USE_EXPLICIT_NULL_INIT = some true ∧
    flagOf (duk_features (some 500) linux_gcc_i386 emptyTable)
      .DUK_USE_EXPLICIT_NULL_INIT = some false ∧
    flagOf (duk_features (some 401) linux_gcc_i386 emptyTable)
      .DUK_USE_EXPLICIT_NULL_INIT = some true ∧
    flagOf (duk_features (some 501) linux_gcc_i386 emptyTable)
      .DUK_USE_EXPLICIT_NULL_INIT = some false ∧
    flagOf (duk_features (some 401) linux_gcc_i386 emptyTable)
      .DUK_USE_ASSERTIONS = some true ∧
    flagOf (duk_features (some 501) linux_gcc_i386 emptyTable)
      .DUK_USE_ASSERTIONS = some false := by
  decide

/-- C18 (amended): on every platform the outcome for TORTURE (500) agrees
with the outcome for PORTABLE (400) on every flag other than
`DUK_USE_GC_TORTURE`, defined for TORTURE and undefined for PORTABLE, and
`DUK_USE_EXPLICIT_NULL_INIT`; the outcome for TORTURE_DEBUG (501) agrees with
the outcome for PORTABLE_DEBUG (401) on every flag other than
`DUK_USE_GC_TORTURE`, defined for TORTURE_DEBUG only,
`DUK_USE_EXPLICIT_NULL_INIT`, and `DUK_USE_ASSERTIONS`, defined for
PORTABLE_DEBUG and undefined for TORTURE_DEBUG; both TORTURE selectors
resolve `DUK_USE_PACKED_TVAL` undefined. -/
theorem torture_is_portable_with_gc_torture (e : Env) (t : Table) :
    (∀ f, f ∉ [DukFlag.DUK_USE_GC_TORTURE, DukFlag.DUK_USE_EXPLICIT_NULL_INIT] →
      flagOf (duk_features (some 500) e t) f = flagOf (duk_features (some 400) e t) f) ∧
    (∀ f, f ∉ [DukFlag.DUK_USE_GC_TORTURE, DukFlag.DUK_USE_EXPLICIT_NULL_INIT,
        DukFlag.DUK_USE_ASSERTIONS] →
      flagOf (duk_features (some 501) e t) f = flagOf (duk_features (some 401) e t) f) ∧
    (∀ p, p ∈ [500, 501] →
      flagOf (duk_features (some p) e t) .DUK_USE_GC_TORTURE =
        (if (validPlatformFacts e && noObsoleteDebugDefine t) = true
         then some true else none) ∧
      flagOf (duk_features (some p) e t) .DUK_USE_PACKED_TVAL =
        (if (validPlatformFacts e && noObsoleteDebugDefine t) = true
         then some false else none)) ∧
    (∀ p, p ∈ [400, 401] →
      flagOf (duk_features (some p) e t) .DUK_USE_GC_TORTURE =
        (if (validPlatformFacts e && noObsoleteDebugDefine t) = true
         then some false else none)) ∧
    flagOf (duk_features (some 501) e t) .DUK_USE_ASSERTIONS =
      (if (validPlatformFacts e && noObsoleteDebugDefine t) = true
       then some false else none) ∧
    flagOf (duk_features (some 401) e t) .DUK_USE_ASSERTIONS =
      (if (validPlatformFacts e && noObsoleteDebugDefine t) = true
       then some true else none) := by
  have hflag : ∀ (p : Int) (f : DukFlag) (b : Bool), p ∈ catalog → f ∉ postProfileWrites →
      (∀ t1 T, profileProcessing p t1 = .ok T → T f = b) →
      flagOf (duk_features (some p) e t) f =
        (if (validPlatformFacts e && noObsoleteDebugDefine t) = true
         then some b else none) :=
    fun p f b hc hf hT => flagOf_catalog (some p) e t f b (defaultProfile_some_catalog p hc)
      (fun cfg h => resolved_profile_flag p hc e t cfg f b hf hT h)
  refine ⟨?_, ?_, ?_, ?_, ?_, ?_⟩
  · intro f hf
    exact catalog_selectors_agree 500 400 (by decide) (by decide) e t f
      (fun t1 T1 T2 h1 h2 => profileProcessing_400_500 t1 T1 T2 f h1 h2 hf)
      (fun t1 T1 T2 h1 h2 => profileProcessing_400_500 t1 T1 T2 _ h1 h2 (by decide))
  · intro f hf
    exact catalog_selectors_agree 501 401 (by decide) (by decide) e t f
      (fun t1 T1 T2 h1 h2 => profileProcessing_401_501 t1 T1 T2 f h1 h2 hf)
      (fun t1 T1 T2 h1 h2 => profileProcessing_401_501 t1 T1 T2 _ h1 h2 (by decide))
  · intro p hp
    have hc : p ∈ catalog := by
      simp at hp
      rcases hp with h | h <;> subst h <;> decide
    refine ⟨hflag p _ _ hc (by simp [postProfileWrites]) (fun t1 T hT => ?_),
      hflag p _ _ hc (by simp [postProfileWrites]) (fun t1 T hT => ?_)⟩
    · rw [profileProcessing_gc_torture p t1 T hT]
      exact decide_eq_true hp
    · rw [profileProcessing_packed p t1 T hT]
      simp at hp
      rcases hp with h | h <;> subst h <;> decide
  · intro p hp
    have hc : p ∈ catalog := by
      simp at hp
      rcases hp with h | h <;> subst h <;> decide
    refine hflag p _ _ hc (by simp [postProfileWrites]) (fun t1 T hT => ?_)
    rw [profileProcessing_gc_torture p t1 T hT]
    simp at hp
    rcases hp with h | h <;> subst h <;> decide
  · exact hflag 501 _ _ (by decide) (by simp [postProfileWrites])
      (fun t1 T hT => (profileProcessing_debug_flags 501 t1 T hT).2.2.2.trans (by decide))
  · exact hflag 401 _ _ (by decide) (by simp [postProfileWrites])
      (fun t1 T hT => (profileProcessing_debug_flags 401 t1 T hT).2.2.2.trans (by decide))

/-- Witness of the amended C18 on Linux with GCC on i386. -/
theorem torture_is_portable_with_gc_torture_witness :
    DukFlag.DUK_USE_REFERENCE_COUNTING ∉
      [DukFlag.DUK_USE_GC_TORTURE, DukFlag.DUK_USE_EXPLICIT_NULL_INIT] ∧
    flagOf (duk_features (some 500) linux_gcc_i386 emptyTable) .DUK_USE_REFERENCE_COUNTING =
      flagOf (duk_features (some 400) linux_gcc_i386 emptyTable)
        .DUK_USE_REFERENCE_COUNTING ∧
    flagOf (duk_features (some 501) linux_gcc_i386 emptyTable) .DUK_USE_DEBUG =
      flagOf (duk_features (some 401) linux_gcc_i386 emptyTable) .DUK_USE_DEBUG ∧
    flagOf (duk_features (some 500) linux_gcc_i386 emptyTable) .DUK_USE_GC_TORTURE =
      some true ∧
    flagOf (duk_features (some 400) linux_gcc_i386 emptyTable) .DUK_USE_GC_TORTURE =
      some false :=
  have h := torture_is_portable_with_gc_torture linux_gcc_i386 emptyTable
  ⟨by decide, h.1 _ (by decide), h.2.1 _ (by decide),
   (h.2.2.1 500 (by decide)).1.trans (by decide),
   (h.2.2.2.1 400 (by decide)).trans (by decide)⟩

theorem profileProcessing_debug_of_base (b d : Int)
    (hbd : (b, d) ∈ [((100 : Int), (101 : Int)), (300, 301), (400, 401), (500, 501)])
    (t T1 T2 : Table) (f : DukFlag)
    (h1 : profileProcessing d t = .ok T1) (h2 : profileProcessing b t = .ok T2)
    (hf : f ∉ [DukFlag.DUK_USE_DEBUG, DukFlag.DUK_USE_ASSERTIONS]) :
    T1 f = T2 f := by
  simp at hf
  simp at hbd
  by_cases ha : f = .DUK_USE_DDEBUG
  · subst ha
    rw [(profileProcessing_debug_flags d t T1 h1).2.1,
      (profileProcessing_debug_flags b t T2 h2).2.1]
  by_cases hb : f = .DUK_USE_DDDEBUG
  · subst hb
    rw [(profileProcessing_debug_flags d t T1 h1).2.2.1,
      (profileProcessing_debug_flags b t T2 h2).2.2.1]
  by_cases hc : f = .DUK_USE_GC_TORTURE
  · subst hc
    rw [profileProcessing_gc_torture d t T1 h1, profileProcessing_gc_torture b t T2 h2]
    rcases hbd with ⟨hb, hd⟩ | ⟨hb, hd⟩ | ⟨hb, hd⟩ | ⟨hb, hd⟩ <;> subst hb hd <;> decide
  rcases hbd with ⟨hb, hd⟩ | ⟨hb, hd⟩ | ⟨hb, hd⟩ | ⟨hb, hd⟩ <;> subst hb hd <;>
    simp [profileProcessing, profileModifications] at h1 h2 <;> subst h1 h2 <;>
    simp [hf, ha, hb, hc]

theorem profileProcessing_200_201 (t T1 T2 : Table) (f : DukFlag)
    (h1 : profileProcessing 201 t = .ok T1) (h2 : profileProcessing 200 t = .ok T2)
    (hf : f ∉ [DukFlag.DUK_USE_DEBUG, DukFlag.DUK_USE_ASSERTIONS,
      DukFlag.DUK_USE_VERBOSE_ERRORS]) :
    T1 f = T2 f := by
  by_cases ha : f = .DUK_USE_DDEBUG
  · subst ha
    rw [(profileProcessing_debug_flags 201 t T1 h1).2.1,
      (profileProcessing_debug_flags 200 t T2 h2).2.1]
  by_cases hb : f = .DUK_USE_DDDEBUG
  · subst hb
    rw [(profileProcessing_debug_flags 201 t T1 h1).2.2.1,
      (profileProcessing_debug_flags 200 t T2 h2).2.2.1]
  simp [profileProcessing, profileModifications] at h1 h2
  subst h1 h2
  simp at hf
  simp [hf, ha, hb]

/-- The `_DEBUG` selectors against their base selectors: FULL_DEBUG,
TINY_DEBUG, PORTABLE_DEBUG and TORTURE_DEBUG give the outcome of their base
selector on every flag other than `DUK_USE_DEBUG` and `DUK_USE_ASSERTIONS`,
and MINIMAL_DEBUG gives the outcome of MINIMAL on every flag other than these
two and `DUK_USE_VERBOSE_ERRORS`. -/
theorem debug_variant_agrees_with_base (e : Env) (t : Table) (f : DukFlag) :
    (f ∉ [DukFlag.DUK_USE_DEBUG, DukFlag.DUK_USE_ASSERTIONS] →
      flagOf (duk_features (some 101) e t) f = flagOf (duk_features (some 100) e t) f ∧
      flagOf (duk_features (some 301) e t) f = flagOf (duk_features (some 300) e t) f ∧
      flagOf (duk_features (some 401) e t) f = flagOf (duk_features (some 400) e t) f ∧
      flagOf (duk_features (some 501) e t) f = flagOf (duk_features (some 500) e t) f) ∧
    (f ∉ [DukFlag.DUK_USE_DEBUG, DukFlag.DUK_USE_ASSERTIONS,
        DukFlag.DUK_USE_VERBOSE_ERRORS] →
      flagOf (duk_features (some 201) e t) f = flagOf (duk_features (some 200) e t) f) := by
  constructor
  · intro hf
    have hpair : ∀ b d : Int,
        (b, d) ∈ [((100 : Int), (101 : Int)), (300, 301), (400, 401), (500, 501)] →
        b ∈ catalog → d ∈ catalog →
        flagOf (duk_features (some d) e t) f = flagOf (duk_features (some b) e t) f :=
      fun b d hbd hb hd => catalog_selectors_agree d b hd hb e t f
        (fun t1 T1 T2 h1 h2 => profileProcessing_debug_of_base b d hbd t1 T1 T2 f h1 h2 hf)
        (fun t1 T1 T2 h1 h2 =>
          profileProcessing_debug_of_base b d hbd t1 T1 T2 _ h1 h2 (by decide))
    exact ⟨hpair 100 101 (by decide) (by decide) (by decide),
      hpair 300 301 (by decide) (by decide) (by decide),
      hpair 400 401 (by decide) (by decide) (by decide),
      hpair 500 501 (by decide) (by decide) (by decide)⟩
  · intro hf
    exact catalog_selectors_agree 201 200 (by decide) (by decide) e t f
      (fun t1 T1 T2 h1 h2 => profileProcessing_200_201 t1 T1 T2 f h1 h2 hf)
      (fun t1 T1 T2 h1 h2 => profileProcessing_200_201 t1 T1 T2 _ h1 h2 (by decide))

theorem profileProcessing_verbose_errors (p : Int) (t T : Table)
    (h : profileProcessing p t = .ok T) :
    T .DUK_USE_VERBOSE_ERRORS = decide (p ∉ [200, 300, 301]) := by
  unfold profileProcessing profileModifications at h
  repeat' split at h
  all_goals first
    | (injection h with h; subst h
       simp_all [unalignedAccessSettings_apply, fullProfileSettings])
    | simp at h

/-- C20: the code at the selector MINIMAL_DEBUG.  On every platform where a
configuration is resolved, MINIMAL (200) resolves `DUK_USE_VERBOSE_ERRORS`
undefined and MINIMAL_DEBUG (201) resolves it defined, so that MINIMAL_DEBUG
does not agree with MINIMAL on a flag other than the debug flag and the
assertions flag; TINY (300) and TINY_DEBUG (301) both resolve it undefined.
On Linux with GCC on i386 the two configurations are resolved. -/
theorem minimal_debug_resolves_verbose_errors (e : Env) (t : Table) :
    flagOf (duk_features (some 200) e t) .DUK_USE_VERBOSE_ERRORS =
      (if (validPlatformFacts e && noObsoleteDebugDefine t) = true
       then some false else none) ∧
    flagOf (duk_features (some 201) e t) .DUK_USE_VERBOSE_ERRORS =
      (if (validPlatformFacts e && noObsoleteDebugDefine t) = true
       then some true else none) ∧
    flagOf (duk_features (some 300) e t) .DUK_USE_VERBOSE_ERRORS =
      (if (validPlatformFacts e && noObsoleteDebugDefine t) = true
       then some false else none) ∧
    flagOf (duk_features (some 301) e t) .DUK_USE_VERBOSE_ERRORS =
      (if (validPlatformFacts e && noObsoleteDebugDefine t) = true
       then some false else none) ∧
    flagOf (duk_features (some 200) linux_gcc_i386 emptyTable) .DUK_USE_VERBOSE_ERRORS =
      some false ∧
    flagOf (duk_features (some 201) linux_gcc_i386 emptyTable) .DUK_USE_VERBOSE_ERRORS =
      some true := by
  have hflag : ∀ (p : Int) (b : Bool), p ∈ catalog →
      (∀ t1 T, profileProcessing p t1 = .ok T → T .DUK_USE_VERBOSE_ERRORS = b) →
      flagOf (duk_features (some p) e t) .DUK_USE_VERBOSE_ERRORS =
        (if (validPlatformFacts e && noObsoleteDebugDefine t) = true
         then some b else none) :=
    fun p b hc hT => flagOf_catalog (some p) e t _ b (defaultProfile_some_catalog p hc)
      (fun cfg h => resolved_profile_flag p hc e t cfg _ b (by simp [postProfileWrites]) hT h)
  exact ⟨hflag 200 false (by decide)
      (fun t1 T hT => (profileProcessing_verbose_errors 200 t1 T hT).trans (by decide)),
    hflag 201 true (by decide)
      (fun t1 T hT => (profileProcessing_verbose_errors 201 t1 T hT).trans (by decide)),
    hflag 300 false (by decide)
      (fun t1 T hT => (profileProcessing_verbose_errors 300 t1 T hT).trans (by decide)),
    hflag 301 false (by decide)
      (fun t1 T hT => (profileProcessing_verbose_errors 301 t1 T hT).trans (by decide)),
    by decide, by decide⟩

/-! ## Claims on the flags of the platform stage -/

/-- Value, in a resolved configuration and for every selector, of a flag
which neither profile processing nor the stages after it write: the value at
the end of the platform stage. -/
theorem resolved_platform_flag (sel : Option Int) (e : Env) (t cfg : Table) (f : DukFlag)
    (hf : f ∉ profileWrites) (hf2 : f ∉ postProfileWrites)
    (h : duk_features sel e t = .ok cfg) :
    ∃ t1, platformStage e t = .ok t1 ∧ cfg f = t1 f := by
  obtain ⟨t1, h1, h2, _⟩ := duk_features_ok sel e t cfg h
  refine ⟨t1, h1, ?_⟩
  by_cases hp : defaultProfile sel t1 > 0
  · obtain ⟨T, hT, _, hshape⟩ := profileSection_ok _ e t1 cfg hp h2
    rw [postProfile_frame e T cfg f hshape hf2, profileProcessing_frame _ t1 T f hT hf]
  · rw [profileSection_custom _ e t1 hp] at h2
    injection h2 with h2
    rw [h2]

theorem mathDetection_repl (e : Env) (t : Table) (f : DukFlag) (hf : f ∈ replFlags) :
    mathDetection e t f = fpclassifyReplacementNeeded e := by
  simp only [replFlags, List.mem_cons, List.mem_singleton, List.mem_nil_iff, or_false] at hf
  unfold mathDetection mathFunctionDetection fpclassifyDetection fpclassifyReplacementNeeded
  rcases hf with hf | hf | hf | hf <;> subst hf <;> split <;> split <;> simp_all

theorem fpclassifyDetection_repl (e : Env) (t : Table) (f : DukFlag) (hf : f ∈ replFlags) :
    fpclassifyDetection e t f = fpclassifyReplacementNeeded e := by
  simp only [replFlags, List.mem_cons, List.mem_singleton, List.mem_nil_iff, or_false] at hf
  unfold fpclassifyDetection fpclassifyReplacementNeeded
  rcases hf with hf | hf | hf | hf <;> subst hf <;> split <;> simp_all

theorem platformStage_repl (e : Env) (t t1 : Table) (f : DukFlag) (hf : f ∈ replFlags)
    (h : platformStage e t = .ok t1) : t1 f = fpclassifyReplacementNeeded e := by
  obtain ⟨t2, _, _, h3⟩ := platformStage_ok e t t1 h
  rw [h3, mathDetection_repl e _ f hf]

theorem replFlags_not_written :
    ∀ f : DukFlag, f ∈ replFlags → f ∉ profileWrites ∧ f ∉ postProfileWrites := by
  decide

theorem fpclassifyReplacementNeeded_iff (e : Env) :
    fpclassifyReplacementNeeded e = true ↔
      (e.FP_NAN = false ∨ e.FP_INFINITE = false ∨ e.FP_ZERO = false ∨
        e.FP_SUBNORMAL = false ∨ e.FP_NORMAL = false) ∨
      (DUK_F_AMIGAOS e = true ∧ e.__VBCC__ = true) := by
  unfold fpclassifyReplacementNeeded
  cases e.FP_NAN <;> cases e.FP_INFINITE <;> cases e.FP_ZERO <;> cases e.FP_SUBNORMAL <;>
    cases e.FP_NORMAL <;> cases DUK_F_AMIGAOS e <;> cases e.__VBCC__ <;> simp

/-- A configuration is resolved with the custom profile exactly when the
platform stage passes and the table of the caller passes the sanity checks. -/
theorem custom_resolves_iff (p : Int) (hp : p ≤ 0) (e : Env) (t : Table) :
    (∃ cfg, duk_features (some p) e t = .ok cfg) ↔
      intMaxAccepted e = true ∧ doubleLayoutDetermined e = true ∧
      sanityChecks t = .ok t := by
  have hsan : ∀ t1, platformStage e t = .ok t1 →
      ((∃ err, sanityChecks t1 = .error err) ↔ ∃ err, sanityChecks t = .error err) := by
    intro t1 h1
    rw [sanityChecks_error_iff t1, sanityChecks_error_iff t,
      platformStage_frame e t t1 _ h1 (by simp [platformStageWrites]),
      platformStage_frame e t t1 _ h1 (by simp [platformStageWrites]),
      platformStage_frame e t t1 _ h1 (by simp [platformStageWrites]),
      platformStage_frame e t t1 _ h1 (by simp [platformStageWrites]),
      platformStage_frame e t t1 _ h1 (by simp [platformStageWrites]),
      platformStage_frame e t t1 _ h1 (by simp [platformStageWrites]),
      platformStage_frame e t t1 _ h1 (by simp [platformStageWrites]),
      platformStage_frame e t t1 _ h1 (by simp [platformStageWrites]),
      platformStage_frame e t t1 _ h1 (by simp [platformStageWrites])]
  have hshape : ∀ t1, platformStage e t = .ok t1 →
      duk_features (some p) e t = sanityChecks t1 := fun t1 h1 =>
    duk_features_of_stages (some p) e t t1 t1 h1 (profileSection_custom p e t1 (by omega))
  constructor
  · rintro ⟨cfg, h⟩
    obtain ⟨t1, h1, _, _⟩ := duk_features_ok (some p) e t cfg h
    obtain ⟨t2, hi, hl, _⟩ := platformStage_ok e t t1 h1
    refine ⟨hi, doubleLayoutDetection_determined e _ t2 hl, ?_⟩
    rw [hshape t1 h1] at h
    rcases sanityChecks_ok_or_error t with hok | herr
    · exact hok
    · obtain ⟨err, herr1⟩ := (hsan t1 h1).2 herr
      rw [herr1] at h
      cases h
  · rintro ⟨hi, hl, hok⟩
    obtain ⟨t1, h1⟩ := platformStage_of_valid e t hi hl
    rw [hshape t1 h1]
    rcases sanityChecks_ok_or_error t1 with hok1 | herr
    · exact ⟨t1, hok1⟩
    · obtain ⟨err, herr1⟩ := (hsan t1 h1).1 herr
      rw [hok] at herr1
      cases herr1

theorem unknown_positive_not_resolved (p : Int) (hp : p ∉ catalog) (hpos : 0 < p)
    (e : Env) (t : Table) : ¬ ∃ cfg, duk_features (some p) e t = .ok cfg := by
  rintro ⟨cfg, h⟩
  obtain ⟨t1, _, h2, _⟩ := duk_features_ok (some p) e t cfg h
  have h2b : profileSection p e t1 = .ok cfg := h2
  obtain ⟨T, hT, _, _⟩ := profileSection_ok p e t1 cfg hpos h2b
  exact hp ((profileProcessing_catalog p t1).1 ⟨T, hT⟩)

/-- Whether the header resolves a configuration does not depend on the facts
on the math library: the five classification constants, `INFINITY`, `NAN`,
uclibc and the level of the C standard. -/
theorem resolves_independent_of_math_facts (sel : Option Int) (e : Env) (t : Table)
    (v : Option Int) (a b c d g i n u : Bool) :
    (∃ cfg, duk_features sel
        { e with __STDC_VERSION__ := v, FP_NAN := a, FP_INFINITE := b, FP_ZERO := c,
                 FP_SUBNORMAL := d, FP_NORMAL := g, INFINITY := i, NAN := n,
                 __UCLIBC__ := u } t = .ok cfg) ↔
      ∃ cfg, duk_features sel e t = .ok cfg := by
  have hcat : ∀ sel1 : Option Int, (∀ t1, defaultProfile sel1 t1 ∈ catalog) →
      ((∃ cfg, duk_features sel1
        { e with __STDC_VERSION__ := v, FP_NAN := a, FP_INFINITE := b, FP_ZERO := c,
                 FP_SUBNORMAL := d, FP_NORMAL := g, INFINITY := i, NAN := n,
                 __UCLIBC__ := u } t = .ok cfg) ↔
        ∃ cfg, duk_features sel1 e t = .ok cfg) := by
    intro sel1 hp
    rw [catalog_resolves_iff sel1 _ t hp, catalog_resolves_iff sel1 e t hp]
    exact Iff.rfl
  cases sel with
  | none => exact hcat none defaultProfile_none_catalog
  | some p =>
    by_cases hc : p ∈ catalog
    · exact hcat (some p) (defaultProfile_some_catalog p hc)
    · by_cases hpos : 0 < p
      · constructor
        · intro h
          exact absurd h (unknown_positive_not_resolved p hc hpos _ t)
        · intro h
          exact absurd h (unknown_positive_not_resolved p hc hpos e t)
      · rw [custom_resolves_iff p (by omega) _ t, custom_resolves_iff p (by omega) e t]
        exact Iff.rfl

/-- C21: the four flags `DUK_USE_REPL_FPCLASSIFY`, `DUK_USE_REPL_SIGNBIT`,
`DUK_USE_REPL_ISFINITE` and `DUK_USE_REPL_ISNAN` have the same value after
lines 325-355 and in every resolved configuration, for every selector, the
custom profile included: they are defined if and only if one of `FP_NAN`,
`FP_INFINITE`, `FP_ZERO`, `FP_SUBNORMAL`, `FP_NORMAL` is not defined or the
platform is AmigaOS with VBCC.  Whether a configuration is resolved does not
depend on the facts on the math library (the five constants, `INFINITY`,
`NAN`, uclibc, the level of the C standard): a missing math primitive never
makes the header end on an `#error`. -/
theorem repl_flags_all_or_nothing (sel : Option Int) (e : Env) (t : Table) :
    (fpclassifyReplacementNeeded e = true ↔
      (e.FP_NAN = false ∨ e.FP_INFINITE = false ∨ e.FP_ZERO = false ∨
        e.FP_SUBNORMAL = false ∨ e.FP_NORMAL = false) ∨
      (DUK_F_AMIGAOS e = true ∧ e.__VBCC__ = true)) ∧
    (∀ f, f ∈ replFlags → fpclassifyDetection e t f = fpclassifyReplacementNeeded e) ∧
    (∀ cfg, duk_features sel e t = .ok cfg →
      (∀ f, f ∈ replFlags → cfg f = fpclassifyReplacementNeeded e) ∧
      cfg .DUK_USE_REPL_FPCLASSIFY = cfg .DUK_USE_REPL_SIGNBIT ∧
      cfg .DUK_USE_REPL_SIGNBIT = cfg .DUK_USE_REPL_ISFINITE ∧
      cfg .DUK_USE_REPL_ISFINITE = cfg .DUK_USE_REPL_ISNAN) ∧
    ((∀ t1, defaultProfile sel t1 ∈ catalog) → ∀ f, f ∈ replFlags →
      flagOf (duk_features sel e t) f =
        (if (validPlatformFacts e && noObsoleteDebugDefine t) = true
         then some (fpclassifyReplacementNeeded e) else none)) ∧
    (∀ (v : Option Int) (a b c d g i n u : Bool),
      ((∃ cfg, duk_features sel
          { e with __STDC_VERSION__ := v, FP_NAN := a, FP_INFINITE := b, FP_ZERO := c,
                   FP_SUBNORMAL := d, FP_NORMAL := g, INFINITY := i, NAN := n,
                   __UCLIBC__ := u } t = .ok cfg) ↔
        ∃ cfg, duk_features sel e t = .ok cfg)) := by
  have hcfg : ∀ cfg, duk_features sel e t = .ok cfg →
      ∀ f, f ∈ replFlags → cfg f = fpclassifyReplacementNeeded e := by
    intro cfg h f hf
    obtain ⟨t1, h1, h2⟩ := resolved_platform_flag sel e t cfg f
      (replFlags_not_written f hf).1 (replFlags_not_written f hf).2 h
    rw [h2, platformStage_repl e t t1 f hf h1]
  refine ⟨fpclassifyReplacementNeeded_iff e, fun f hf => fpclassifyDetection_repl e t f hf,
    ?_, ?_, fun v a b c d g i n u => resolves_independent_of_math_facts sel e t v a b c d g i n u⟩
  · intro cfg h
    refine ⟨hcfg cfg h, ?_, ?_, ?_⟩
    · rw [hcfg cfg h _ (by decide), hcfg cfg h _ (by decide)]
    · rw [hcfg cfg h _ (by decide), hcfg cfg h _ (by decide)]
    · rw [hcfg cfg h _ (by decide), hcfg cfg h _ (by decide)]
  · intro hp f hf
    exact flagOf_catalog sel e t f _ hp (fun cfg h => hcfg cfg h f hf)

/-- Witness of C21 for the selector FULL: on AmigaOS with VBCC and on Linux
with a `<math.h>` without `FP_SUBNORMAL` the replacements are installed, on
Linux with a complete `<math.h>` they are not, and the configuration is
resolved in the three cases. -/
theorem repl_flags_all_or_nothing_witness :
    flagOf (duk_features (some 100) amigaos_vbcc emptyTable) .DUK_USE_REPL_FPCLASSIFY =
      some true ∧
    flagOf (duk_features (some 100) linux_gcc_i386_uclibc emptyTable) .DUK_USE_REPL_ISNAN =
      some true ∧
    flagOf (duk_features (some 100) linux_gcc_i386_uclibc emptyTable) .DUK_USE_REPL_SIGNBIT =
      some true ∧
    flagOf (duk_features (some 100) linux_gcc_i386 emptyTable) .DUK_USE_REPL_ISFINITE =
      some false ∧
    flagOf (duk_features (some 0) linux_gcc_i386_uclibc emptyTable) .DUK_USE_REPL_FPCLASSIFY =
      some true :=
  ⟨((repl_flags_all_or_nothing (some 100) amigaos_vbcc emptyTable).2.2.2.1
      (defaultProfile_some_catalog 100 (by decide)) _ (by decide)).trans (by decide),
   ((repl_flags_all_or_nothing (some 100) linux_gcc_i386_uclibc emptyTable).2.2.2.1
      (defaultProfile_some_catalog 100 (by decide)) _ (by decide)).trans (by decide),
   ((repl_flags_all_or_nothing (some 100) linux_gcc_i386_uclibc emptyTable).2.2.2.1
      (defaultProfile_some_catalog 100 (by decide)) _ (by decide)).trans (by decide),
   ((repl_flags_all_or_nothing (some 100) linux_gcc_i386 emptyTable).2.2.2.1
      (defaultProfile_some_catalog 100 (by decide)) _ (by decide)).trans (by decide),
   by decide⟩

/-! ## Claim on the unaligned accesses -/

theorem armFamily_iff (e : Env) :
    armFamily e = true ↔
      e.__arm__ = true ∨ e.__thumb__ = true ∨ e._ARM = true ∨ e._M_ARM = true := by
  unfold armFamily
  cases e.__arm__ <;> cases e.__thumb__ <;> cases e._ARM <;> cases e._M_ARM <;> simp

theorem unalignedAccessDetection_flag (e : Env) (t : Table) :
    unalignedAccessDetection e t .DUK_USE_UNALIGNED_ACCESSES_POSSIBLE = !armFamily e := by
  unfold unalignedAccessDetection armFamily
  cases e.__arm__ <;> cases e.__thumb__ <;> cases e._ARM <;> cases e._M_ARM <;> simp

theorem platformStage_unaligned (e : Env) (t t1 : Table) (h : platformStage e t = .ok t1) :
    t1 .DUK_USE_UNALIGNED_ACCESSES_POSSIBLE = !armFamily e := by
  obtain ⟨t2, _, h2, h3⟩ := platformStage_ok e t t1 h
  rw [h3, mathDetection_frame e _ _ (by simp), packedTvalDetection_frame e _ _ (by simp),
    doubleLayoutDetection_frame e _ t2 _ h2 (by simp), unalignedAccessDetection_flag]

theorem profileProcessing_unaligned (p : Int) (t T : Table)
    (h : profileProcessing p t = .ok T) :
    T .DUK_USE_HASHBYTES_UNALIGNED_U32_ACCESS = t .DUK_USE_UNALIGNED_ACCESSES_POSSIBLE ∧
    T .DUK_USE_HOBJECT_UNALIGNED_LAYOUT = t .DUK_USE_UNALIGNED_ACCESSES_POSSIBLE := by
  unfold profileProcessing profileModifications at h
  repeat' split at h
  all_goals first
    | (injection h with h; subst h
       simp [unalignedAccessSettings_apply, fullProfileSettings])
    | simp at h

/-- Value of the two unaligned access flags in a configuration resolved with
a selector above 0. -/
theorem resolved_unaligned_flags (p : Int) (hp : p > 0) (e : Env) (t cfg : Table)
    (h : duk_features (some p) e t = .ok cfg) :
    cfg .DUK_USE_HASHBYTES_UNALIGNED_U32_ACCESS = (!armFamily e) ∧
    cfg .DUK_USE_HOBJECT_UNALIGNED_LAYOUT = (!armFamily e) := by
  obtain ⟨t1, T, h1, hT, hfr⟩ := duk_features_profile (some p) e t cfg h (fun _ => hp)
  have hT2 : profileProcessing p t1 = .ok T := hT
  rw [hfr _ (by simp [postProfileWrites]), hfr _ (by simp [postProfileWrites]),
    (profileProcessing_unaligned p t1 T hT2).1, (profileProcessing_unaligned p t1 T hT2).2,
    platformStage_unaligned e t t1 h1]
  exact ⟨rfl, rfl⟩

/-- C22: for every selector of the catalog, a resolved configuration has
`DUK_USE_HASHBYTES_UNALIGNED_U32_ACCESS` and
`DUK_USE_HOBJECT_UNALIGNED_LAYOUT` both defined when none of `__arm__`,
`__thumb__`, `_ARM`, `_M_ARM` is defined and both undefined when one of them
is; the outcome for the two flags is the same for the ten selectors, and for
no selector, on the same facts. -/
theorem unaligned_flags_iff_not_arm (p : Int) (hp : p ∈ catalog) (e : Env) (t : Table) :
    (armFamily e = true ↔
      e.__arm__ = true ∨ e.__thumb__ = true ∨ e._ARM = true ∨ e._M_ARM = true) ∧
    (∀ cfg, duk_features (some p) e t = .ok cfg →
      (armFamily e = false →
        cfg .DUK_USE_HASHBYTES_UNALIGNED_U32_ACCESS = true ∧
        cfg .DUK_USE_HOBJECT_UNALIGNED_LAYOUT = true) ∧
      (armFamily e = true →
        cfg .DUK_USE_HASHBYTES_UNALIGNED_U32_ACCESS = false ∧
        cfg .DUK_USE_HOBJECT_UNALIGNED_LAYOUT = false)) ∧
    flagOf (duk_features (some p) e t) .DUK_USE_HASHBYTES_UNALIGNED_U32_ACCESS =
      (if (validPlatformFacts e && noObsoleteDebugDefine t) = true
       then some (!armFamily e) else none) ∧
    flagOf (duk_features (some p) e t) .DUK_USE_HOBJECT_UNALIGNED_LAYOUT =
      (if (validPlatformFacts e && noObsoleteDebugDefine t) = true
       then some (!armFamily e) else none) ∧
    (∀ q, q ∈ catalog →
      flagOf (duk_features (some q) e t) .DUK_USE_HASHBYTES_UNALIGNED_U32_ACCESS =
        flagOf (duk_features (some p) e t) .DUK_USE_HASHBYTES_UNALIGNED_U32_ACCESS ∧
      flagOf (duk_features (some q) e t) .DUK_USE_HOBJECT_UNALIGNED_LAYOUT =
        flagOf (duk_features (some p) e t) .DUK_USE_HOBJECT_UNALIGNED_LAYOUT) ∧
    flagOf (duk_features none e t) .DUK_USE_HASHBYTES_UNALIGNED_U32_ACCESS =
      flagOf (duk_features (some p) e t) .DUK_USE_HASHBYTES_UNALIGNED_U32_ACCESS ∧
    flagOf (duk_features none e t) .DUK_USE_HOBJECT_UNALIGNED_LAYOUT =
      flagOf (duk_features (some p) e t) .DUK_USE_HOBJECT_UNALIGNED_LAYOUT := by
  have hhash : ∀ q, q ∈ catalog →
      flagOf (duk_features (some q) e t) .DUK_USE_HASHBYTES_UNALIGNED_U32_ACCESS =
        (if (validPlatformFacts e && noObsoleteDebugDefine t) = true
         then some (!armFamily e) else none) :=
    fun q hq => flagOf_catalog (some q) e t _ _ (defaultProfile_some_catalog q hq)
      (fun cfg h => (resolved_unaligned_flags q (catalog_pos q hq) e t cfg h).1)
  have hobj : ∀ q, q ∈ catalog →
      flagOf (duk_features (some q) e t) .DUK_USE_HOBJECT_UNALIGNED_LAYOUT =
        (if (validPlatformFacts e && noObsoleteDebugDefine t) = true
         then some (!armFamily e) else none) :=
    fun q hq => flagOf_catalog (some q) e t _ _ (defaultProfile_some_catalog q hq)
      (fun cfg h => (resolved_unaligned_flags q (catalog_pos q hq) e t cfg h).2)
  refine ⟨armFamily_iff e, ?_, hhash p hp, hobj p hp, fun q hq => ?_, ?_, ?_⟩
  · intro cfg h
    obtain ⟨h1, h2⟩ := resolved_unaligned_flags p (catalog_pos p hp) e t cfg h
    rw [h1, h2]
    constructor <;> intro ha <;> simp [ha]
  · rw [hhash q hq, hhash p hp, hobj q hq, hobj p hp]
    exact ⟨rfl, rfl⟩
  · rw [hhash p hp]
    exact flagOf_none_selector e t _ _ (hhash 100 (by decide)) (hhash 400 (by decide))
  · rw [hobj p hp]
    exact flagOf_none_selector e t _ _ (hobj 100 (by decide)) (hobj 400 (by decide))

/-- Witness of C22 on Linux with GCC: on i386 for the selector TINY, on ARM
and in Thumb mode for the selectors FULL and TORTURE_DEBUG. -/
theorem unaligned_flags_iff_not_arm_witness :
    (300 : Int) ∈ catalog ∧ armFamily linux_gcc_i386 = false ∧
    flagOf (duk_features (some 300) linux_gcc_i386 emptyTable)
      .DUK_USE_HASHBYTES_UNALIGNED_U32_ACCESS = some true ∧
    flagOf (duk_features (some 300) linux_gcc_i386 emptyTable)
      .DUK_USE_HOBJECT_UNALIGNED_LAYOUT = some true ∧
    armFamily linux_gcc_arm_fpa = true ∧
    flagOf (duk_features (some 100) linux_gcc_arm_fpa emptyTable)
      .DUK_USE_HASHBYTES_UNALIGNED_U32_ACCESS = some false ∧
    armFamily linux_gcc_thumb = true ∧
    flagOf (duk_features (some 501) linux_gcc_thumb emptyTable)
      .DUK_USE_HOBJECT_UNALIGNED_LAYOUT = some false :=
  ⟨by decide, by decide,
   (unaligned_flags_iff_not_arm 300 (by decide) linux_gcc_i386 emptyTable).2.2.1.trans
     (by decide),
   (unaligned_flags_iff_not_arm 300 (by decide) linux_gcc_i386 emptyTable).2.2.2.1.trans
     (by decide),
   by decide,
   (unaligned_flags_iff_not_arm 100 (by decide) linux_gcc_arm_fpa emptyTable).2.2.1.trans
     (by decide),
   by decide,
   (unaligned_flags_iff_not_arm 501 (by decide) linux_gcc_thumb emptyTable).2.2.2.1.trans
     (by decide)⟩

end DukFeatures
